import Mathlib

/-!
# Preview recompute controller of RawTherapee (`rtengine/improccoordinator.cc`)

A shallow embedding of `ImProcCoordinator` (edit coalescing, the worker loop
`process()`, the stage dispatch of `updatePreviewImage`) and of the parts of
`RawImageSource` that the dispatch relies on (`rawimagesource.cc`).

Conventions of the embedding

* A change mask is a C `int` holding a union of non-negative flag bits; it is
  carried as a `Nat` with `|||` and `&&&`.  A C condition `x & y` is
  `x &&& y ≠ 0`.
* `refreshmap.h`, `procparams.h`, the `options` and `settings` globals and the
  classes `ImProcFunctions`, `ColorTemp`, `Crop` are not among the sources.
  The mask constants are the fields of `RefreshMap`, the method names the
  fields of `MethodNames`, and what the absent collaborators return is read
  from `Collab`.
* `double` values are carried as exact rationals.
* The two mutexes are not state: a critical section of `paramsUpdateMutex`
  is one atomic step, and a whole `updatePreviewImage` call (which holds
  `mProcessing`) is one step of the worker.
* Calls into collaborators are recorded, in program order, as a list of
  `Event`s.
-/

namespace rtengine

set_option maxRecDepth 1000000

/-! ## Mask vocabulary (`refreshmap.h`, taken as a parameter) -/

/-- The mask constants used by `improccoordinator.cc`. -/
structure RefreshMap where
  M_VOID : Nat
  M_HIGHQUAL : Nat
  M_MONITOR : Nat
  M_RETINEX : Nat
  M_CROP : Nat
  M_PREPROC : Nat
  M_RAW : Nat
  M_INIT : Nat
  M_LINDENOISE : Nat
  M_HDR : Nat
  M_TRANSFORM : Nat
  M_AUTOEXP : Nat
  M_RGBCURVE : Nat
  M_LUMACURVE : Nat
  M_LUMINANCE : Nat
  M_COLOR : Nat
  ALL : Nat
  TRANSFORM : Nat
  CROP : Nat
  MINUPDATE : Nat
  deriving DecidableEq, Repr

/-- Modelled from the spec: `refreshmap.h` is missing from the sources.  One
bit per pipeline stage or stage group, flags OR-combine, the no-op value
`M_VOID` is a bit higher than the rest and `ALL` is the union of the stage
bits (without the high-quality bit). -/
def refreshMap : RefreshMap where
  M_VOID := 2 ^ 17
  MINUPDATE := 2 ^ 16
  M_HIGHQUAL := 2 ^ 15
  M_MONITOR := 2 ^ 14
  M_RETINEX := 2 ^ 13
  M_CROP := 2 ^ 12
  M_PREPROC := 2 ^ 11
  M_RAW := 2 ^ 10
  M_INIT := 2 ^ 9
  M_LINDENOISE := 2 ^ 8
  M_HDR := 2 ^ 7
  M_TRANSFORM := 2 ^ 6
  M_AUTOEXP := 2 ^ 4
  M_RGBCURVE := 2 ^ 3
  M_LUMACURVE := 2 ^ 2
  M_LUMINANCE := 2 ^ 1
  M_COLOR := 2 ^ 0
  ALL := 2 ^ 14 + 2 ^ 11 + 2 ^ 10 + 2 ^ 9 + 2 ^ 8 + 2 ^ 7 + 2 ^ 6 + 2 ^ 5
    + 2 ^ 4 + 2 ^ 3 + 2 ^ 2 + 2 ^ 1 + 2 ^ 0
  TRANSFORM := 2 ^ 6 + 2 ^ 5 + 2 ^ 4 + 2 ^ 3 + 2 ^ 2 + 2 ^ 1 + 2 ^ 0
  CROP := 2 ^ 12

/-- The demosaic method names returned by `getMethodString` (defined in
`procparams.cc`, which is missing from the sources). -/
structure MethodNames where
  bayerNONE : String
  bayerFAST : String
  bayerPIXELSHIFT : String
  xtransNONE : String
  xtransFAST : String
  deriving DecidableEq, Repr

/-- A sample table of method names for concrete evaluation. -/
def methodNames : MethodNames where
  bayerNONE := "none"
  bayerFAST := "fast"
  bayerPIXELSHIFT := "pixelshift"
  xtransNONE := "none"
  xtransFAST := "fast"

/-! ## Parameter snapshot (`ProcParams`) -/

/-- The fields of a parameter sub-group that the coordinator never reads,
in an injective encoding. -/
abbrev FieldData := Nat

/-- Tone curve modes; `FILMLIKE` is the one assigned by histogram matching. -/
inductive TcMode where
  | STD
  | FILMLIKE
  | OTHER (n : Nat)
  deriving DecidableEq, Repr

structure ToneCurveParams where
  autoexp : Bool
  clip : ℚ
  hrenabled : Bool
  method : String
  expcomp : ℚ
  curve : List ℚ
  curve2 : List ℚ
  curveMode : TcMode
  brightness : Int
  black : Int
  contrast : Int
  hlcompr : Int
  hlcomprthresh : Int
  histmatching : Bool
  fromHistMatching : Bool
  rest : FieldData
  deriving DecidableEq, Repr

structure WBParams where
  enabled : Bool
  method : String
  temperature : Int
  green : ℚ
  equal : ℚ
  tempBias : ℚ
  deriving DecidableEq, Repr

structure BayerSensor where
  method : String
  border : Int
  imageNum : Nat
  ccSteps : Int
  dualDemosaicAutoContrast : Bool
  dualDemosaicContrast : ℚ
  rest : FieldData
  deriving DecidableEq, Repr

structure XTransSensor where
  method : String
  dualDemosaicAutoContrast : Bool
  dualDemosaicContrast : ℚ
  ccSteps : Int
  rest : FieldData
  deriving DecidableEq, Repr

structure RAWParams where
  bayersensor : BayerSensor
  xtranssensor : XTransSensor
  ff_AutoClipControl : Bool
  ca_autocorrect : Bool
  cared : ℚ
  cablue : ℚ
  expos : ℚ
  rest : FieldData
  deriving DecidableEq, Repr

structure RetinexParams where
  enabled : Bool
  rest : FieldData
  deriving DecidableEq, Repr

structure FattalToneMappingParams where
  enabled : Bool
  rest : FieldData
  deriving DecidableEq, Repr

structure DehazeParams where
  enabled : Bool
  rest : FieldData
  deriving DecidableEq, Repr

structure DirPyrEqualizerParams where
  enabled : Bool
  cbdlMethod : String
  rest : FieldData
  deriving DecidableEq, Repr

structure ColorAppearanceParams where
  enabled : Bool
  tonecie : Bool
  autodegree : Bool
  autodegreeout : Bool
  autoadapscen : Bool
  autoybscen : Bool
  rest : FieldData
  deriving DecidableEq, Repr

structure ColorManagementParams where
  workingProfile : String
  workingTRC : String
  outputProfile : String
  outputIntent : Nat
  outputBPC : Bool
  rest : FieldData
  deriving DecidableEq, Repr

structure ColorToningParams where
  enabled : Bool
  autosat : Bool
  method : String
  rest : FieldData
  deriving DecidableEq, Repr

structure BlackWhiteParams where
  enabled : Bool
  autoc : Bool
  rest : FieldData
  deriving DecidableEq, Repr

structure WaveletParams where
  enabled : Bool
  rest : FieldData
  deriving DecidableEq, Repr

/-- The parameter snapshot.  The first thirty-three sub-groups are the ones
compared in `process()`; `sharpening`, `sharpenEdge`, `sharpenMicro`,
`dirpyrDenoise` and `localwb` are sub-groups the sources mention that are not
compared there. -/
structure ProcParams where
  toneCurve : ToneCurveParams
  labCurve : FieldData
  localContrast : FieldData
  rgbCurves : FieldData
  colorToning : ColorToningParams
  vibrance : FieldData
  wb : WBParams
  colorappearance : ColorAppearanceParams
  epd : FieldData
  fattal : FattalToneMappingParams
  sh : FieldData
  crop : FieldData
  coarse : FieldData
  commonTrans : FieldData
  rotate : FieldData
  distortion : FieldData
  lensProf : FieldData
  perspective : FieldData
  gradient : FieldData
  pcvignette : FieldData
  cacorrection : FieldData
  vignetting : FieldData
  chmixer : FieldData
  blackwhite : BlackWhiteParams
  icm : ColorManagementParams
  hsvequalizer : FieldData
  filmSimulation : FieldData
  softlight : FieldData
  raw : RAWParams
  retinex : RetinexParams
  wavelet : WaveletParams
  dirpyrequalizer : DirPyrEqualizerParams
  dehaze : DehazeParams
  sharpening : FieldData
  sharpenEdge : FieldData
  sharpenMicro : FieldData
  dirpyrDenoise : FieldData
  localwb : FieldData
  deriving DecidableEq, Repr

/-! ## The coordinator state -/

/-- The global option `options.prevdemo`. -/
inductive PrevDemo where
  | PD_Full
  | PD_Sidecar
  deriving DecidableEq, Repr

inductive SensorType where
  | ST_NONE
  | ST_BAYER
  | ST_FUJI_XTRANS
  | ST_FOVEON
  deriving DecidableEq, Repr

/-- What the coordinator reads from a registered crop window
(`Crop::get_skip`, `Crop::hasListener`). -/
structure Crop where
  skip : Int
  hasListener : Bool
  deriving DecidableEq, Repr

/-- The fields of `RawImageSource` that the coordinator depends on. -/
structure RawImageSource where
  sensorType : SensorType
  numFrames : Nat
  rgbSourceModified : Bool
  rawDirty : Bool
  W : Int
  H : Int
  fuji : Bool
  fujiWidth : Int
  d1x : Bool
  rotateDegree : Int
  border : Int
  deriving DecidableEq, Repr

/-- A colour temperature value (class `ColorTemp`). -/
structure ColorTemp where
  temp : ℚ
  green : ℚ
  equal : ℚ
  method : String
  deriving DecidableEq, Repr

/-- An allocated pixel buffer: its identity and its dimensions. -/
structure ImageBuf where
  id : Nat
  width : Int
  height : Int
  deriving DecidableEq, Repr

/-- Which listeners are registered (a null pointer is `false`);
`sizeListeners` is the number of registered size listeners. -/
structure Listeners where
  plistener : Bool
  imageListener : Bool
  aeListener : Bool
  acListener : Bool
  abwListener : Bool
  awbListener : Bool
  flatFieldAutoClipListener : Bool
  bayerAutoContrastListener : Bool
  xtransAutoContrastListener : Bool
  frameCountListener : Bool
  imageTypeListener : Bool
  actListener : Bool
  dehaListener : Bool
  hListener : Bool
  sizeListeners : Nat
  deriving DecidableEq, Repr

/-- The member variables of `ImProcCoordinator` that take part in scheduling,
dispatch and buffer management.  `thread` says whether the thread pointer is
non-null, `threadsCreated` counts the calls of `Glib::Thread::create`, and
`nextId` is the identity given to the next allocated buffer. -/
structure ImProcCoordinator where
  params : ProcParams
  nextParams : ProcParams
  changeSinceLast : Nat
  updaterRunning : Bool
  destroying : Bool
  thread : Bool
  threadsCreated : Nat
  highDetailPreprocessComputed : Bool
  highDetailRawComputed : Bool
  highQualityComputed : Bool
  crops : List Crop
  imgsrc : RawImageSource
  listeners : Listeners
  scale : Int
  fw : Int
  fh : Int
  tr : Nat
  fullw : Int
  fullh : Int
  pW : Int
  pH : Int
  allocated : Bool
  resultValid : Bool
  orig_prev : Option ImageBuf
  oprevi : Option ImageBuf
  oprevl : Option ImageBuf
  nprevl : Option ImageBuf
  ncie : Option ImageBuf
  previmg : Option ImageBuf
  workimg : Option ImageBuf
  nextId : Nat
  fattal_11_dcrop_cache : Bool
  lastOutputProfile : String
  lastOutputIntent : Nat
  lastOutputBPC : Bool
  lastAwbEqual : ℚ
  lastAwbTempBias : ℚ
  autoWB : ColorTemp
  currWB : ColorTemp
  deriving DecidableEq, Repr

/-! ## Change coalescer and transactional parameter update -/

/-- The C test `todo & bits`. -/
def testBits (todo bits : Nat) : Bool := todo &&& bits != 0

/-- Transcribes `ImProcCoordinator::startProcessing()`: unless the coordinator
is being destroyed or the updater already runs, mark the updater running and
create the worker thread. -/
def startProcessing (c : ImProcCoordinator) : ImProcCoordinator :=
  if !c.destroying then
    if !c.updaterRunning then
      { c with updaterRunning := true, thread := true,
               threadsCreated := c.threadsCreated + 1 }
    else c
  else c

/-- Transcribes `ImProcCoordinator::startProcessing(int changeCode)`. -/
def startProcessingWith (changeCode : Nat) (c : ImProcCoordinator) : ImProcCoordinator :=
  startProcessing { c with changeSinceLast := c.changeSinceLast ||| changeCode }

/-- Transcribes `ImProcCoordinator::beginUpdateParams()`: takes the parameter
lock and hands out `nextParams`; no member changes. -/
def beginUpdateParams (c : ImProcCoordinator) : ImProcCoordinator := c

/-- Transcribes `ImProcCoordinator::endUpdateParams(int changeFlags)`. -/
def endUpdateParams (changeFlags : Nat) (c : ImProcCoordinator) : ImProcCoordinator :=
  startProcessing { c with changeSinceLast := c.changeSinceLast ||| changeFlags }

/-- One submission to the coalescer: an edit transaction
(`beginUpdateParams`, the caller writes `nextParams`, `endUpdateParams`) or a
call of `startProcessing(int)`. -/
inductive Submission where
  | edit (change : ProcParams → ProcParams) (bits : Nat)
  | start (bits : Nat)

/-- The mask carried by a submission. -/
def Submission.bits : Submission → Nat
  | .edit _ b => b
  | .start b => b

/-- The caller thread performs one submission. -/
def submit (c : ImProcCoordinator) : Submission → ImProcCoordinator
  | .edit change bits =>
      let c1 := beginUpdateParams c
      endUpdateParams bits { c1 with nextParams := change c1.nextParams }
  | .start bits => startProcessingWith bits c

/-- The caller thread performs a sequence of submissions, in order. -/
def submitAll (c : ImProcCoordinator) (subs : List Submission) : ImProcCoordinator :=
  subs.foldl submit c

/-! ## Collaborators and the record of their calls -/

/-- Result of `ImProcFunctions::getAutoExp`. -/
structure AutoExpResult where
  expcomp : ℚ
  brightness : Int
  contrast : Int
  black : Int
  hlcompr : Int
  hlcomprthresh : Int
  deriving DecidableEq, Repr

/-- How the WCS to monitor / output conversion of a run ends: both calls
return, or one of them throws. -/
inductive Conversion where
  | ok
  | lab2monitorRgbThrows
  | lab2rgbThrows
  deriving DecidableEq, Repr

/-- What the collaborators missing from the sources answer during one run:
the globals `options.prevdemo` and `settings->autocielab`, the queries of
`ImProcFunctions`, the `ColorTemp` operations, the automatic white balance,
exposure and tone-curve results, and the outcome of the colour conversion. -/
structure Collab where
  prevdemo : PrevDemo
  autocielab : Bool
  needsPCVignetting : ProcParams → Bool
  needsTransform : ProcParams → Bool
  getCoarseBitMask : FieldData → Nat
  colorTemp : Int → ℚ → ℚ → String → ColorTemp
  colorTempDefault : ColorTemp
  cameraWB : ColorTemp
  autoWBMultipliers : ℚ × ℚ × ℚ
  autoWBupdate : ColorTemp → ℚ × ℚ × ℚ → ℚ → ℚ → ColorTemp
  autoWBuseDefaults : ColorTemp → ℚ → ColorTemp
  getAutoExp : ToneCurveParams → AutoExpResult
  getAutoMatchedToneCurve : ColorManagementParams → List ℚ → List ℚ
  conversion : Conversion

/-- The collaborator and listener functions whose calls are recorded without
arguments. -/
inductive Call where
  | CA_correct_RT
  | flatFieldAutoClipValueChanged
  | getRAWHistogram
  | imageTypeChanged
  | retinexPrepareBuffers
  | retinexPrepareCurves
  | retinex
  | minmaxChanged
  | HLRecovery_inpaint
  | getAutoWBMultipliers
  | delImage
  | getImage
  | convertColorSpace
  | firstAnalysis
  | dehaze
  | ToneMapFattal02
  | transform
  | copyData
  | rgb2lab
  | dirpyrequalizerCbdl
  | lab2rgbWorking
  | getAutoExp
  | autoExpChanged
  | getAutoMatchedToneCurve
  | autoMatchedToneCurveChanged
  | workingtrc
  | complexCurve
  | RGBCurve
  | colorToningCurves
  | curveBW
  | moyeqt
  | autoColorTonChanged
  | rgbProc
  | BWChanged
  | complexLCurve
  | curveCL
  | complexsgnCurve
  | chromiLuminanceCurve
  | vibrance
  | labColorCorrectionRegions
  | EPDToneMap
  | dirpyrequalizer
  | curveWavContL
  | ip_wavelet
  | softLight
  | ciecam_02float
  | autoCamChanged
  | adapCamChanged
  | ybCamChanged
  | updateColorProfiles
  | lab2monitorRgb
  | lab2rgb
  | setImage
  | imageReady
  | updateLRGBHistograms
  | histogramChanged
  deriving DecidableEq, Repr

/-- A call into a collaborator or a listener, or of the coordinator's own
`setScale`; the calls the properties below speak about carry their
arguments. -/
inductive Event where
  | FrameCountChanged (imageNum : Nat)
  | setCurrentFrame (imageNum : Nat)
  | preprocess (rp : RAWParams) (lensProf : FieldData) (coarse : FieldData)
  | setBorder (border : Int)
  | demosaic (rp : RAWParams) (autoContrast : Bool) (contrastThreshold : ℚ)
  | autoContrastChanged (bayer : Bool)
  | HLRecovery_Global (hrp : ToneCurveParams)
  | WBChanged (temperature : Int) (green : ℚ)
  | sizeChanged (fullw fullh fw fh : Int)
  | newImagefloat (buf : ImageBuf)
  | cropUpdate (index : Nat) (todo : Nat)
  | setScale (prevscale : Int)
  | call (f : Call)
  deriving DecidableEq, Repr

/-! ## `RawImageSource` (`rawimagesource.cc`) -/

/-- Modelled from the spec: the coarse-transform bit constants of `iimage.h`,
which is missing from the sources; two rotation bits, one bit per flip. -/
def TR_ROT : Nat := 3

/-- Modelled from the spec: see `TR_ROT`. -/
def TR_R90 : Nat := 1

/-- Modelled from the spec: see `TR_ROT`. -/
def TR_R180 : Nat := 2

/-- Modelled from the spec: see `TR_ROT`. -/
def TR_R270 : Nat := 3

/-- Modelled from the spec: see `TR_ROT`. -/
def TR_VFLIP : Nat := 4

/-- Modelled from the spec: see `TR_ROT`. -/
def TR_HFLIP : Nat := 8

/-- Transcribes `RawImageSource::defTransform`. -/
def RawImageSource.defTransform (src : RawImageSource) (tran : Nat) : Nat :=
  let deg0 := src.rotateDegree
  let deg1 :=
    if tran &&& TR_ROT = TR_R180 then deg0 + 180
    else if tran &&& TR_ROT = TR_R90 then deg0 + 90
    else if tran &&& TR_ROT = TR_R270 then deg0 + 270
    else deg0
  let deg := Int.tmod deg1 360
  let ret0 : Nat :=
    if deg = 90 then TR_R90 else if deg = 180 then TR_R180
    else if deg = 270 then TR_R270 else 0
  let ret1 := if tran &&& TR_HFLIP ≠ 0 then ret0 ||| TR_HFLIP else ret0
  if tran &&& TR_VFLIP ≠ 0 then ret1 ||| TR_VFLIP else ret1

/-- Transcribes `RawImageSource::getFullSize`: the pair `(w, h)`. -/
def RawImageSource.getFullSize (src : RawImageSource) (tr0 : Nat) : Int × Int :=
  let tr := src.defTransform tr0
  let wh : Int × Int :=
    if src.fuji then (src.fujiWidth * 2 + 1, (src.H - src.fujiWidth) * 2 + 1)
    else if src.d1x then (src.W, 2 * src.H)
    else (src.W, src.H)
  let wh1 : Int × Int :=
    if tr &&& TR_ROT = TR_R90 ∨ tr &&& TR_ROT = TR_R270 then (wh.2, wh.1) else wh
  (wh1.1 - 2 * src.border, wh1.2 - 2 * src.border)

/-- Transcribes `RawImageSource::getSize` for the request
`PreviewProps(0, 0, width, height, skip)`; C division truncates. The source
divides by `skip`, so the transcription is faithful for `skip ≠ 0` only: at
`skip = 0` the program traps on the integer division, which this total
function does not represent; its value there says nothing about the program. -/
def getSize (width height skip : Int) : Int × Int :=
  (Int.tdiv width skip + (if Int.tmod width skip > 0 then 1 else 0),
   Int.tdiv height skip + (if Int.tmod height skip > 0 then 1 else 0))

/-- The `double` literal `0.001` of the chromatic-aberration test, as the
exact rational value of that double (`1152921504606847 / 2^60`), written as
a normalised fraction. -/
def caThreshold : ℚ := ⟨1152921504606847, 1152921504606846976, by decide, by decide⟩

/-- Number of `CA_correct_RT` calls made by the chromatic-aberration step of
`RawImageSource::preprocess` for the parameters it is handed. -/
def RawImageSource.caCorrectionCalls (src : RawImageSource) (raw : RAWParams) : Nat :=
  if (raw.ca_autocorrect || decide (|raw.cared| > caThreshold)
        || decide (|raw.cablue| > caThreshold)) && src.sensorType == SensorType.ST_BAYER then
    if src.numFrames = 4 then 4 else 1
  else 0

/-- The part of `RawImageSource::preprocess` the coordinator can observe: the
call itself, the `CA_correct_RT` calls of its chromatic-aberration step, and
`rawDirty = true`.  (Bad-pixel repair, dark frame, flat field, green
equilibration, line denoise and white point are not represented.) -/
def RawImageSource.preprocess (src : RawImageSource) (raw : RAWParams)
    (lensProf coarse : FieldData) : RawImageSource × List Event :=
  ({ src with rawDirty := true },
   Event.preprocess raw lensProf coarse
     :: List.replicate (src.caCorrectionCalls raw) (Event.call Call.CA_correct_RT))

/-- The observable part of `RawImageSource::demosaic`: whatever the method, it
ends with `rgbSourceModified = false`. -/
def RawImageSource.demosaic (src : RawImageSource) : RawImageSource :=
  { src with rgbSourceModified := false }

/-- The observable part of `RawImageSource::retinex`, which ends with
`rgbSourceModified = false`. -/
def RawImageSource.retinex (src : RawImageSource) : RawImageSource :=
  { src with rgbSourceModified := false }

/-- Transcribes `RawImageSource::HLRecovery_Global`. -/
def RawImageSource.HLRecovery_Global (src : RawImageSource) (hrp : ToneCurveParams) :
    RawImageSource × List Event :=
  if hrp.hrenabled && hrp.method == "Color" then
    if !src.rgbSourceModified then
      ({ src with rgbSourceModified := true }, [Event.call Call.HLRecovery_inpaint])
    else (src, [])
  else (src, [])

/-! ## One run of `updatePreviewImage`: buffers and scale -/

/-- The state of one call of `updatePreviewImage`: the coordinator, the local
`todo`, and the calls made so far. -/
structure Run where
  c : ImProcCoordinator
  todo : Nat
  events : List Event

/-- Record one call. -/
def Run.emit (r : Run) (e : Event) : Run := { r with events := r.events ++ [e] }

/-- Record several calls, in order. -/
def Run.emitAll (r : Run) (es : List Event) : Run := { r with events := r.events ++ es }

/-- Record a call made under a condition. -/
def Run.emitIf (r : Run) (b : Bool) (e : Event) : Run := if b then r.emit e else r

/-- Transcribes `ImProcCoordinator::progress`, whose body is commented out:
it does nothing, so the local `readyphase` counter is not carried. -/
def progress (r : Run) : Run := r

/-- Transcribes `ImProcCoordinator::freeAll`.  The deleted `previmg` and
`workimg` keep their (stale) pointer values, as in the source. -/
def freeAll (r : Run) : Run :=
  if r.c.allocated then
    let r1 := r.emitIf r.c.listeners.imageListener (Event.call Call.delImage)
    { r1 with c := { r1.c with oprevi := none, orig_prev := none, oprevl := none,
                               nprevl := none, ncie := none, allocated := false } }
  else { r with c := { r.c with allocated := false } }

/-- The value of a C `int` expression whose mathematical value is `x`:
32-bit two's complement, wrapping around. -/
def wrapInt (x : Int) : Int := (x + 2147483648) % 4294967296 - 2147483648

/-- The do-while loop of `setScale`: starting from `prevscale`, decrease the
scale while the height is below 400, the scale above 1 and the pixel count
below 1000000; the pixel count is the `int` product `nW * nH`, which wraps.
Returns `(prevscale, nW, nH)`.  `steps` bounds the number of decrements; with
`steps = prevscale.toNat` the bound is reached only at a scale of at most 0,
where the loop condition is false. -/
def setScaleLoop (fw fh : Int) : Nat → Int → Int × Int × Int
  | 0, prevscale =>
      let n := getSize fw fh prevscale
      (prevscale, n.1, n.2)
  | steps + 1, prevscale =>
      let n := getSize fw fh prevscale
      if n.2 < 400 ∧ prevscale > 1 ∧ wrapInt (n.1 * n.2) < 1000000 then
        setScaleLoop fw fh steps (prevscale - 1)
      else (prevscale, n.1, n.2)

/-- The block `if (nW != pW || nH != pH)` of `setScale`: free all buffers and
allocate `orig_prev` (aliased by `oprevi`), `oprevl`, `nprevl`, `previmg` and
`workimg` at the new dimensions. -/
def reallocate (nW nH : Int) (r : Run) : Run :=
  if nW ≠ r.c.pW ∨ nH ≠ r.c.pH then
    let f := freeAll r
    let i := f.c.nextId
    { f with c := { f.c with
        pW := nW, pH := nH,
        orig_prev := some ⟨i, nW, nH⟩,
        oprevi := some ⟨i, nW, nH⟩,
        oprevl := some ⟨i + 1, nW, nH⟩,
        nprevl := some ⟨i + 2, nW, nH⟩,
        previmg := some ⟨i + 3, nW, nH⟩,
        workimg := some ⟨i + 4, nW, nH⟩,
        nextId := i + 5,
        allocated := true } }
  else r

/-- The end of `setScale`: `scale`, `resultValid = false`, `fullw`, `fullh`,
and the notification of every size listener. -/
def commitScale (prevscale fw fh : Int) (r : Run) : Run :=
  let r2 : Run := { r with c := { r.c with scale := prevscale, resultValid := false,
                                           fullw := fw, fullh := fh } }
  r2.emitAll (List.replicate r2.c.listeners.sizeListeners (Event.sizeChanged fw fh fw fh))

/-- Transcribes `ImProcCoordinator::setScale`. -/
def setScale (K : Collab) (prevscale : Int) (r : Run) : Run :=
  let tr := K.getCoarseBitMask r.c.params.coarse
  let full := r.c.imgsrc.getFullSize tr
  let res := setScaleLoop full.1 full.2 prevscale.toNat prevscale
  let r0 : Run :=
    { (r.emit (Event.setScale prevscale)) with
        c := { r.c with tr := tr, fw := full.1, fh := full.2 } }
  commitScale res.1 full.1 full.2 (reallocate res.2.1 res.2.2 r0)

/-! ## One run of `updatePreviewImage`: raw stages -/

/-- The loop over `crops` looking for a window with `get_skip() == 1`. -/
def anyCropSkipOne : List Crop → Bool
  | [] => false
  | c :: cs => if c.skip = 1 then true else anyCropSkipOne cs

/-- The local `highDetailNeeded` of `updatePreviewImage`. -/
def highDetailNeeded (K : Collab) (M : RefreshMap) (crops : List Crop) (todo : Nat) : Bool :=
  let h := if K.prevdemo = PrevDemo.PD_Sidecar then true else testBits todo M.M_HIGHQUAL
  if !h then anyCropSkipOne crops else h

/-- The condition of the outer `if` of `updatePreviewImage`. -/
def outerGate (K : Collab) (M : RefreshMap) (todo : Nat) (panningRelatedChange : Bool)
    (hdn : Bool) : Bool :=
  (todo &&& M.ALL == M.ALL) || testBits todo M.M_MONITOR || panningRelatedChange
    || (hdn && K.prevdemo != PrevDemo.PD_Sidecar)

/-- The fast path: the copy `rp` of `params.raw` after the block
`if (!highDetailNeeded)`. -/
def fastPath (N : MethodNames) (rp : RAWParams) : RAWParams :=
  let rp1 : RAWParams :=
    if rp.bayersensor.method ≠ N.bayerNONE ∧ rp.bayersensor.method ≠ N.bayerNONE then
      { rp with bayersensor := { rp.bayersensor with method := N.bayerFAST } }
    else rp
  let rp2 : RAWParams :=
    if rp1.xtranssensor.method ≠ N.xtransNONE ∧ rp1.xtranssensor.method ≠ N.xtransNONE then
      { rp1 with xtranssensor := { rp1.xtranssensor with method := N.xtransFAST } }
    else rp1
  { rp2 with bayersensor := { rp2.bayersensor with ccSteps := 0 },
             xtranssensor := { rp2.xtranssensor with ccSteps := 0 } }

/-- The local `rp` handed to `preprocess` and `demosaic`. -/
def rawParamsFor (N : MethodNames) (hdn : Bool) (raw : RAWParams) : RAWParams :=
  if !hdn then fastPath N raw else raw

/-- The raw-preprocess stage. -/
def preprocessStage (M : RefreshMap) (hdn : Bool) (rp : RAWParams) (r : Run) : Run :=
  if testBits r.todo M.M_PREPROC || (!r.c.highDetailPreprocessComputed && hdn) then
    let r1 := r.emit (Event.setCurrentFrame r.c.params.raw.bayersensor.imageNum)
    let pre := r1.c.imgsrc.preprocess rp r1.c.params.lensProf r1.c.params.coarse
    let r2 : Run := { r1 with c := { r1.c with imgsrc := pre.1 } }
    let r3 := r2.emitAll pre.2
    let r4 := r3.emitIf (r3.c.listeners.flatFieldAutoClipListener && rp.ff_AutoClipControl)
                (Event.call Call.flatFieldAutoClipValueChanged)
    let r5 := r4.emit (Event.call Call.getRAWHistogram)
    { r5 with c := { r5.c with highDetailPreprocessComputed := hdn } }
  else r

/-- The condition under which demosaic is kicked off. -/
def demosaicNeeded (M : RefreshMap) (hdn : Bool) (r : Run) : Bool :=
  testBits r.todo M.M_RAW
    || (!r.c.highDetailRawComputed && hdn)
    || (r.c.params.toneCurve.hrenabled && r.c.params.toneCurve.method != "Color"
          && r.c.imgsrc.rgbSourceModified)
    || (!r.c.params.toneCurve.hrenabled && r.c.params.toneCurve.method == "Color"
          && r.c.imgsrc.rgbSourceModified)

/-- The local `autoContrast` of the demosaic block. -/
def autoContrastFor (sensor : SensorType) (raw : RAWParams) : Bool :=
  if sensor == SensorType.ST_BAYER then raw.bayersensor.dualDemosaicAutoContrast
  else raw.xtranssensor.dualDemosaicAutoContrast

/-- The local `contrastThreshold` of the demosaic block. -/
def contrastThresholdFor (sensor : SensorType) (raw : RAWParams) : ℚ :=
  if sensor == SensorType.ST_BAYER then raw.bayersensor.dualDemosaicContrast
  else raw.xtranssensor.dualDemosaicContrast

/-- The `setBorder` call that precedes demosaic on a Bayer sensor. -/
def borderStep (N : MethodNames) (r : Run) : Run :=
  if r.c.imgsrc.sensorType == SensorType.ST_BAYER then
    let raw := r.c.params.raw
    let b := if raw.bayersensor.method ≠ N.bayerPIXELSHIFT then raw.bayersensor.border
             else max raw.bayersensor.border 2
    { (r.emit (Event.setBorder b)) with
        c := { r.c with imgsrc := { r.c.imgsrc with border := b } } }
  else r

/-- The demosaic call and what follows it inside the demosaic block: the
auto-contrast notifications, `todo |= M_INIT`, the detail memo, and the
retinex buffers. -/
def demosaicCall (M : RefreshMap) (hdn : Bool) (rp : RAWParams) (r : Run) : Run :=
  let bayer := r.c.imgsrc.sensorType == SensorType.ST_BAYER
  let xtrans := r.c.imgsrc.sensorType == SensorType.ST_FUJI_XTRANS
  let autoContrast := autoContrastFor r.c.imgsrc.sensorType r.c.params.raw
  let r2 := r.emit (Event.demosaic rp autoContrast (contrastThresholdFor r.c.imgsrc.sensorType r.c.params.raw))
  let r3 : Run := { r2 with c := { r2.c with imgsrc := r2.c.imgsrc.demosaic } }
  let r4 := r3.emitIf (bayer && r3.c.listeners.bayerAutoContrastListener && autoContrast)
              (Event.autoContrastChanged true)
  let r5 := r4.emitIf (xtrans && r4.c.listeners.xtransAutoContrastListener && autoContrast)
              (Event.autoContrastChanged false)
  let r6 : Run := { r5 with todo := r5.todo ||| M.M_INIT }
  let r7 : Run := { r6 with c := { r6.c with highDetailRawComputed := hdn } }
  r7.emitIf r7.c.params.retinex.enabled (Event.call Call.retinexPrepareBuffers)

/-- The demosaic stage. -/
def demosaicStage (M : RefreshMap) (N : MethodNames) (hdn : Bool) (rp : RAWParams)
    (r : Run) : Run :=
  if demosaicNeeded M hdn r then demosaicCall M hdn rp (borderStep N r) else r

/-- The retinex stage. -/
def retinexStage (M : RefreshMap) (r : Run) : Run :=
  if testBits r.todo (M.M_RETINEX ||| M.M_INIT) && r.c.params.retinex.enabled then
    let r1 := (r.emit (Event.call Call.retinexPrepareCurves)).emit (Event.call Call.retinex)
    let r2 : Run := { r1 with c := { r1.c with imgsrc := r1.c.imgsrc.retinex } }
    r2.emitIf r2.c.listeners.dehaListener (Event.call Call.minmaxChanged)
  else r

/-! ## One run of `updatePreviewImage`: init, tone mapping, transform -/

/-- Conversion of a `double` to `int`: truncation towards zero. -/
def truncToInt (q : ℚ) : Int := Int.tdiv q.num q.den

/-- The white-balance block of the init stage: computes `currWB` (refreshing
the cached automatic white balance when `equal` or `tempBias` changed), writes
temperature and green back into `params.wb` when white balance is enabled,
and notifies the auto-WB listener. -/
def whiteBalance (K : Collab) (r : Run) : Run :=
  let wb := r.c.params.wb
  let r1 : Run :=
    if !wb.enabled then { r with c := { r.c with currWB := K.colorTempDefault } }
    else if wb.method == "Camera" then { r with c := { r.c with currWB := K.cameraWB } }
    else if wb.method == "Auto" then
      let ra : Run :=
        if r.c.lastAwbEqual ≠ wb.equal ∨ r.c.lastAwbTempBias ≠ wb.tempBias then
          let m := K.autoWBMultipliers
          let rm := r.emit (Event.call Call.getAutoWBMultipliers)
          if m.1 ≠ -1 then
            { rm with c := { rm.c with
                autoWB := K.autoWBupdate rm.c.autoWB m wb.equal wb.tempBias,
                lastAwbEqual := wb.equal, lastAwbTempBias := wb.tempBias } }
          else
            { rm with c := { rm.c with
                lastAwbEqual := -1, lastAwbTempBias := 0,
                autoWB := K.autoWBuseDefaults rm.c.autoWB wb.equal } }
        else r
      { ra with c := { ra.c with currWB := ra.c.autoWB } }
    else
      { r with c := { r.c with
          currWB := K.colorTemp wb.temperature wb.green wb.equal wb.method } }
  let r2 : Run :=
    if wb.enabled then
      { r1 with c := { r1.c with params := { r1.c.params with
          wb := { r1.c.params.wb with temperature := truncToInt r1.c.currWB.temp,
                                      green := r1.c.currWB.green } } } }
    else r1
  r2.emitIf (wb.method == "Auto" && r2.c.listeners.awbListener && wb.enabled)
    (Event.WBChanged r2.c.params.wb.temperature r2.c.params.wb.green)

/-- The call `imgsrc->HLRecovery_Global(params.toneCurve)` of the init
stage. -/
def highlightRecovery (r : Run) : Run :=
  let hl := r.c.imgsrc.HLRecovery_Global r.c.params.toneCurve
  ({ (r.emit (Event.HLRecovery_Global r.c.params.toneCurve)) with
       c := { r.c with imgsrc := hl.1 } } : Run).emitAll hl.2

/-- The call `imgsrc->getFullSize(fw, fh, tr)` of the init stage, with the
local `tr = getCoarseBitMask(params.coarse)`. -/
def fullSize (K : Collab) (r : Run) : Run :=
  let full := r.c.imgsrc.getFullSize (K.getCoarseBitMask r.c.params.coarse)
  { r with c := { r.c with fw := full.1, fh := full.2 } }

/-- The end of the init stage: `setScale(scale)`, `getImage`,
`convertColorSpace`, `firstAnalysis`. -/
def loadPreview (K : Collab) (r : Run) : Run :=
  (((setScale K r.c.scale r).emit (Event.call Call.getImage)).emit
    (Event.call Call.convertColorSpace)).emit (Event.call Call.firstAnalysis)

/-- The white-balance / init stage (`HLRecovery_Global`, white balance,
`setScale`, `getImage`, `convertColorSpace`, `firstAnalysis`). -/
def initStage (K : Collab) (M : RefreshMap) (r : Run) : Run :=
  if testBits r.todo (M.M_INIT ||| M.M_LINDENOISE ||| M.M_HDR) then
    loadPreview K (fullSize K (whiteBalance K (highlightRecovery r)))
  else r

/-- The HDR tone-mapping stage, followed by `oprevi = orig_prev`. -/
def hdrStage (M : RefreshMap) (r : Run) : Run :=
  let r1 : Run :=
    if testBits r.todo M.M_HDR
        && (r.c.params.fattal.enabled || r.c.params.dehaze.enabled) then
      let ra : Run := { r with c := { r.c with fattal_11_dcrop_cache := false } }
      (ra.emit (Event.call Call.dehaze)).emit (Event.call Call.ToneMapFattal02)
    else r
  { r1 with c := { r1.c with oprevi := r1.c.orig_prev } }

/-- The condition shared by the transform stage and the contrast-by-detail
pre-pass: `(todo & (M_TRANSFORM | M_RGBCURVE)) && cbdlMethod == "bef" &&
dirpyrequalizer.enabled && !colorappearance.enabled`. -/
def cbdlBefore (M : RefreshMap) (r : Run) : Bool :=
  testBits r.todo (M.M_TRANSFORM ||| M.M_RGBCURVE)
    && r.c.params.dirpyrequalizer.cbdlMethod == "bef"
    && r.c.params.dirpyrequalizer.enabled && !r.c.params.colorappearance.enabled

/-- The geometry-transform stage. -/
def transformStage (K : Collab) (M : RefreshMap) (r : Run) : Run :=
  let needstransform := K.needsTransform r.c.params
  if needstransform || cbdlBefore M r then
    let buf : ImageBuf := ⟨r.c.nextId, r.c.pW, r.c.pH⟩
    let r1 : Run :=
      { (r.emit (Event.newImagefloat buf)) with
          c := { r.c with oprevi := some buf, nextId := r.c.nextId + 1 } }
    if needstransform then r1.emit (Event.call Call.transform)
    else r1.emit (Event.call Call.copyData)
  else r

/-- The contrast-by-detail pre-pass. -/
def cbdlStage (M : RefreshMap) (r : Run) : Run :=
  if cbdlBefore M r then
    ((r.emit (Event.call Call.rgb2lab)).emit (Event.call Call.dirpyrequalizerCbdl)).emit
      (Event.call Call.lab2rgbWorking)
  else r

/-! ## One run of `updatePreviewImage`: curves, colour, monitor -/

/-- The block `if (params.toneCurve.autoexp)` of the auto-exposure stage;
`getAutoExp` writes its results into `params.toneCurve`. -/
def autoExposure (K : Collab) (r : Run) : Run :=
  if r.c.params.toneCurve.autoexp then
    let a := K.getAutoExp r.c.params.toneCurve
    let ra := r.emit (Event.call Call.getAutoExp)
    let rb : Run := { ra with c := { ra.c with params := { ra.c.params with
      toneCurve := { ra.c.params.toneCurve with
        expcomp := a.expcomp, brightness := a.brightness, contrast := a.contrast,
        black := a.black, hlcompr := a.hlcompr, hlcomprthresh := a.hlcomprthresh } } } }
    rb.emitIf rb.c.listeners.aeListener (Event.call Call.autoExpChanged)
  else r

/-- The block `if (params.toneCurve.histmatching)` of the auto-exposure
stage. -/
def histogramMatching (K : Collab) (r : Run) : Run :=
  if r.c.params.toneCurve.histmatching then
    let r2 : Run :=
      if !r.c.params.toneCurve.fromHistMatching then
        let ra := r.emit (Event.call Call.getAutoMatchedToneCurve)
        { ra with c := { ra.c with params := { ra.c.params with
          toneCurve := { ra.c.params.toneCurve with
            curve := K.getAutoMatchedToneCurve ra.c.params.icm
                       ra.c.params.toneCurve.curve } } } }
      else r
    let tc := r2.c.params.toneCurve
    let r3 : Run := { r2 with c := { r2.c with params := { r2.c.params with
      toneCurve := { tc with
        expcomp := if tc.autoexp then 0 else tc.expcomp,
        autoexp := false, curveMode := TcMode.FILMLIKE, curve2 := [0],
        brightness := 0, contrast := 0, black := 0, fromHistMatching := true } } } }
    r3.emitIf r3.c.listeners.aeListener (Event.call Call.autoMatchedToneCurveChanged)
  else r

/-- The auto-exposure / histogram-matching stage. -/
def autoExpStage (K : Collab) (M : RefreshMap) (r : Run) : Run :=
  if testBits r.todo M.M_AUTOEXP then histogramMatching K (autoExposure K r) else r

/-- The working profiles for which a custom tone response curve is applied. -/
def trcProfiles : List String :=
  ["sRGB", "Adobe RGB", "ProPhoto", "WideGamut", "BruceRGB", "Beta RGB", "BestRGB",
   "Rec2020", "ACESp0", "ACESp1"]

/-- The custom working-TRC step. -/
def workingTrcStage (M : RefreshMap) (r : Run) : Run :=
  if testBits r.todo (M.M_AUTOEXP ||| M.M_RGBCURVE)
      && r.c.params.icm.workingTRC == "Custom"
      && trcProfiles.contains r.c.params.icm.workingProfile then
    (r.emit (Event.call Call.workingtrc)).emit (Event.call Call.workingtrc)
  else r

/-- The exposure-curve and RGB-curve stage. -/
def rgbCurveStage (M : RefreshMap) (r : Run) : Run :=
  if testBits r.todo M.M_RGBCURVE || testBits r.todo M.M_CROP then
    let p := r.c.params
    let r1 := r.emitAll [Event.call Call.complexCurve, Event.call Call.RGBCurve,
                         Event.call Call.RGBCurve, Event.call Call.RGBCurve]
    let r2 := r1.emitIf p.colorToning.enabled (Event.call Call.colorToningCurves)
    let r3 := r2.emitIf p.blackwhite.enabled (Event.call Call.curveBW)
    let r4 := r3.emitIf (p.colorToning.enabled && p.colorToning.autosat
                          && p.colorToning.method != "LabGrid") (Event.call Call.moyeqt)
    let r5 := r4.emitIf (r4.c.listeners.actListener && p.colorToning.enabled
                          && p.blackwhite.enabled && p.colorToning.autosat)
                (Event.call Call.autoColorTonChanged)
    if testBits r5.todo M.M_RGBCURVE then
      let r6 := r5.emit (Event.call Call.rgbProc)
      let r7 := r6.emitIf (p.blackwhite.enabled && p.blackwhite.autoc
                            && r6.c.listeners.abwListener) (Event.call Call.BWChanged)
      r7.emitIf (p.colorToning.enabled && p.colorToning.autosat && r7.c.listeners.actListener)
        (Event.call Call.autoColorTonChanged)
    else r5
  else r

/-- The Lab luma-curve stage. -/
def lumaCurveStage (M : RefreshMap) (r : Run) : Run :=
  let r1 := r.emitIf (testBits r.todo (M.M_LUMACURVE ||| M.M_CROP))
              (Event.call Call.complexLCurve)
  if testBits r1.todo M.M_LUMACURVE then
    (r1.emit (Event.call Call.curveCL)).emit (Event.call Call.complexsgnCurve)
  else r1

/-- The luminance / colour refinement stage.  The wavelet block (merge-file
loading and the `ip_wavelet` calls, which set `params.wavelet.CLmethod` and
restore it) is recorded as one `ip_wavelet` call. -/
def luminanceColorStage (K : Collab) (M : RefreshMap) (r : Run) : Run :=
  if testBits r.todo (M.M_LUMINANCE + M.M_COLOR) then
    let p := r.c.params
    let ca := p.colorappearance
    let r1 := r.emitAll [Event.call Call.chromiLuminanceCurve, Event.call Call.vibrance,
                         Event.call Call.labColorCorrectionRegions]
    let r2 := r1.emitIf ((ca.enabled && !ca.tonecie) || !ca.enabled) (Event.call Call.EPDToneMap)
    let r3 := r2.emitIf (p.dirpyrequalizer.cbdlMethod == "aft"
                          && ((ca.enabled && !K.autocielab) || !ca.enabled))
                (Event.call Call.dirpyrequalizer)
    let r4 := r3.emit (Event.call Call.curveWavContL)
    let r5 := r4.emitIf p.wavelet.enabled (Event.call Call.ip_wavelet)
    let r6 := r5.emit (Event.call Call.softLight)
    if ca.enabled then
      let r7 : Run :=
        if r6.c.ncie.isNone then
          { r6 with c := { r6.c with ncie := some ⟨r6.c.nextId, r6.c.pW, r6.c.pH⟩,
                                     nextId := r6.c.nextId + 1 } }
        else r6
      let r8 := r7.emit (Event.call Call.ciecam_02float)
      let r9 := r8.emitIf ((ca.autodegree || ca.autodegreeout) && r8.c.listeners.acListener
                            && ca.enabled) (Event.call Call.autoCamChanged)
      let r10 := r9.emitIf (ca.autoadapscen && r9.c.listeners.acListener && ca.enabled)
                   (Event.call Call.adapCamChanged)
      r10.emitIf (ca.autoybscen && r10.c.listeners.acListener && ca.enabled)
        (Event.call Call.ybCamChanged)
    else { r6 with c := { r6.c with ncie := none } }
  else r

/-- The monitor colour-transform update. -/
def monitorStage (M : RefreshMap) (r : Run) : Run :=
  let icm := r.c.params.icm
  if testBits r.todo M.M_MONITOR || r.c.lastOutputProfile != icm.outputProfile
      || r.c.lastOutputIntent != icm.outputIntent || r.c.lastOutputBPC != icm.outputBPC then
    { (r.emit (Event.call Call.updateColorProfiles)) with
        c := { r.c with lastOutputProfile := icm.outputProfile,
                        lastOutputIntent := icm.outputIntent,
                        lastOutputBPC := icm.outputBPC } }
  else r

/-! ## One run of `updatePreviewImage`: crop windows, publication, the whole run -/

/-- The loop over the registered crop windows; `i` is the index of the head
of `crops`.  `Crop::update` belongs to a class missing from the sources and
is recorded as a call. -/
def cropLoop (K : Collab) (M : RefreshMap) (panningRelatedChange hdn : Bool) :
    List Crop → Nat → Run → Run
  | [], _, r => r
  | cr :: crops, i, r =>
      let r1 := r.emitIf
        (cr.hasListener && (panningRelatedChange || (hdn && K.prevdemo != PrevDemo.PD_Sidecar)
          || testBits r.todo (M.M_MONITOR ||| M.M_RGBCURVE ||| M.M_LUMACURVE)
          || cr.skip == 1))
        (Event.cropUpdate i r.todo)
      cropLoop K M panningRelatedChange hdn crops (i + 1) r1

/-- How a run of `updatePreviewImage` leaves the publication point: it goes
on to the end of the function; or a conversion threw and the function
returned from the `catch` block; or the lock `previmg->getMutex()` was taken
with `previmg == nullptr` (no `setScale` has allocated the buffers yet), a
null-pointer dereference that the process does not survive. -/
inductive RunEnd where
  | completed
  | caught
  | nullPreview
  deriving DecidableEq, Repr

/-- The conversion block of the publication point: the lock
`previmg->getMutex()`, then the `try` block with `lab2monitorRgb` and
`delete workimg; workimg = ipf.lab2rgb(...)`.  Returns the run and how the
block ends: with `caught` the `catch` block calls `progress` and returns from
`updatePreviewImage`; with `nullPreview` nothing after the dereference is
executed. -/
def convertPreview (K : Collab) (M : RefreshMap) (r : Run) : Run × RunEnd :=
  if (r.todo ≠ M.CROP ∧ r.todo ≠ M.MINUPDATE) ∨ testBits r.todo M.M_MONITOR then
    match r.c.previmg with
    | none => (r, RunEnd.nullPreview)
    | some _ =>
        match K.conversion with
        | Conversion.ok =>
            let ra := (r.emit (Event.call Call.lab2monitorRgb)).emit (Event.call Call.lab2rgb)
            ({ ra with c := { ra.c with workimg := some ⟨ra.c.nextId, ra.c.pW, ra.c.pH⟩,
                                        nextId := ra.c.nextId + 1 } }, RunEnd.completed)
        | Conversion.lab2monitorRgbThrows =>
            (progress (r.emit (Event.call Call.lab2monitorRgb)), RunEnd.caught)
        | Conversion.lab2rgbThrows =>
            (progress ((r.emit (Event.call Call.lab2monitorRgb)).emit
              (Event.call Call.lab2rgb)), RunEnd.caught)
  else (r, RunEnd.completed)

/-- The notifications of the publication point: `resultValid`, `setImage`,
`imageReady`, and the histograms. -/
def announce (r : Run) : Run :=
  let r2 : Run :=
    if !r.c.resultValid then
      ({ r with c := { r.c with resultValid := true } } : Run).emitIf
        r.c.listeners.imageListener (Event.call Call.setImage)
    else r
  let r3 := r2.emitIf r2.c.listeners.imageListener (Event.call Call.imageReady)
  if r3.c.listeners.hListener then
    (r3.emit (Event.call Call.updateLRGBHistograms)).emit (Event.call Call.histogramChanged)
  else r3

/-- The publication point `if (panningRelatedChange || (todo & M_MONITOR))`.
Returns the run and how it leaves the publication point; the notifications
are made only when the conversion block completes. -/
def publish (K : Collab) (M : RefreshMap) (panningRelatedChange : Bool) (r : Run) :
    Run × RunEnd :=
  if panningRelatedChange || testBits r.todo M.M_MONITOR then
    let conv := convertPreview K M (progress r)
    if conv.2 ≠ RunEnd.completed then conv else (announce conv.1, RunEnd.completed)
  else (r, RunEnd.completed)

/-- The entry of the outer `if`: `if (todo == CROP && ipf.needsPCVignetting())
todo |= TRANSFORM`, the first `progress` call and the frame-count
notification. -/
def gateEntry (K : Collab) (M : RefreshMap) (r : Run) : Run :=
  let r0 : Run :=
    if r.todo = M.CROP ∧ K.needsPCVignetting r.c.params = true then
      { r with todo := r.todo ||| M.TRANSFORM }
    else r
  (progress r0).emitIf r0.c.listeners.frameCountListener
    (Event.FrameCountChanged r0.c.params.raw.bayersensor.imageNum)

/-- The run up to and including the raw-preprocess stage and the image-type
notification; `rp` is the local copy of `params.raw`. -/
def throughPreprocess (K : Collab) (M : RefreshMap) (hdn : Bool) (rp : RAWParams)
    (r : Run) : Run :=
  let r3 := preprocessStage M hdn rp (gateEntry K M r)
  r3.emitIf r3.c.listeners.imageTypeListener (Event.call Call.imageTypeChanged)

/-- The run up to and including the white-balance / init stage. -/
def throughInit (K : Collab) (M : RefreshMap) (N : MethodNames) (hdn : Bool)
    (rp : RAWParams) (r : Run) : Run :=
  initStage K M (retinexStage M (demosaicStage M N hdn rp (throughPreprocess K M hdn rp r)))

/-- The stages after the geometry transform. -/
def afterTransform (K : Collab) (M : RefreshMap) (r : Run) : Run :=
  let r10 := cbdlStage M r
  let r11 := autoExpStage K M (progress r10)
  let r12 := workingTrcStage M (progress r11)
  let r13 := rgbCurveStage M r12
  let r14 := lumaCurveStage M r13
  let r15 := luminanceColorStage K M r14
  monitorStage M r15

/-- The body of the outer `if` of `updatePreviewImage`. -/
def gateBody (K : Collab) (M : RefreshMap) (N : MethodNames) (hdn : Bool) (r : Run) : Run :=
  let rp := rawParamsFor N hdn r.c.params.raw
  let r7 := throughInit K M N hdn rp r
  let r8 := hdrStage M r7
  afterTransform K M (transformStage K M (progress r8))

/-- The last statement of `updatePreviewImage`:
`if (orig_prev != oprevi) { delete oprevi; oprevi = nullptr; }`. -/
def releaseTransformed (r : Run) : Run :=
  if r.c.orig_prev ≠ r.c.oprevi then { r with c := { r.c with oprevi := none } } else r

/-- Transcribes `ImProcCoordinator::updatePreviewImage(int todo, bool
panningRelatedChange)`: the final coordinator state, the final `todo` and the
calls made, in order.  For a run that ends in the null-pointer dereference
of the publication point (`RunEnd.nullPreview`, see `publishOutcome`) these
are the state and the calls up to that point. -/
def updatePreviewImage (K : Collab) (M : RefreshMap) (N : MethodNames) (todo : Nat)
    (panningRelatedChange : Bool) (c : ImProcCoordinator) : Run :=
  let hdn := highDetailNeeded K M c.crops todo
  let r0 : Run := ⟨c, todo, []⟩
  let r1 := if outerGate K M todo panningRelatedChange hdn then gateBody K M N hdn r0 else r0
  let r2 := cropLoop K M panningRelatedChange hdn r1.c.crops 0 r1
  let pub := publish K M panningRelatedChange r2
  if pub.2 ≠ RunEnd.completed then pub.1 else releaseTransformed pub.1

/-! ## The worker loop `process()` -/

/-- The local `panningRelatedChange` of `process()`: the committed snapshot
`params` compared with the pending snapshot `nextParams`, sub-group by
sub-group. -/
def panningRelatedChange (params nextParams : ProcParams) : Bool :=
    params.toneCurve != nextParams.toneCurve
    || params.labCurve != nextParams.labCurve
    || params.localContrast != nextParams.localContrast
    || params.rgbCurves != nextParams.rgbCurves
    || params.colorToning != nextParams.colorToning
    || params.vibrance != nextParams.vibrance
    || params.wb != nextParams.wb
    || params.colorappearance != nextParams.colorappearance
    || params.epd != nextParams.epd
    || params.fattal != nextParams.fattal
    || params.sh != nextParams.sh
    || params.crop != nextParams.crop
    || params.coarse != nextParams.coarse
    || params.commonTrans != nextParams.commonTrans
    || params.rotate != nextParams.rotate
    || params.distortion != nextParams.distortion
    || params.lensProf != nextParams.lensProf
    || params.perspective != nextParams.perspective
    || params.gradient != nextParams.gradient
    || params.pcvignette != nextParams.pcvignette
    || params.cacorrection != nextParams.cacorrection
    || params.vignetting != nextParams.vignetting
    || params.chmixer != nextParams.chmixer
    || params.blackwhite != nextParams.blackwhite
    || params.icm != nextParams.icm
    || params.hsvequalizer != nextParams.hsvequalizer
    || params.filmSimulation != nextParams.filmSimulation
    || params.softlight != nextParams.softlight
    || params.raw != nextParams.raw
    || params.retinex != nextParams.retinex
    || params.wavelet != nextParams.wavelet
    || params.dirpyrequalizer != nextParams.dirpyrequalizer
    || params.dehaze != nextParams.dehaze

/-- One call of `updatePreviewImage` made by the worker. -/
structure PreviewCall where
  todo : Nat
  panningRelatedChange : Bool
  params : ProcParams
  events : List Event

/-- The worker while it executes `process()`: the coordinator, the number of
completed loop iterations and the calls of `updatePreviewImage` made so far. -/
structure Worker where
  c : ImProcCoordinator
  iterations : Nat
  calls : List PreviewCall

/-- The body of the `while (changeSinceLast)` loop of `process()`, followed by
the submissions `arrived` that the caller thread makes while the worker does
not hold the parameter lock (they touch `nextParams` and `changeSinceLast`
only, which the run does not read). -/
def processIteration (K : Collab) (M : RefreshMap) (N : MethodNames)
    (arrived : List Submission) (w : Worker) : Worker :=
  let pan := panningRelatedChange w.c.params w.c.nextParams
  let change := w.c.changeSinceLast
  let c1 : ImProcCoordinator := { w.c with params := w.c.nextParams, changeSinceLast := 0 }
  let w1 : Worker :=
    if testBits change (M.M_VOID - 1) then
      let run := updatePreviewImage K M N change pan c1
      { c := run.c, iterations := w.iterations,
        calls := w.calls ++ [⟨change, pan, c1.params, run.events⟩] }
    else { w with c := c1 }
  { w1 with c := submitAll w1.c arrived, iterations := w1.iterations + 1 }

/-- The `while (changeSinceLast)` loop.  `K n` are the collaborators' answers
during iteration `n`, `arrivals` lists, per iteration, the submissions made
meanwhile (none once the list is exhausted), `fuel` bounds the number of
evaluations of the loop condition; `none` means the bound was hit. -/
def processLoop (K : Nat → Collab) (M : RefreshMap) (N : MethodNames) :
    Nat → List (List Submission) → Worker → Option Worker
  | 0, _, _ => none
  | fuel + 1, arrivals, w =>
      if w.c.changeSinceLast ≠ 0 then
        processLoop K M N fuel arrivals.tail
          (processIteration (K w.iterations) M N (arrivals.head?.getD []) w)
      else some w

/-- Transcribes `ImProcCoordinator::process()`: the loop, then
`updaterRunning = false`.  (The two `setProgressState` notifications of the
progress listener are not recorded.) -/
def process (K : Nat → Collab) (M : RefreshMap) (N : MethodNames) (fuel : Nat)
    (arrivals : List (List Submission)) (c : ImProcCoordinator) : Option Worker :=
  (processLoop K M N fuel arrivals ⟨c, 0, []⟩).map
    fun w => { w with c := { w.c with updaterRunning := false } }

/-! ## Sample values for concrete evaluation -/

/-- A parameter snapshot with every tool switched off. -/
def sampleParams : ProcParams where
  toneCurve :=
    { autoexp := false, clip := 0, hrenabled := false, method := "Blend", expcomp := 0,
      curve := [0], curve2 := [0], curveMode := TcMode.STD, brightness := 0, black := 0,
      contrast := 0, hlcompr := 0, hlcomprthresh := 0, histmatching := false,
      fromHistMatching := false, rest := 0 }
  labCurve := 0
  localContrast := 0
  rgbCurves := 0
  colorToning := { enabled := false, autosat := false, method := "Lab", rest := 0 }
  vibrance := 0
  wb := { enabled := false, method := "Camera", temperature := 6504, green := 1,
          equal := 1, tempBias := 0 }
  colorappearance :=
    { enabled := false, tonecie := false, autodegree := false, autodegreeout := false,
      autoadapscen := false, autoybscen := false, rest := 0 }
  epd := 0
  fattal := { enabled := false, rest := 0 }
  sh := 0
  crop := 0
  coarse := 0
  commonTrans := 0
  rotate := 0
  distortion := 0
  lensProf := 0
  perspective := 0
  gradient := 0
  pcvignette := 0
  cacorrection := 0
  vignetting := 0
  chmixer := 0
  blackwhite := { enabled := false, autoc := false, rest := 0 }
  icm := { workingProfile := "ProPhoto", workingTRC := "none", outputProfile := "RTv4_sRGB",
           outputIntent := 1, outputBPC := true, rest := 0 }
  hsvequalizer := 0
  filmSimulation := 0
  softlight := 0
  raw :=
    { bayersensor := { method := "amaze", border := 4, imageNum := 0, ccSteps := 2,
                       dualDemosaicAutoContrast := false, dualDemosaicContrast := 20,
                       rest := 0 },
      xtranssensor := { method := "3-pass (best)", dualDemosaicAutoContrast := false,
                        dualDemosaicContrast := 20, ccSteps := 2, rest := 0 },
      ff_AutoClipControl := false, ca_autocorrect := false, cared := 0, cablue := 0,
      expos := 1, rest := 0 }
  retinex := { enabled := false, rest := 0 }
  wavelet := { enabled := false, rest := 0 }
  dirpyrequalizer := { enabled := false, cbdlMethod := "bef", rest := 0 }
  dehaze := { enabled := false, rest := 0 }
  sharpening := 0
  sharpenEdge := 0
  sharpenMicro := 0
  dirpyrDenoise := 0
  localwb := 0

/-- A 4000 x 3000 Bayer image source. -/
def sampleSource : RawImageSource where
  sensorType := SensorType.ST_BAYER
  numFrames := 1
  rgbSourceModified := false
  rawDirty := true
  W := 4000
  H := 3000
  fuji := false
  fujiWidth := 0
  d1x := false
  rotateDegree := 0
  border := 4

/-- The member values set by the constructor `ImProcCoordinator()`, followed
by `assign(src)`; both snapshots are `p`.  The members `autoWB` and `currWB`
are default-constructed, `K.colorTempDefault` being the value of
`ColorTemp()`. -/
def newCoordinator (K : Collab) (p : ProcParams) (src : RawImageSource) :
    ImProcCoordinator where
  params := p
  nextParams := p
  changeSinceLast := 0
  updaterRunning := false
  destroying := false
  thread := false
  threadsCreated := 0
  highDetailPreprocessComputed := false
  highDetailRawComputed := false
  highQualityComputed := false
  crops := []
  imgsrc := src
  listeners :=
    { plistener := false, imageListener := false, aeListener := false, acListener := false,
      abwListener := false, awbListener := false, flatFieldAutoClipListener := false,
      bayerAutoContrastListener := false, xtransAutoContrastListener := false,
      frameCountListener := false, imageTypeListener := false, actListener := false,
      dehaListener := false, hListener := false, sizeListeners := 0 }
  scale := 10
  fw := 0
  fh := 0
  tr := 0
  fullw := 1
  fullh := 1
  pW := -1
  pH := -1
  allocated := false
  resultValid := false
  orig_prev := none
  oprevi := none
  oprevl := none
  nprevl := none
  ncie := none
  previmg := none
  workimg := none
  nextId := 0
  fattal_11_dcrop_cache := false
  lastOutputProfile := "BADFOOD"
  lastOutputIntent := 4
  lastOutputBPC := false
  lastAwbEqual := 0
  lastAwbTempBias := 0
  autoWB := K.colorTempDefault
  currWB := K.colorTempDefault

/-- Sample collaborators: preview mode `mode`, no geometric transform needed
unless `rotate` is set, conversions succeed. -/
def sampleCollab (mode : PrevDemo) : Collab where
  prevdemo := mode
  autocielab := true
  needsPCVignetting := fun _ => false
  needsTransform := fun p => p.rotate != 0
  getCoarseBitMask := fun _ => 0
  colorTemp := fun t g e m => ⟨t, g, e, m⟩
  colorTempDefault := ⟨6504, 1, 1, "Custom"⟩
  cameraWB := ⟨5200, 1, 1, "Camera"⟩
  autoWBMultipliers := (2, 1, 2)
  autoWBupdate := fun w _ e _ => { w with equal := e }
  autoWBuseDefaults := fun w e => { w with equal := e }
  getAutoExp := fun tc => ⟨tc.expcomp, tc.brightness, tc.contrast, tc.black, tc.hlcompr,
                           tc.hlcomprthresh⟩
  getAutoMatchedToneCurve := fun _ curve => curve
  conversion := Conversion.ok

/-- A freshly constructed coordinator on the sample image. -/
def sampleCoordinator : ImProcCoordinator :=
  newCoordinator (sampleCollab PrevDemo.PD_Full) sampleParams sampleSource

/-! ## The dispatch state: what the stage conditions read and write -/

/-- The part of a snapshot that `updatePreviewImage` never writes: every
field but the ones it assigns, which are erased here.  These are
`wb.temperature` and `wb.green` (line 328), the outputs of `getAutoExp`
(`expcomp`, `brightness`, `contrast`, `black`, `hlcompr`, `hlcomprthresh`),
the output `curve` of `getAutoMatchedToneCurve`, and the fields assigned in
the histogram-matching block (`expcomp`, `autoexp`, `curveMode`, `curve2`,
`brightness`, `contrast`, `black`, `fromHistMatching`). -/
def ProcParams.fixedPart (p : ProcParams) : ProcParams :=
  { p with
      wb := { p.wb with temperature := 0, green := 0 },
      toneCurve := { p.toneCurve with
        autoexp := false, expcomp := 0, curve := [], curve2 := [], curveMode := TcMode.STD,
        brightness := 0, black := 0, contrast := 0, hlcompr := 0, hlcomprthresh := 0,
        fromHistMatching := false } }

/-- The members of the coordinator that belong to the scheduler; a run never
writes them. -/
structure Sched where
  nextParams : ProcParams
  changeSinceLast : Nat
  updaterRunning : Bool
  destroying : Bool
  thread : Bool
  threadsCreated : Nat

/-- The scheduler members of a coordinator. -/
@[simp]
def ImProcCoordinator.sched (c : ImProcCoordinator) : Sched :=
  ⟨c.nextParams, c.changeSinceLast, c.updaterRunning, c.destroying, c.thread, c.threadsCreated⟩

/-- The variables that decide which raw stages execute (`todo`, the two
detail memos, `rgbSourceModified`), and the parts of the state that a run
only reads: the sensor type, the fixed part of the snapshot, the scheduler
members, the crop list and the listeners. -/
structure Core where
  todo : Nat
  hdPre : Bool
  hdRaw : Bool
  rgbMod : Bool
  sensor : SensorType
  fixed : ProcParams
  sched : Sched
  crops : List Crop
  listeners : Listeners

/-- The dispatch state of a run. -/
def Run.core (r : Run) : Core :=
  ⟨r.todo, r.c.highDetailPreprocessComputed, r.c.highDetailRawComputed,
   r.c.imgsrc.rgbSourceModified, r.c.imgsrc.sensorType, r.c.params.fixedPart,
   r.c.sched, r.c.crops, r.c.listeners⟩

/-- Effect of `if (todo == CROP && ipf.needsPCVignetting()) todo |= TRANSFORM`. -/
def Core.preamble (M : RefreshMap) (pcv : Bool) (k : Core) : Core :=
  if k.todo = M.CROP ∧ pcv = true then { k with todo := k.todo ||| M.TRANSFORM } else k

/-- The condition of the raw-preprocess stage. -/
def Core.preprocessNeeded (M : RefreshMap) (hdn : Bool) (k : Core) : Bool :=
  testBits k.todo M.M_PREPROC || (!k.hdPre && hdn)

/-- Effect of the raw-preprocess stage on the dispatch state. -/
def Core.preprocess (M : RefreshMap) (hdn : Bool) (k : Core) : Core :=
  if k.preprocessNeeded M hdn then { k with hdPre := hdn } else k

/-- The condition of the demosaic stage. -/
def Core.demosaicNeeded (M : RefreshMap) (hdn : Bool) (k : Core) : Bool :=
  testBits k.todo M.M_RAW
    || (!k.hdRaw && hdn)
    || (k.fixed.toneCurve.hrenabled && k.fixed.toneCurve.method != "Color" && k.rgbMod)
    || (!k.fixed.toneCurve.hrenabled && k.fixed.toneCurve.method == "Color" && k.rgbMod)

/-- Effect of the demosaic stage on the dispatch state. -/
def Core.demosaic (M : RefreshMap) (hdn : Bool) (k : Core) : Core :=
  if k.demosaicNeeded M hdn then
    { k with todo := k.todo ||| M.M_INIT, hdRaw := hdn, rgbMod := false }
  else k

/-- Effect of the retinex stage on the dispatch state. -/
def Core.retinex (M : RefreshMap) (k : Core) : Core :=
  if testBits k.todo (M.M_RETINEX ||| M.M_INIT) && k.fixed.retinex.enabled then
    { k with rgbMod := false }
  else k

/-- The condition of the init stage. -/
def Core.initNeeded (M : RefreshMap) (k : Core) : Bool :=
  testBits k.todo (M.M_INIT ||| M.M_LINDENOISE ||| M.M_HDR)

/-- Effect of the init stage on the dispatch state. -/
def Core.init (M : RefreshMap) (k : Core) : Core :=
  if k.initNeeded M then
    { k with rgbMod :=
        (k.fixed.toneCurve.hrenabled && k.fixed.toneCurve.method == "Color") || k.rgbMod }
  else k

/-- Effect of the body of the outer `if` on the dispatch state. -/
def Core.gateBody (M : RefreshMap) (hdn pcv : Bool) (k : Core) : Core :=
  Core.init M (Core.retinex M (Core.demosaic M hdn (Core.preprocess M hdn (Core.preamble M pcv k))))

/-! ## The stage each recorded call belongs to -/

/-- The stages of `updatePreviewImage`, in program order. -/
inductive Stage where
  | preamble
  | preprocess
  | demosaic
  | retinex
  | init
  | hdr
  | transform
  | cbdl
  | autoExp
  | workingTrc
  | rgbCurve
  | lumaCurve
  | luminanceColor
  | monitor
  | crop
  | publish
  deriving DecidableEq, Repr

/-- The stage in which a collaborator function is called. -/
@[simp]
def Call.stage : Call → Stage
  | .imageTypeChanged => .preamble
  | .CA_correct_RT | .flatFieldAutoClipValueChanged | .getRAWHistogram => .preprocess
  | .retinexPrepareBuffers => .demosaic
  | .retinexPrepareCurves | .retinex | .minmaxChanged => .retinex
  | .HLRecovery_inpaint | .getAutoWBMultipliers | .delImage | .getImage | .convertColorSpace
  | .firstAnalysis => .init
  | .dehaze | .ToneMapFattal02 => .hdr
  | .transform | .copyData => .transform
  | .rgb2lab | .dirpyrequalizerCbdl | .lab2rgbWorking => .cbdl
  | .getAutoExp | .autoExpChanged | .getAutoMatchedToneCurve
  | .autoMatchedToneCurveChanged => .autoExp
  | .workingtrc => .workingTrc
  | .complexCurve | .RGBCurve | .colorToningCurves | .curveBW | .moyeqt | .autoColorTonChanged
  | .rgbProc | .BWChanged => .rgbCurve
  | .complexLCurve | .curveCL | .complexsgnCurve => .lumaCurve
  | .chromiLuminanceCurve | .vibrance | .labColorCorrectionRegions | .EPDToneMap
  | .dirpyrequalizer | .curveWavContL | .ip_wavelet | .softLight | .ciecam_02float
  | .autoCamChanged | .adapCamChanged | .ybCamChanged => .luminanceColor
  | .updateColorProfiles => .monitor
  | .lab2monitorRgb | .lab2rgb | .setImage | .imageReady | .updateLRGBHistograms
  | .histogramChanged => .publish

/-- The stage in which a recorded call is made. -/
@[simp]
def Event.stage : Event → Stage
  | .FrameCountChanged _ => .preamble
  | .setCurrentFrame _ => .preprocess
  | .preprocess _ _ _ => .preprocess
  | .setBorder _ => .demosaic
  | .demosaic _ _ _ => .demosaic
  | .autoContrastChanged _ => .demosaic
  | .HLRecovery_Global _ => .init
  | .WBChanged _ _ => .init
  | .sizeChanged _ _ _ _ => .init
  | .newImagefloat _ => .transform
  | .cropUpdate _ _ => .crop
  | .setScale _ => .init
  | .call f => f.stage

/-- The run `r'` extends the record of `r` by calls of stage `X` only. -/
def Appends (X : Stage) (r r' : Run) : Prop :=
  ∃ es, r'.events = r.events ++ es ∧ ∀ e ∈ es, e.stage = X

/-- The run `r'` extends the record of `r` by calls of the stages in `S`
only. -/
def AppendsIn (S : List Stage) (r r' : Run) : Prop :=
  ∃ es, r'.events = r.events ++ es ∧ ∀ e ∈ es, e.stage ∈ S

/-- The stages from the entry of the outer `if` to the init stage. -/
def rawStages : List Stage :=
  [.preamble, .preprocess, .demosaic, .retinex, .init]

/-- The stages after the geometry transform, inside the outer `if`. -/
def lateStages : List Stage :=
  [.cbdl, .autoExp, .workingTrc, .rgbCurve, .lumaCurve, .luminanceColor, .monitor]

/-- The stages after the outer `if`. -/
def tailStages : List Stage := [.crop, .publish]

/-! ## The dispatch decisions of a run, as functions of its entry state -/

/-- The dispatch state with which a run is entered. -/
def entryCore (c : ImProcCoordinator) (todo : Nat) : Core := Run.core ⟨c, todo, []⟩

/-- Whether a run executes the raw-preprocess stage. -/
def preprocessRuns (K : Collab) (M : RefreshMap) (todo : Nat) (pan : Bool)
    (c : ImProcCoordinator) : Bool :=
  outerGate K M todo pan (highDetailNeeded K M c.crops todo)
    && (Core.preamble M (K.needsPCVignetting c.params) (entryCore c todo)).preprocessNeeded M
         (highDetailNeeded K M c.crops todo)

/-- Whether a run executes the demosaic stage. -/
def demosaicRuns (K : Collab) (M : RefreshMap) (todo : Nat) (pan : Bool)
    (c : ImProcCoordinator) : Bool :=
  outerGate K M todo pan (highDetailNeeded K M c.crops todo)
    && (Core.preprocess M (highDetailNeeded K M c.crops todo)
          (Core.preamble M (K.needsPCVignetting c.params) (entryCore c todo))).demosaicNeeded M
         (highDetailNeeded K M c.crops todo)

/-- A freshly constructed coordinator on the sample image with one registered
crop window at full resolution (`skip == 1`). -/
def detailCoordinator : ImProcCoordinator :=
  { sampleCoordinator with crops := [⟨1, true⟩] }

/-! ## Histories of runs -/

/-- Whether a recorded call is the `preprocess` call of the raw-preprocess
stage. -/
def Event.isPreprocess : Event → Bool
  | .preprocess _ _ _ => true
  | _ => false

/-- Whether a recorded call is the `demosaic` call of the demosaic stage. -/
def Event.isDemosaic : Event → Bool
  | .demosaic _ _ _ => true
  | _ => false

/-- One run of a history: the collaborators' answers, the arguments of
`updatePreviewImage`, and the coordinator at the start of the run.  The two
detail memos of `state` are ignored: they are written by `updatePreviewImage`
only and carry over from the previous run. -/
structure RunRequest where
  K : Collab
  todo : Nat
  panningRelatedChange : Bool
  state : ImProcCoordinator

/-- What is kept of a run: its `highDetailNeeded` and the calls it made. -/
structure RunRecord where
  highDetailNeeded : Bool
  events : List Event

/-- The coordinator with which a request is run, given the memos
`(highDetailPreprocessComputed, highDetailRawComputed)` left by the previous
run. -/
def RunRequest.start (q : RunRequest) (memo : Bool × Bool) : ImProcCoordinator :=
  { q.state with highDetailPreprocessComputed := memo.1, highDetailRawComputed := memo.2 }

/-- A sequence of runs of `updatePreviewImage`, oldest first: the memos after
the last run and the records of the runs, most recent first. -/
def runHistory (M : RefreshMap) (N : MethodNames) :
    List RunRequest → Bool × Bool → (Bool × Bool) × List RunRecord
  | [], memo => (memo, [])
  | q :: qs, memo =>
      let run := updatePreviewImage q.K M N q.todo q.panningRelatedChange (q.start memo)
      let rest := runHistory M N qs
        (run.c.highDetailPreprocessComputed, run.c.highDetailRawComputed)
      (rest.1, rest.2 ++ [⟨highDetailNeeded q.K M (q.start memo).crops q.todo, run.events⟩])

/-- The `highDetailNeeded` of the most recent run (records most recent first)
that made a call satisfying `p`, if there is one. -/
def lastDetail (p : Event → Bool) : List RunRecord → Option Bool
  | [] => none
  | rec :: recs => if rec.events.any p then some rec.highDetailNeeded else lastDetail p recs

/-- The sample snapshot with automatic chromatic-aberration correction
switched on (`raw.ca_autocorrect`). -/
def caParams : ProcParams :=
  { sampleParams with raw := { sampleParams.raw with ca_autocorrect := true } }

/-- A freshly constructed coordinator on the sample Bayer image with automatic
chromatic-aberration correction switched on and no crop window. -/
def caCoordinator : ImProcCoordinator :=
  newCoordinator (sampleCollab PrevDemo.PD_Full) caParams sampleSource

/-- The sample snapshot with a rotation set, so that the sample
`needsTransform` answers true. -/
def rotatedParams : ProcParams := { sampleParams with rotate := 1 }

/-- The sample snapshot with contrast by detail levels enabled in its
"before" position (`cbdlMethod == "bef"`, colour appearance off). -/
def cbdlParams : ProcParams :=
  { sampleParams with
      dirpyrequalizer := { sampleParams.dirpyrequalizer with enabled := true } }

/-- A first full run (mask `ALL`) on the sample image with the snapshot `p`,
in preview mode Full. -/
def firstRun (p : ProcParams) : Run :=
  updatePreviewImage (sampleCollab PrevDemo.PD_Full) refreshMap methodNames refreshMap.ALL
    false (newCoordinator (sampleCollab PrevDemo.PD_Full) p sampleSource)

/-- The calls of the geometry-transform stage in a record. -/
def transformCalls (es : List Event) : List Event :=
  es.filter (fun e => e.stage == Stage.transform)

/-! ## The scale loop of `setScale` -/

/-- The scales handed to `getSize` by the do-while loop of `setScale`, in
order; same recursion as `setScaleLoop`. -/
def setScaleProbes (fw fh : Int) : Nat → Int → List Int
  | 0, prevscale => [prevscale]
  | steps + 1, prevscale =>
      let n := getSize fw fh prevscale
      if n.2 < 400 ∧ prevscale > 1 ∧ wrapInt (n.1 * n.2) < 1000000 then
        prevscale :: setScaleProbes fw fh steps (prevscale - 1)
      else [prevscale]

/-- The stop condition of the scale loop as the specification words it: the
preview height reaches 400, or the scale is 1, or the preview has at least
1000000 pixels, the preview being `ceil(fw/s) x ceil(fh/s)`. -/
def scaleStops (fw fh s : Int) : Prop :=
  ⌈(fh : ℚ) / (s : ℚ)⌉ ≥ 400 ∨ s = 1 ∨ ⌈(fw : ℚ) / (s : ℚ)⌉ * ⌈(fh : ℚ) / (s : ℚ)⌉ ≥ 1000000

instance (fw fh s : Int) : Decidable (scaleStops fw fh s) := by
  unfold scaleStops
  infer_instance

/-- A 4000 x 3000 source without border. -/
def plainSource : RawImageSource := { sampleSource with border := 0 }

/-- A source of 33554432 x 512 pixels without border: halved, it has
`2^32` pixels. -/
def wideSource : RawImageSource := { sampleSource with W := 33554432, H := 512, border := 0 }

/-- A freshly constructed coordinator on `plainSource`. -/
def plainCoordinator : ImProcCoordinator :=
  newCoordinator (sampleCollab PrevDemo.PD_Full) sampleParams plainSource

/-- The stages inside the outer `if`. -/
def gateStages : List Stage :=
  [.preamble, .preprocess, .demosaic, .retinex, .init, .hdr, .transform, .cbdl, .autoExp,
   .workingTrc, .rgbCurve, .lumaCurve, .luminanceColor, .monitor]

/-! ## Crop fan-out -/

/-- The condition under which the crop loop calls `update` on a window, as
the source has it; `todo` is the local `todo` of the run when the loop is
reached. -/
def cropUpdateDue (K : Collab) (M : RefreshMap) (panningRelatedChange hdn : Bool) (todo : Nat)
    (cr : Crop) : Bool :=
  cr.hasListener && (panningRelatedChange || (hdn && K.prevdemo != PrevDemo.PD_Sidecar)
    || testBits todo (M.M_MONITOR ||| M.M_RGBCURVE ||| M.M_LUMACURVE)
    || cr.skip == 1)

/-- The fan-out predicate as the specification words it; `requiresDetail`
stands for "the window currently requires full detail" and `mask` for the
mask of the run. -/
def cropUpdateClaimed (M : RefreshMap) (geometryChanged requiresDetail : Bool) (mask : Nat)
    (cr : Crop) : Bool :=
  cr.hasListener && (geometryChanged || requiresDetail
    || testBits mask (M.M_MONITOR ||| M.M_RGBCURVE ||| M.M_LUMACURVE)
    || cr.skip == 1)

/-- The `update` calls of a record, in order: window index and mask. -/
def cropUpdates : List Event → List (Nat × Nat)
  | [] => []
  | Event.cropUpdate i t :: es => (i, t) :: cropUpdates es
  | _ :: es => cropUpdates es

/-- The windows of `crops` (the first having index `i`) for which `due`
holds, in registration order, each with the mask `todo`. -/
def dueWindows (due : Crop → Bool) (todo : Nat) : List Crop → Nat → List (Nat × Nat)
  | [], _ => []
  | cr :: crops, i =>
      if due cr then (i, todo) :: dueWindows due todo crops (i + 1)
      else dueWindows due todo crops (i + 1)

/-- A session on the sample image in preview mode `mode`: a first full run
(mask `ALL`), after which the crop windows `crops` are registered. -/
def detailSession (mode : PrevDemo) (crops : List Crop) : ImProcCoordinator :=
  { (updatePreviewImage (sampleCollab mode) refreshMap methodNames refreshMap.ALL false
      sampleCoordinator).c with crops := crops }

/-! ## The publication point of a run -/

/-- What a run publishes to the clients of the coordinator: the validity flag
and the preview and analysis images (`resultValid`, `previmg`, `workimg`). -/
structure Published where
  resultValid : Bool
  previmg : Option ImageBuf
  workimg : Option ImageBuf
  deriving DecidableEq, Repr

/-- The published part of the state of a run. -/
def Run.published (r : Run) : Published := ⟨r.c.resultValid, r.c.previmg, r.c.workimg⟩

/-- The run when it reaches the publication point: after the body of the
outer `if` (when its condition holds) and the crop loop. -/
def beforePublish (K : Collab) (M : RefreshMap) (N : MethodNames) (todo : Nat)
    (panningRelatedChange : Bool) (c : ImProcCoordinator) : Run :=
  let hdn := highDetailNeeded K M c.crops todo
  let r0 : Run := ⟨c, todo, []⟩
  let r1 := if outerGate K M todo panningRelatedChange hdn then gateBody K M N hdn r0 else r0
  cropLoop K M panningRelatedChange hdn r1.c.crops 0 r1

/-- The outcome of the publication point of a run: the run, and how it
leaves the publication point (`caught`: a colour conversion threw, so that
`updatePreviewImage` returned from the `catch` block). -/
def publishOutcome (K : Collab) (M : RefreshMap) (N : MethodNames) (todo : Nat)
    (panningRelatedChange : Bool) (c : ImProcCoordinator) : Run × RunEnd :=
  publish K M panningRelatedChange (beforePublish K M N todo panningRelatedChange c)

/-- The sample collaborators in preview mode Full, with the colour conversion
ending as `conv`. -/
def conversionCollab (conv : Conversion) : Collab :=
  { sampleCollab PrevDemo.PD_Full with conversion := conv }

/-- The sample session after a first successful full run (mask `ALL`, preview
mode Full) with a progress listener, an image listener and a histogram
listener registered. -/
def listeningRun : Run :=
  updatePreviewImage (sampleCollab PrevDemo.PD_Full) refreshMap methodNames refreshMap.ALL false
    { sampleCoordinator with
        listeners := { sampleCoordinator.listeners with
          plistener := true, imageListener := true, hListener := true } }

/-- The coordinator that `listeningRun` leaves. -/
def listeningSession : ImProcCoordinator := listeningRun.c

/-! ## Stopping the worker -/

/-- Where the worker thread is when `stopProcessing()` is called: at the loop
condition of `process()`, or inside the call of `updatePreviewImage` it made
with the collaborators' answers `K`, the mask `todo` it took and the flag
`panningRelatedChange`. -/
inductive WorkerAt where
  | loopTest
  | inRun (K : Collab) (todo : Nat) (panningRelatedChange : Bool)

/-- What the worker thread does from the point `wk` until `process()` returns,
nothing being submitted meanwhile: it completes the run in flight, if any, and
goes on with the loop of `process()`; `K` are the collaborators' answers in
further iterations. -/
def finishWorker (K : Nat → Collab) (M : RefreshMap) (N : MethodNames) (fuel : Nat)
    (wk : WorkerAt) (c : ImProcCoordinator) : Option Worker :=
  match wk with
  | .loopTest => process K M N fuel [] c
  | .inRun K0 todo pan => process K M N fuel [] (updatePreviewImage K0 M N todo pan c).c

/-- Transcribes `ImProcCoordinator::stopProcessing()`: if the updater runs and
the thread exists, `changeSinceLast = 0`, then `thread->join()`, which returns
when the worker has left `process()`.  The state the caller finds; `none` if
the worker does not finish within `fuel` evaluations of the loop
condition. -/
def stopProcessing (K : Nat → Collab) (M : RefreshMap) (N : MethodNames) (fuel : Nat)
    (wk : WorkerAt) (c : ImProcCoordinator) : Option ImProcCoordinator :=
  if c.updaterRunning && c.thread then
    (finishWorker K M N fuel wk { c with changeSinceLast := 0 }).map fun w => w.c
  else some c

/-- The sample session with the worker started by `startProcessing(M_MONITOR)`
and the mask taken by the worker, which is now inside `updatePreviewImage`. -/
def runningSession : ImProcCoordinator :=
  { (submit listeningSession (Submission.start refreshMap.M_MONITOR)) with
      changeSinceLast := 0 }

/-- The bits that the run tests for the stages other than the monitor
colour-transform update and the publication point, and for the high-quality
request. -/
def RefreshMap.otherStageBits (M : RefreshMap) : Nat :=
  M.M_HIGHQUAL ||| M.M_PREPROC ||| M.M_RAW ||| M.M_RETINEX ||| M.M_INIT ||| M.M_LINDENOISE
    ||| M.M_HDR ||| M.M_TRANSFORM ||| M.M_RGBCURVE ||| M.M_AUTOEXP ||| M.M_CROP
    ||| M.M_LUMACURVE ||| (M.M_LUMINANCE + M.M_COLOR)

/-- The record of a run that executes only the monitor colour-transform
update and the publication point, in a state with the listeners `l` and the
validity flag `valid`: the frame-count and image-type notifications of the
entry, `updateColorProfiles`, the two conversions, the image callbacks and
the histogram stage. -/
def monitorEditCalls (l : Listeners) (imageNum : Nat) (valid : Bool) : List Event :=
  (if l.frameCountListener then [Event.FrameCountChanged imageNum] else [])
    ++ (if l.imageTypeListener then [Event.call Call.imageTypeChanged] else [])
    ++ [Event.call Call.updateColorProfiles, Event.call Call.lab2monitorRgb,
        Event.call Call.lab2rgb]
    ++ (if !valid && l.imageListener then [Event.call Call.setImage] else [])
    ++ (if l.imageListener then [Event.call Call.imageReady] else [])
    ++ (if l.hListener then
          [Event.call Call.updateLRGBHistograms, Event.call Call.histogramChanged]
        else [])

/-! ## `RawImageSource::inverse33` over exact rationals -/

/-- The divisor `nom` of `RawImageSource::inverse33`. -/
def inverse33Nom (rgb_cam : Matrix (Fin 3) (Fin 3) ℚ) : ℚ :=
  rgb_cam 0 2 * rgb_cam 1 1 * rgb_cam 2 0 - rgb_cam 0 1 * rgb_cam 1 2 * rgb_cam 2 0 -
  rgb_cam 0 2 * rgb_cam 1 0 * rgb_cam 2 1 + rgb_cam 0 0 * rgb_cam 1 2 * rgb_cam 2 1 +
  rgb_cam 0 1 * rgb_cam 1 0 * rgb_cam 2 2 - rgb_cam 0 0 * rgb_cam 1 1 * rgb_cam 2 2

/-- Transcribes `RawImageSource::inverse33` with `double` read as `ℚ`: the
matrix written to `cam_rgb`. -/
def inverse33 (rgb_cam : Matrix (Fin 3) (Fin 3) ℚ) : Matrix (Fin 3) (Fin 3) ℚ :=
  let nom := inverse33Nom rgb_cam
  Matrix.of ![
    ![(rgb_cam 1 2 * rgb_cam 2 1 - rgb_cam 1 1 * rgb_cam 2 2) / nom,
      -(rgb_cam 0 2 * rgb_cam 2 1 - rgb_cam 0 1 * rgb_cam 2 2) / nom,
      (rgb_cam 0 2 * rgb_cam 1 1 - rgb_cam 0 1 * rgb_cam 1 2) / nom],
    ![-(rgb_cam 1 2 * rgb_cam 2 0 - rgb_cam 1 0 * rgb_cam 2 2) / nom,
      (rgb_cam 0 2 * rgb_cam 2 0 - rgb_cam 0 0 * rgb_cam 2 2) / nom,
      -(rgb_cam 0 2 * rgb_cam 1 0 - rgb_cam 0 0 * rgb_cam 1 2) / nom],
    ![(rgb_cam 1 1 * rgb_cam 2 0 - rgb_cam 1 0 * rgb_cam 2 1) / nom,
      -(rgb_cam 0 1 * rgb_cam 2 0 - rgb_cam 0 0 * rgb_cam 2 1) / nom,
      (rgb_cam 0 1 * rgb_cam 1 0 - rgb_cam 0 0 * rgb_cam 1 1) / nom]]

/-- A sample colour matrix with determinant 1. -/
def sampleRgbCam : Matrix (Fin 3) (Fin 3) ℚ :=
  Matrix.of ![![2, 1, 0], ![1, 1, 0], ![0, 0, 1]]

/-! ## Coarse rotation of the rendered image (`rawimagesource.cc`) -/

/-- The outputs of `RawImageSource::transformRect`. -/
structure Rect where
  ssx1 : Int
  ssy1 : Int
  width : Int
  height : Int
  fw : Int
  deriving DecidableEq, Repr

/-- The C expression `a / skip + (a % skip > 0)`. -/
def skipCount (a skip : Int) : Int :=
  Int.tdiv a skip + (if Int.tmod a skip > 0 then 1 else 0)

/-- Transcribes `RawImageSource::transformRect` for the request
`PreviewProps(x, y, width, height, skip)`; `tran` is the transform that
`getImage` passes, `defTransform` already applied.  The output `fw` is
written on a Fuji SuperCCD sensor only and is `0` here otherwise. -/
def RawImageSource.transformRect (src : RawImageSource) (x y width height skip : Int)
    (tran : Nat) : Rect :=
  let rot := tran &&& TR_ROT
  let quarter : Bool := rot = TR_R90 ∨ rot = TR_R270
  let pp_x0 := x + src.border
  let pp_y0 := y + src.border
  let pp_x := if src.d1x && quarter then Int.tdiv pp_x0 2 else pp_x0
  let pp_width0 := if src.d1x && quarter then Int.tdiv width 2 + 1 else width
  let pp_y := if src.d1x && !quarter then Int.tdiv pp_y0 2 else pp_y0
  let pp_height0 := if src.d1x && !quarter then Int.tdiv height 2 + 1 else height
  let w := if src.fuji then src.fujiWidth * 2 + 1 else src.W
  let h := if src.fuji then (src.H - src.fujiWidth) * 2 + 1 else src.H
  let sw := if quarter then h else w
  let sh := if quarter then w else h
  let pp_width := if pp_width0 > sw - 2 * src.border then sw - 2 * src.border else pp_width0
  let pp_height := if pp_height0 > sh - 2 * src.border then sh - 2 * src.border else pp_height0
  let ppx := if tran &&& TR_HFLIP ≠ 0 then max (sw - pp_x - pp_width) 0 else pp_x
  let ppy := if tran &&& TR_VFLIP ≠ 0 then max (sh - pp_y - pp_height) 0 else pp_y
  let s : Int × Int × Int × Int :=
    if rot = TR_R180 then
      let sx1 := max (w - ppx - pp_width) 0
      let sy1 := max (h - ppy - pp_height) 0
      (sx1, sy1, min (sx1 + pp_width) (w - 1), min (sy1 + pp_height) (h - 1))
    else if rot = TR_R90 then
      let sx1 := ppy
      let sy1 := max (h - ppx - pp_width) 0
      (sx1, sy1, min (sx1 + pp_height) (w - 1), min (sy1 + pp_width) (h - 1))
    else if rot = TR_R270 then
      let sx1 := max (w - ppy - pp_height) 0
      let sy1 := ppx
      (sx1, sy1, min (sx1 + pp_height) (w - 1), min (sy1 + pp_width) (h - 1))
    else (ppx, ppy, min (ppx + pp_width) (w - 1), min (ppy + pp_height) (h - 1))
  let sx1 := s.1
  let sy1 := s.2.1
  let sx2 := s.2.2.1
  let sy2 := s.2.2.2
  if src.fuji then
    let ssx1 := Int.tdiv (sx1 + sy1) 2
    let ssy1 := Int.tdiv (sy1 - sx2) 2 + src.fujiWidth
    let ssx2 := Int.tdiv (sx2 + sy2) 2 + 1
    let ssy2 := Int.tdiv (sy2 - sx1) 2 + src.fujiWidth
    { ssx1 := ssx1, ssy1 := ssy1, width := skipCount (ssx2 - ssx1) skip,
      height := skipCount (ssy2 - ssy1) skip,
      fw := Int.tdiv (Int.tdiv (sx2 - sx1) 2) skip }
  else
    { ssx1 := sx1, ssy1 := sy1, width := skipCount (sx2 - sx1) skip,
      height := skipCount (sy2 - sy1) skip, fw := 0 }

/-- The element `channel(row, col)` that the loop body of `rotateLine` writes
`line[j]` to, as the pair `(row, col)`. -/
def rotateTarget (tran : Nat) (i j w h : Int) : Int × Int :=
  if tran &&& TR_ROT = TR_R180 then (h - 1 - i, w - 1 - j)
  else if tran &&& TR_ROT = TR_R90 then (j, h - 1 - i)
  else if tran &&& TR_ROT = TR_R270 then (w - 1 - j, i)
  else (i, j)

/-- Transcribes `rotateLine`: the writes of one call, in loop order, each as
the written element `(row, col)` with the index `j` of the value `line[j]`
stored there. -/
def rotateLine (tran : Nat) (i w h : Int) : List ((Int × Int) × Int) :=
  (List.range w.toNat).map fun (j : Nat) => (rotateTarget tran i (j : Int) w h, (j : Int))

/-- Transcribes `transLineStandard`: `rotateLine` on the red, green and blue
channel with the same arguments; the writes are those of one channel. -/
def transLineStandard (tran : Nat) (i imwidth imheight : Int) : List ((Int × Int) × Int) :=
  rotateLine tran i imwidth imheight

/-- Transcribes `RawImageSource::transformPosition`: the pair `(ttx, tty)`. -/
def RawImageSource.transformPosition (src : RawImageSource) (x y : Int) (tran0 : Nat) :
    Int × Int :=
  let tran := src.defTransform tran0
  let rot := tran &&& TR_ROT
  let quarter : Bool := rot = TR_R90 ∨ rot = TR_R270
  let x0 := x + src.border
  let y0 := y + src.border
  let x1 := if src.d1x && quarter then Int.tdiv x0 2 else x0
  let y1 := if src.d1x && !quarter then Int.tdiv y0 2 else y0
  let w := if src.fuji then src.fujiWidth * 2 + 1 else src.W
  let h := if src.fuji then (src.H - src.fujiWidth) * 2 + 1 else src.H
  let sw := if quarter then h else w
  let sh := if quarter then w else h
  let ppx := if tran &&& TR_HFLIP ≠ 0 then sw - 1 - x1 else x1
  let ppy := if tran &&& TR_VFLIP ≠ 0 then sh - 1 - y1 else y1
  let t : Int × Int :=
    if rot = TR_R180 then (w - 1 - ppx, h - 1 - ppy)
    else if rot = TR_R90 then (ppy, h - 1 - ppx)
    else if rot = TR_R270 then (w - 1 - ppy, ppx)
    else (ppx, ppy)
  if src.fuji then (Int.tdiv (t.1 + t.2) 2, Int.tdiv (t.2 - t.1) 2 + src.fujiWidth)
  else t

/-- A Foveon source: a standard sensor on which `load` sets `border = 0`. -/
def foveonSource : RawImageSource :=
  { sampleSource with sensorType := SensorType.ST_FOVEON, border := 0 }

/-! ## Turning colour highlight reconstruction off -/

/-- The sample snapshot with highlight reconstruction enabled, method
"Color". -/
def colorHlrParams : ProcParams :=
  { sampleParams with
      toneCurve := { sampleParams.toneCurve with hrenabled := true, method := "Color" } }

/-- The stage bits of the sample refresh map without the raw stages
(`M_PREPROC`, `M_RAW`), the mask of an edit that does not touch the raw
data. -/
def noRawMask : Nat :=
  refreshMap.M_INIT ||| refreshMap.M_LINDENOISE ||| refreshMap.M_HDR ||| refreshMap.M_TRANSFORM
    ||| refreshMap.M_AUTOEXP ||| refreshMap.M_RGBCURVE ||| refreshMap.M_LUMACURVE
    ||| refreshMap.M_LUMINANCE ||| refreshMap.M_COLOR

/-- Two edits of the tone-curve tool: highlight reconstruction is switched
off, and its method is set to "Blend". -/
def hlrOffEdits : List Submission :=
  [Submission.edit
     (fun p => { p with toneCurve := { p.toneCurve with hrenabled := false } }) noRawMask,
   Submission.edit
     (fun p => { p with toneCurve := { p.toneCurve with method := "Blend" } }) noRawMask]

/-- The worker at the loop test of `process()`, after a first full run with
colour highlight reconstruction enabled and the two edits `hlrOffEdits`
submitted together before the worker takes them. -/
def hlrOffWorker : Worker :=
  ⟨submitAll (firstRun colorHlrParams).c hlrOffEdits, 0, []⟩

/-! ## Histograms (`LUTu`) and the fan-out / fan-in loops -/

/-- A counter of a `LUTu`: an unsigned 32-bit integer, whose addition wraps. -/
abbrev Count := Fin 4294967296

/-- A histogram (class `LUTu`): one counter per slot. -/
abbrev LUTu := Nat → Count

/-- The histogram after `clear()`. -/
def LUTu.clear : LUTu := fun _ => 0

/-- The statement `h[pos] += k` (`h[pos]++` is `k = 1`). -/
def LUTu.incr (h : LUTu) (pos : Nat) (k : Count) : LUTu :=
  fun b => if b = pos then h b + k else h b

/-- The statement `h += g` of `LUTu`: slot-wise addition. -/
def LUTu.add (h g : LUTu) : LUTu := fun b => h b + g b

/-- A sequence of statements `h[pos] += k`, in order. -/
def LUTu.bump (h : LUTu) (hits : List (Nat × Count)) : LUTu :=
  hits.foldl (fun h p => h.incr p.1 p.2) h

/-- One worker of an OpenMP parallel region with a thread-local histogram:
the histogram is cleared and the loop body `row` is executed on the rows the
worker receives, in the order it receives them. -/
def threadLocal {ι : Type} (row : ι → LUTu → LUTu) (rows : List ι) : LUTu :=
  rows.foldl (fun h x => row x h) LUTu.clear

/-- The parallel region: the shared histogram is cleared, every worker
accumulates its rows into its thread-local histogram and adds it to the
shared one in the critical section.  `parts` lists the rows of each worker,
the workers in the order in which they pass the critical section. -/
def fanIn {ι : Type} (row : ι → LUTu → LUTu) (parts : List (List ι)) : LUTu :=
  parts.foldl (fun total rows => total.add (threadLocal row rows)) LUTu.clear

/-- The reference of the fan-out / fan-in pattern, in the words of the
specification: all rows accumulated sequentially into one histogram. -/
def sequentialHistogram {ι : Type} (row : ι → LUTu → LUTu) (rows : List ι) : LUTu :=
  rows.foldl (fun h x => row x h) LUTu.clear

/-- The inner loop of the luma histogram of `updatePreviewImage`:
`for (y = 0; y < pW; y++) lhist16thr[pos]++`, where `L x y` is the slot
selected by `pos = (int)(oprevl->L[x][y])`. -/
def lhistRow (L : Nat → Nat → Nat) (pW : Nat) (x : Nat) (h : LUTu) : LUTu :=
  (List.range pW).foldl (fun h y => h.incr (L x y) 1) h

/-- The luma histogram `lhist16` of `updatePreviewImage`, the rows
`0 .. pH-1` being distributed over the workers as `parts`. -/
def lhist16 (L : Nat → Nat → Nat) (pW : Nat) (parts : List (List Nat)) : LUTu :=
  fanIn (lhistRow L pW) parts

/-- The integers `a, a+1, .., b-1`: the values of a loop
`for (j = a; j < b; j++)`. -/
def intRange (a b : Int) : List Int :=
  (List.range (b - a).toNat).map fun (k : Nat) => a + (k : Int)

/-- Transcribes `RawImageSource::getRowStartEnd`: the pair `(start, end)`. -/
def RawImageSource.getRowStartEnd (src : RawImageSource) (x : Int) : Int × Int :=
  if src.fuji then
    (|src.fujiWidth - x| + src.border,
     min (src.H + src.W - src.fujiWidth - x) (src.fujiWidth + x) - src.border)
  else (src.border, src.W - src.border)

/-- What `getAutoExpHistogram` reads of the raw image: the colour of the
filter at a position (`ri->FC`, `ri->XTRANSFC`), the number of colours
(`ri->get_colors()`), and in `slot c i j` the slot of the histogram selected
by `(int)(refwb[c] * rawData[i][j])`. -/
structure RawPlane where
  FC : Int → Int → Nat
  XTRANSFC : Int → Int → Nat
  colors : Nat
  slot : Nat → Int → Int → Nat

/-- The unrolled loop of the Bayer branch of `getAutoExpHistogram`:
`for (j = start; j < end - 1; j += 2)`, two columns per iteration.  Returns
`j` after the loop and the histogram; `fuel` bounds the iterations. -/
def bayerPairs (bin0 bin1 : Int → Nat) (endc : Int) : Nat → Int → LUTu → Int × LUTu
  | 0, j, h => (j, h)
  | fuel + 1, j, h =>
      if j < endc - 1 then
        bayerPairs bin0 bin1 endc fuel (j + 2) ((h.incr (bin0 j) 4).incr (bin1 (j + 1)) 4)
      else (j, h)

/-- The statement `if (j < end) tmphistogram[..] += 4` after the unrolled
Bayer loop. -/
def bayerLast (bin0 : Int → Nat) (endc : Int) (r : Int × LUTu) : LUTu :=
  if r.1 < endc then r.2.incr (bin0 r.1) 4 else r.2

/-- The Bayer branch of `getAutoExpHistogram` for one row: `bin0 j` and
`bin1 j` are the slots selected with the factors `refwb0` and `refwb1`. -/
def bayerRow (bin0 bin1 : Int → Nat) (start endc : Int) (h : LUTu) : LUTu :=
  bayerLast bin0 endc (bayerPairs bin0 bin1 endc (endc - start).toNat start h)

/-- The unrolled loop of the X-Trans branch of `getAutoExpHistogram`:
`for (j = start; j < end - 5; j += 6)`, six columns per iteration; `bin k j`
is the slot selected with the factor `refwbk`. -/
def xtransSix (bin : Nat → Int → Nat) (endc : Int) : Nat → Int → LUTu → Int × LUTu
  | 0, j, h => (j, h)
  | fuel + 1, j, h =>
      if j < endc - 5 then
        xtransSix bin endc fuel (j + 6)
          ((((((h.incr (bin 0 j) 4).incr (bin 1 (j + 1)) 4).incr (bin 2 (j + 2)) 4).incr
            (bin 3 (j + 3)) 4).incr (bin 4 (j + 4)) 4).incr (bin 5 (j + 5)) 4)
      else (j, h)

/-- The loop `for (; j < end; j++)` after the unrolled X-Trans loop. -/
def xtransRest (binAt : Int → Nat) (endc : Int) : Nat → Int → LUTu → LUTu
  | 0, _, h => h
  | fuel + 1, j, h =>
      if j < endc then xtransRest binAt endc fuel (j + 1) (h.incr (binAt j) 4) else h

/-- The X-Trans branch of `getAutoExpHistogram` for one row. -/
def xtransRow (bin : Nat → Int → Nat) (binAt : Int → Nat) (start endc : Int) (h : LUTu) :
    LUTu :=
  let r := xtransSix bin endc (endc - start).toNat start h
  xtransRest binAt endc (endc - r.1).toNat r.1 r.2

/-- The branch `ri->get_colors() == 1` of `getAutoExpHistogram` for one row. -/
def monoRow (bin : Int → Nat) (start endc : Int) (h : LUTu) : LUTu :=
  (intRange start endc).foldl (fun h j => h.incr (bin j) 1) h

/-- The last branch of `getAutoExpHistogram` for one row: three values per
column. -/
def colourRow (bin : Nat → Int → Nat) (start endc : Int) (h : LUTu) : LUTu :=
  (intRange start endc).foldl
    (fun h j => ((h.incr (bin 0 (3 * j + 0)) 1).incr (bin 1 (3 * j + 1)) 1).incr
      (bin 2 (3 * j + 2)) 1) h

/-- The body of the row loop of `getAutoExpHistogram`. -/
def RawImageSource.autoExpRow (src : RawImageSource) (P : RawPlane) (i : Int) (h : LUTu) :
    LUTu :=
  let se := src.getRowStartEnd i
  if src.sensorType = SensorType.ST_BAYER then
    bayerRow (P.slot (P.FC i se.1) i) (P.slot (P.FC i (se.1 + 1)) i) se.1 se.2 h
  else if src.sensorType = SensorType.ST_FUJI_XTRANS then
    xtransRow (fun k => P.slot (P.XTRANSFC i (se.1 + k)) i)
      (fun j => P.slot (P.XTRANSFC i j) i j) se.1 se.2 h
  else if P.colors = 1 then monoRow (P.slot 0 i) se.1 se.2 h
  else colourRow (fun c => P.slot c i) se.1 se.2 h

/-- Transcribes the accumulation of `RawImageSource::getAutoExpHistogram`:
the rows `border .. H-border-1` being distributed over the workers as
`parts`.  (The constant `histcompr = 3` is part of `slot`.) -/
def RawImageSource.getAutoExpHistogram (src : RawImageSource) (P : RawPlane)
    (parts : List (List Int)) : LUTu :=
  fanIn (src.autoExpRow P) parts

/-- The statements `h[pos] += 4` of a Bayer row, one per column
`start + k`: the factor alternates with the parity of `k`. -/
def bayerHits (bin0 bin1 : Int → Nat) (start : Int) (n : Nat) : List (Nat × Count) :=
  (List.range n).map fun (k : Nat) =>
    (if k % 2 = 0 then bin0 (start + (k : Int)) else bin1 (start + (k : Int)), 4)

/-- The statements `h[pos] += 4` of an X-Trans row, one per column
`start + k`: the precomputed factor `k % 6` in the unrolled part, the factor
of the column itself in the rest. -/
def xtransHits (bin : Nat → Int → Nat) (binAt : Int → Nat) (start : Int) (n : Nat) :
    List (Nat × Count) :=
  (List.range n).map fun (k : Nat) =>
    (if k < 6 * (n / 6) then bin (k % 6) (start + (k : Int)) else binAt (start + (k : Int)), 4)

/-- The statements of one row of `getAutoExpHistogram`, column by column. -/
def RawImageSource.autoExpHits (src : RawImageSource) (P : RawPlane) (i : Int) :
    List (Nat × Count) :=
  let se := src.getRowStartEnd i
  if src.sensorType = SensorType.ST_BAYER then
    bayerHits (P.slot (P.FC i se.1) i) (P.slot (P.FC i (se.1 + 1)) i) se.1 (se.2 - se.1).toNat
  else if src.sensorType = SensorType.ST_FUJI_XTRANS then
    xtransHits (fun k => P.slot (P.XTRANSFC i (se.1 + k)) i)
      (fun j => P.slot (P.XTRANSFC i j) i j) se.1 (se.2 - se.1).toNat
  else if P.colors = 1 then (intRange se.1 se.2).map fun j => (P.slot 0 i j, 1)
  else (intRange se.1 se.2).flatMap fun j =>
    [(P.slot 0 i (3 * j + 0), 1), (P.slot 1 i (3 * j + 1), 1), (P.slot 2 i (3 * j + 2), 1)]

/-- The total added to slot `b` by a sequence of statements. -/
def tally (hits : List (Nat × Count)) (b : Nat) : Count :=
  ((hits.filter fun p => p.1 = b).map Prod.snd).sum

/-- A Bayer source of 8 x 6 pixels with a border of one pixel. -/
def tinySource : RawImageSource := { sampleSource with W := 8, H := 6, border := 1 }

/-- A raw plane for concrete evaluation: filter colours by parity, the slot
is the colour plus the column. -/
def tinyPlane : RawPlane where
  FC := fun i j => ((i + j) % 2).toNat
  XTRANSFC := fun i j => ((i + j) % 3).toNat
  colors := 3
  slot := fun c _ j => c + j.toNat

@[simp] theorem progress_eq (r : Run) : progress r = r := rfl

@[simp] theorem emit_c (r : Run) (e : Event) : (r.emit e).c = r.c := rfl

@[simp] theorem emit_todo (r : Run) (e : Event) : (r.emit e).todo = r.todo := rfl

@[simp] theorem emit_events (r : Run) (e : Event) : (r.emit e).events = r.events ++ [e] := rfl

@[simp] theorem emitAll_c (r : Run) (es : List Event) : (r.emitAll es).c = r.c := rfl

@[simp] theorem emitAll_todo (r : Run) (es : List Event) : (r.emitAll es).todo = r.todo := rfl

@[simp] theorem emitAll_events (r : Run) (es : List Event) :
    (r.emitAll es).events = r.events ++ es := rfl

@[simp] theorem emitIf_c (r : Run) (b : Bool) (e : Event) : (r.emitIf b e).c = r.c := by
  unfold Run.emitIf; split <;> rfl

@[simp] theorem emitIf_todo (r : Run) (b : Bool) (e : Event) : (r.emitIf b e).todo = r.todo := by
  unfold Run.emitIf; split <;> rfl

@[simp] theorem emitIf_events (r : Run) (b : Bool) (e : Event) :
    (r.emitIf b e).events = r.events ++ (if b then [e] else []) := by
  unfold Run.emitIf; split <;> simp

@[simp] theorem emit_core (r : Run) (e : Event) : (r.emit e).core = r.core := rfl

@[simp] theorem emitAll_core (r : Run) (es : List Event) : (r.emitAll es).core = r.core := rfl

@[simp] theorem emitIf_core (r : Run) (b : Bool) (e : Event) : (r.emitIf b e).core = r.core := by
  unfold Run.emitIf; split <;> rfl

/-! ## The stages act on the dispatch state as `Core` says -/

theorem preprocessStage_core (M : RefreshMap) (hdn : Bool) (rp : RAWParams) (r : Run) :
    (preprocessStage M hdn rp r).core = Core.preprocess M hdn r.core := by
  unfold preprocessStage Core.preprocess Core.preprocessNeeded
  by_cases h : (testBits r.todo M.M_PREPROC || (!r.c.highDetailPreprocessComputed && hdn)) = true
  · rw [if_pos h, if_pos (by simpa [Run.core] using h)]
    simp [Run.core, RawImageSource.preprocess]
  · rw [if_neg h, if_neg (by simpa [Run.core] using h)]

theorem demosaicNeeded_core (M : RefreshMap) (hdn : Bool) (r : Run) :
    demosaicNeeded M hdn r = r.core.demosaicNeeded M hdn := by
  simp [demosaicNeeded, Core.demosaicNeeded, Run.core, ProcParams.fixedPart]

theorem borderStep_core (N : MethodNames) (r : Run) : (borderStep N r).core = r.core := by
  unfold borderStep
  split <;> simp [Run.core]

theorem demosaicCall_core (M : RefreshMap) (hdn : Bool) (rp : RAWParams) (r : Run) :
    (demosaicCall M hdn rp r).core
      = { r.core with todo := r.core.todo ||| M.M_INIT, hdRaw := hdn, rgbMod := false } := by
  unfold demosaicCall
  simp [Run.core, RawImageSource.demosaic]

theorem demosaicStage_core (M : RefreshMap) (N : MethodNames) (hdn : Bool) (rp : RAWParams)
    (r : Run) : (demosaicStage M N hdn rp r).core = Core.demosaic M hdn r.core := by
  unfold demosaicStage Core.demosaic
  rw [demosaicNeeded_core]
  split
  · rw [demosaicCall_core, borderStep_core]
  · rfl

theorem retinexStage_core (M : RefreshMap) (r : Run) :
    (retinexStage M r).core = Core.retinex M r.core := by
  unfold retinexStage Core.retinex
  by_cases h : (testBits r.todo (M.M_RETINEX ||| M.M_INIT) && r.c.params.retinex.enabled) = true
  · rw [if_pos h, if_pos (by simpa [Run.core, ProcParams.fixedPart] using h)]
    simp [Run.core, RawImageSource.retinex]
  · rw [if_neg h, if_neg (by simpa [Run.core, ProcParams.fixedPart] using h)]

theorem freeAll_core (r : Run) : (freeAll r).core = r.core := by
  unfold freeAll
  split <;> simp [Run.core]

theorem reallocate_core (nW nH : Int) (r : Run) : (reallocate nW nH r).core = r.core := by
  unfold reallocate
  split
  · have h := freeAll_core r
    simp only [Run.core, Core.mk.injEq] at h ⊢
    simpa using h
  · rfl

theorem commitScale_core (s fw fh : Int) (r : Run) : (commitScale s fw fh r).core = r.core := by
  unfold commitScale
  simp [Run.core]

theorem setScale_core (K : Collab) (s : Int) (r : Run) : (setScale K s r).core = r.core := by
  unfold setScale
  simp only [commitScale_core, reallocate_core]
  simp [Run.core]

theorem whiteBalance_core (K : Collab) (r : Run) : (whiteBalance K r).core = r.core := by
  unfold whiteBalance
  simp only [emitIf_core]
  split_ifs <;> simp [Run.core, ProcParams.fixedPart]

theorem HLRecovery_Global_rgbSourceModified (src : RawImageSource) (hrp : ToneCurveParams) :
    (src.HLRecovery_Global hrp).1.rgbSourceModified
      = ((hrp.hrenabled && hrp.method == "Color") || src.rgbSourceModified) := by
  by_cases hm : hrp.method = "Color" <;> cases he : hrp.hrenabled <;>
    cases hs : src.rgbSourceModified <;>
    simp [RawImageSource.HLRecovery_Global, hm, he, hs]

theorem HLRecovery_Global_sensorType (src : RawImageSource) (hrp : ToneCurveParams) :
    (src.HLRecovery_Global hrp).1.sensorType = src.sensorType := by
  unfold RawImageSource.HLRecovery_Global
  split_ifs <;> rfl

theorem highlightRecovery_core (r : Run) :
    (highlightRecovery r).core
      = { r.core with rgbMod :=
            (r.core.fixed.toneCurve.hrenabled && r.core.fixed.toneCurve.method == "Color")
              || r.core.rgbMod } := by
  unfold highlightRecovery
  simp [Run.core, HLRecovery_Global_rgbSourceModified, HLRecovery_Global_sensorType,
    ProcParams.fixedPart]

theorem fullSize_core (K : Collab) (r : Run) : (fullSize K r).core = r.core := rfl

theorem loadPreview_core (K : Collab) (r : Run) : (loadPreview K r).core = r.core := by
  unfold loadPreview
  simp only [emit_core, setScale_core]

theorem initStage_core (K : Collab) (M : RefreshMap) (r : Run) :
    (initStage K M r).core = Core.init M r.core := by
  unfold initStage Core.init Core.initNeeded
  by_cases h : testBits r.todo (M.M_INIT ||| M.M_LINDENOISE ||| M.M_HDR) = true
  · rw [if_pos h, if_pos (by simpa [Run.core] using h)]
    rw [loadPreview_core, fullSize_core, whiteBalance_core, highlightRecovery_core]
  · rw [if_neg h, if_neg (by simpa [Run.core] using h)]

theorem hdrStage_core (M : RefreshMap) (r : Run) : (hdrStage M r).core = r.core := by
  unfold hdrStage
  split <;> simp [Run.core]

theorem transformStage_core (K : Collab) (M : RefreshMap) (r : Run) :
    (transformStage K M r).core = r.core := by
  unfold transformStage
  simp only []
  split_ifs <;> simp [Run.core]

theorem cbdlStage_core (M : RefreshMap) (r : Run) : (cbdlStage M r).core = r.core := by
  unfold cbdlStage
  split <;> simp [Run.core]

theorem autoExposure_core (K : Collab) (r : Run) : (autoExposure K r).core = r.core := by
  unfold autoExposure
  split <;> simp [Run.core, ProcParams.fixedPart]

theorem histogramMatching_core (K : Collab) (r : Run) :
    (histogramMatching K r).core = r.core := by
  unfold histogramMatching
  simp only [emitIf_core]
  split_ifs <;> simp [Run.core, ProcParams.fixedPart]

theorem autoExpStage_core (K : Collab) (M : RefreshMap) (r : Run) :
    (autoExpStage K M r).core = r.core := by
  unfold autoExpStage
  split <;> simp [histogramMatching_core, autoExposure_core]

theorem workingTrcStage_core (M : RefreshMap) (r : Run) :
    (workingTrcStage M r).core = r.core := by
  unfold workingTrcStage
  split <;> simp [Run.core]

theorem rgbCurveStage_core (M : RefreshMap) (r : Run) : (rgbCurveStage M r).core = r.core := by
  unfold rgbCurveStage
  simp only []
  split_ifs <;> simp [Run.core]

theorem lumaCurveStage_core (M : RefreshMap) (r : Run) : (lumaCurveStage M r).core = r.core := by
  unfold lumaCurveStage
  simp only []
  split_ifs <;> simp [Run.core]

theorem luminanceColorStage_core (K : Collab) (M : RefreshMap) (r : Run) :
    (luminanceColorStage K M r).core = r.core := by
  unfold luminanceColorStage
  simp only []
  split_ifs <;> simp [Run.core]

theorem monitorStage_core (M : RefreshMap) (r : Run) : (monitorStage M r).core = r.core := by
  unfold monitorStage
  simp only []
  split <;> simp [Run.core]

theorem cropLoop_core (K : Collab) (M : RefreshMap) (pan hdn : Bool) (crops : List Crop)
    (i : Nat) (r : Run) : (cropLoop K M pan hdn crops i r).core = r.core := by
  induction crops generalizing i r with
  | nil => rfl
  | cons cr crops ih => simp [cropLoop, ih]

theorem convertPreview_core (K : Collab) (M : RefreshMap) (r : Run) :
    (convertPreview K M r).1.core = r.core := by
  unfold convertPreview
  split
  · cases r.c.previmg
    · rfl
    · cases K.conversion <;> rfl
  · rfl

theorem announce_core (r : Run) : (announce r).core = r.core := by
  unfold announce
  simp only []
  split_ifs <;> simp [Run.core]

theorem publish_core (K : Collab) (M : RefreshMap) (pan : Bool) (r : Run) :
    (publish K M pan r).1.core = r.core := by
  unfold publish
  simp only [progress_eq]
  split_ifs <;> simp only [announce_core, convertPreview_core]

theorem gateEntry_core (K : Collab) (M : RefreshMap) (r : Run) :
    (gateEntry K M r).core = Core.preamble M (K.needsPCVignetting r.c.params) r.core := by
  unfold gateEntry Core.preamble
  simp only [progress_eq, emitIf_core]
  by_cases h : r.todo = M.CROP ∧ K.needsPCVignetting r.c.params = true
  · rw [if_pos h, if_pos (by simpa [Run.core] using h)]; rfl
  · rw [if_neg h, if_neg (by simpa [Run.core] using h)]

theorem throughPreprocess_core (K : Collab) (M : RefreshMap) (hdn : Bool) (rp : RAWParams)
    (r : Run) :
    (throughPreprocess K M hdn rp r).core
      = Core.preprocess M hdn (Core.preamble M (K.needsPCVignetting r.c.params) r.core) := by
  unfold throughPreprocess
  simp only [emitIf_core, preprocessStage_core, gateEntry_core]

theorem throughInit_core (K : Collab) (M : RefreshMap) (N : MethodNames) (hdn : Bool)
    (rp : RAWParams) (r : Run) :
    (throughInit K M N hdn rp r).core
      = Core.gateBody M hdn (K.needsPCVignetting r.c.params) r.core := by
  unfold throughInit Core.gateBody
  simp only [initStage_core, retinexStage_core, demosaicStage_core, throughPreprocess_core]

theorem afterTransform_core (K : Collab) (M : RefreshMap) (r : Run) :
    (afterTransform K M r).core = r.core := by
  unfold afterTransform
  simp only [progress_eq, monitorStage_core, luminanceColorStage_core, lumaCurveStage_core,
    rgbCurveStage_core, workingTrcStage_core, autoExpStage_core, cbdlStage_core]

theorem gateBody_core (K : Collab) (M : RefreshMap) (N : MethodNames) (hdn : Bool) (r : Run) :
    (gateBody K M N hdn r).core
      = Core.gateBody M hdn (K.needsPCVignetting r.c.params) r.core := by
  unfold gateBody
  simp only [progress_eq, afterTransform_core, transformStage_core, hdrStage_core,
    throughInit_core]

theorem releaseTransformed_core (r : Run) : (releaseTransformed r).core = r.core := by
  unfold releaseTransformed; split <;> rfl

theorem updatePreviewImage_core (K : Collab) (M : RefreshMap) (N : MethodNames) (todo : Nat)
    (pan : Bool) (c : ImProcCoordinator) :
    (updatePreviewImage K M N todo pan c).core
      = if outerGate K M todo pan (highDetailNeeded K M c.crops todo) then
          Core.gateBody M (highDetailNeeded K M c.crops todo) (K.needsPCVignetting c.params)
            (Run.core ⟨c, todo, []⟩)
        else Run.core ⟨c, todo, []⟩ := by
  unfold updatePreviewImage
  simp only []
  split_ifs <;>
    simp only [releaseTransformed_core, publish_core, cropLoop_core, gateBody_core]

/-! ## Each stage records calls of its own stage only -/

theorem Appends.mem_of_mem {X : Stage} {r r' : Run} (h : Appends X r r') {e : Event}
    (he : e ∈ r.events) : e ∈ r'.events := by
  obtain ⟨es, h1, _⟩ := h
  rw [h1]; exact List.mem_append_left _ he

theorem Appends.mem_iff {X : Stage} {r r' : Run} (h : Appends X r r') {e : Event}
    (he : e.stage ≠ X) : e ∈ r'.events ↔ e ∈ r.events := by
  obtain ⟨es, h1, h2⟩ := h
  rw [h1, List.mem_append]
  constructor
  · rintro (h | h)
    · exact h
    · exact absurd (h2 e h) he
  · exact Or.inl

theorem appends_of_eq (X : Stage) {r r' : Run} (es : List Event)
    (h1 : r'.events = r.events ++ es) (h2 : ∀ e ∈ es, e.stage = X) : Appends X r r' :=
  ⟨es, h1, h2⟩

theorem appends_refl (X : Stage) (r : Run) : Appends X r r := ⟨[], by simp, by simp⟩

theorem preprocessStage_appends (M : RefreshMap) (hdn : Bool) (rp : RAWParams) (r : Run) :
    Appends .preprocess r (preprocessStage M hdn rp r) := by
  unfold preprocessStage
  split
  · refine appends_of_eq _ _ (by simp [RawImageSource.preprocess]; rfl) ?_
    intro e he
    simp at he
    aesop
  · exact appends_refl _ _

theorem Appends.trans {X : Stage} {r r' r'' : Run} (h : Appends X r r')
    (h' : Appends X r' r'') : Appends X r r'' := by
  obtain ⟨es, h1, h2⟩ := h
  obtain ⟨es', h1', h2'⟩ := h'
  refine ⟨es ++ es', by rw [h1', h1, List.append_assoc], ?_⟩
  intro e he
  rcases List.mem_append.mp he with he | he
  · exact h2 e he
  · exact h2' e he

theorem borderStep_appends (N : MethodNames) (r : Run) :
    Appends .demosaic r (borderStep N r) := by
  unfold borderStep
  split
  · refine appends_of_eq _ _ (by simp; rfl) ?_
    intro e he
    simp at he
    aesop
  · exact appends_refl _ _

theorem demosaicCall_appends (M : RefreshMap) (hdn : Bool) (rp : RAWParams) (r : Run) :
    Appends .demosaic r (demosaicCall M hdn rp r) := by
  unfold demosaicCall
  refine appends_of_eq _ _ (by simp; rfl) ?_
  intro e he
  simp at he
  aesop

theorem demosaicStage_appends (M : RefreshMap) (N : MethodNames) (hdn : Bool) (rp : RAWParams)
    (r : Run) : Appends .demosaic r (demosaicStage M N hdn rp r) := by
  unfold demosaicStage
  split
  · exact (borderStep_appends N r).trans (demosaicCall_appends M hdn rp _)
  · exact appends_refl _ _

theorem retinexStage_appends (M : RefreshMap) (r : Run) :
    Appends .retinex r (retinexStage M r) := by
  unfold retinexStage
  split
  · refine appends_of_eq _ _ (by simp; rfl) ?_
    intro e he
    simp at he
    aesop
  · exact appends_refl _ _

theorem freeAll_appends (r : Run) : Appends .init r (freeAll r) := by
  unfold freeAll
  split
  · refine appends_of_eq _ _ (by simp; rfl) ?_
    intro e he
    simp at he
    aesop
  · exact appends_refl _ _

theorem Appends.congr {X : Stage} {r r' r'' : Run} (h : Appends X r r')
    (h' : r''.events = r'.events) : Appends X r r'' := by
  obtain ⟨es, h1, h2⟩ := h
  exact ⟨es, by rw [h', h1], h2⟩

theorem reallocate_appends (nW nH : Int) (r : Run) : Appends .init r (reallocate nW nH r) := by
  unfold reallocate
  split
  · exact (freeAll_appends r).congr rfl
  · exact appends_refl _ _

theorem commitScale_appends (s fw fh : Int) (r : Run) :
    Appends .init r (commitScale s fw fh r) := by
  unfold commitScale
  refine appends_of_eq _ _ (by simp; rfl) ?_
  intro e he
  simp at he
  aesop

theorem setScale_appends (K : Collab) (s : Int) (r : Run) :
    Appends .init r (setScale K s r) := by
  unfold setScale
  refine Appends.trans (Appends.trans ?_ (reallocate_appends _ _ _)) (commitScale_appends _ _ _ _)
  exact appends_of_eq _ [Event.setScale s] rfl (by simp)

theorem whiteBalance_appends (K : Collab) (r : Run) : Appends .init r (whiteBalance K r) := by
  unfold whiteBalance
  try simp only []
  split_ifs
  all_goals
    refine appends_of_eq _ _ (by simp; rfl) ?_
    intro e he
    simp at he
    aesop

theorem highlightRecovery_appends (r : Run) : Appends .init r (highlightRecovery r) := by
  unfold highlightRecovery
  refine appends_of_eq _ _ (by simp; rfl) ?_
  intro e he
  simp [RawImageSource.HLRecovery_Global] at he
  rcases he with rfl | he
  · rfl
  · split_ifs at he <;> simp at he
    subst he; rfl

theorem fullSize_appends (K : Collab) (r : Run) : Appends .init r (fullSize K r) :=
  (appends_refl _ r).congr rfl

theorem loadPreview_appends (K : Collab) (r : Run) : Appends .init r (loadPreview K r) := by
  unfold loadPreview
  refine Appends.trans (setScale_appends K r.c.scale r) ?_
  refine appends_of_eq _ _ (by simp; rfl) ?_
  intro e he
  simp at he
  aesop

theorem initStage_appends (K : Collab) (M : RefreshMap) (r : Run) :
    Appends .init r (initStage K M r) := by
  unfold initStage
  split
  · exact (((highlightRecovery_appends r).trans (whiteBalance_appends K _)).trans
      (fullSize_appends K _)).trans (loadPreview_appends K _)
  · exact appends_refl _ _

theorem hdrStage_appends (M : RefreshMap) (r : Run) :
    Appends .hdr r (hdrStage M r) := by
  unfold hdrStage
  try simp only []
  split_ifs
  all_goals
    first
    | exact appends_refl _ _
    | exact (appends_refl _ r).congr rfl
    | (refine appends_of_eq _ _ (by simp; rfl) ?_
       intro e he
       simp at he
       aesop)

theorem transformStage_appends (K : Collab) (M : RefreshMap) (r : Run) :
    Appends .transform r (transformStage K M r) := by
  unfold transformStage
  try simp only []
  split_ifs
  all_goals
    first
    | exact appends_refl _ _
    | exact (appends_refl _ r).congr rfl
    | (refine appends_of_eq _ _ (by simp; rfl) ?_
       intro e he
       simp at he
       aesop)

theorem cbdlStage_appends (M : RefreshMap) (r : Run) :
    Appends .cbdl r (cbdlStage M r) := by
  unfold cbdlStage
  try simp only []
  split_ifs
  all_goals
    first
    | exact appends_refl _ _
    | exact (appends_refl _ r).congr rfl
    | (refine appends_of_eq _ _ (by simp; rfl) ?_
       intro e he
       simp at he
       aesop)

theorem autoExposure_appends (K : Collab) (r : Run) :
    Appends .autoExp r (autoExposure K r) := by
  unfold autoExposure
  try simp only []
  split_ifs
  all_goals
    first
    | exact appends_refl _ _
    | exact (appends_refl _ r).congr rfl
    | (refine appends_of_eq _ _ (by simp; rfl) ?_
       intro e he
       simp at he
       aesop)

theorem histogramMatching_appends (K : Collab) (r : Run) :
    Appends .autoExp r (histogramMatching K r) := by
  unfold histogramMatching
  try simp only []
  split_ifs
  all_goals
    first
    | exact appends_refl _ _
    | exact (appends_refl _ r).congr rfl
    | (refine appends_of_eq _ _ (by simp; rfl) ?_
       intro e he
       simp at he
       aesop)

theorem autoExpStage_appends (K : Collab) (M : RefreshMap) (r : Run) :
    Appends .autoExp r (autoExpStage K M r) := by
  unfold autoExpStage
  split
  · exact (autoExposure_appends K r).trans (histogramMatching_appends K _)
  · exact appends_refl _ _

theorem workingTrcStage_appends (M : RefreshMap) (r : Run) :
    Appends .workingTrc r (workingTrcStage M r) := by
  unfold workingTrcStage
  try simp only []
  split_ifs
  all_goals
    first
    | exact appends_refl _ _
    | exact (appends_refl _ r).congr rfl
    | (refine appends_of_eq _ _ (by simp; rfl) ?_
       intro e he
       simp at he
       aesop)

theorem rgbCurveStage_appends (M : RefreshMap) (r : Run) :
    Appends .rgbCurve r (rgbCurveStage M r) := by
  unfold rgbCurveStage
  try simp only []
  split_ifs
  all_goals
    first
    | exact appends_refl _ _
    | exact (appends_refl _ r).congr rfl
    | (refine appends_of_eq _ _ (by simp; rfl) ?_
       intro e he
       simp at he
       aesop)

theorem lumaCurveStage_appends (M : RefreshMap) (r : Run) :
    Appends .lumaCurve r (lumaCurveStage M r) := by
  unfold lumaCurveStage
  try simp only []
  split_ifs
  all_goals
    first
    | exact appends_refl _ _
    | exact (appends_refl _ r).congr rfl
    | (refine appends_of_eq _ _ (by simp; rfl) ?_
       intro e he
       simp at he
       aesop)

theorem luminanceColorStage_appends (K : Collab) (M : RefreshMap) (r : Run) :
    Appends .luminanceColor r (luminanceColorStage K M r) := by
  unfold luminanceColorStage
  try simp only []
  split_ifs
  all_goals
    first
    | exact appends_refl _ _
    | exact (appends_refl _ r).congr rfl
    | (refine appends_of_eq _ _ (by simp; rfl) ?_
       intro e he
       simp at he
       aesop)

theorem monitorStage_appends (M : RefreshMap) (r : Run) :
    Appends .monitor r (monitorStage M r) := by
  unfold monitorStage
  try simp only []
  split_ifs
  all_goals
    first
    | exact appends_refl _ _
    | exact (appends_refl _ r).congr rfl
    | (refine appends_of_eq _ _ (by simp; rfl) ?_
       intro e he
       simp at he
       aesop)

theorem cropLoop_appends (K : Collab) (M : RefreshMap) (pan hdn : Bool) (crops : List Crop)
    (i : Nat) (r : Run) : Appends .crop r (cropLoop K M pan hdn crops i r) := by
  induction crops generalizing i r with
  | nil => exact appends_refl _ _
  | cons cr crops ih =>
      unfold cropLoop
      refine Appends.trans ?_ (ih _ _)
      refine appends_of_eq _ _ (by simp; rfl) ?_
      intro e he
      simp at he
      aesop

theorem convertPreview_appends (K : Collab) (M : RefreshMap) (r : Run) :
    Appends .publish r (convertPreview K M r).1 := by
  unfold convertPreview
  split
  · cases r.c.previmg
    · exact appends_refl _ _
    · cases K.conversion
      · exact appends_of_eq _ [Event.call Call.lab2monitorRgb, Event.call Call.lab2rgb]
          (by simp) (by simp)
      · exact appends_of_eq _ [Event.call Call.lab2monitorRgb] (by simp) (by simp)
      · exact appends_of_eq _ [Event.call Call.lab2monitorRgb, Event.call Call.lab2rgb]
          (by simp) (by simp)
  · exact appends_refl _ _

theorem announce_appends (r : Run) : Appends .publish r (announce r) := by
  unfold announce
  simp only []
  split_ifs
  all_goals
    refine appends_of_eq _ _ (by simp; rfl) ?_
    intro e he
    simp at he
    aesop

theorem publish_appends (K : Collab) (M : RefreshMap) (pan : Bool) (r : Run) :
    Appends .publish r (publish K M pan r).1 := by
  unfold publish
  simp only [progress_eq]
  split_ifs
  · exact convertPreview_appends K M r
  · exact (convertPreview_appends K M r).trans (announce_appends _)
  · exact appends_refl _ _

theorem releaseTransformed_events (r : Run) : (releaseTransformed r).events = r.events := by
  unfold releaseTransformed; split <;> rfl

/-! ## Which segment of a run records which calls -/

theorem Appends.toIn {X : Stage} {r r' : Run} (h : Appends X r r') {S : List Stage}
    (hX : X ∈ S) : AppendsIn S r r' := by
  obtain ⟨es, h1, h2⟩ := h
  exact ⟨es, h1, fun e he => by rw [h2 e he]; exact hX⟩

theorem AppendsIn.seq {S : List Stage} {r r' r'' : Run} (h : AppendsIn S r r')
    (h' : AppendsIn S r' r'') : AppendsIn S r r'' := by
  obtain ⟨es, h1, h2⟩ := h
  obtain ⟨es', h1', h2'⟩ := h'
  refine ⟨es ++ es', by rw [h1', h1, List.append_assoc], ?_⟩
  intro e he
  rcases List.mem_append.mp he with he | he
  · exact h2 e he
  · exact h2' e he

theorem AppendsIn.sameEvents {S : List Stage} {r r' r'' : Run} (h : AppendsIn S r r')
    (h' : r''.events = r'.events) : AppendsIn S r r'' := by
  obtain ⟨es, h1, h2⟩ := h
  exact ⟨es, by rw [h', h1], h2⟩

theorem AppendsIn.mem_iff_of_not_mem {S : List Stage} {r r' : Run} (h : AppendsIn S r r') {e : Event}
    (he : e.stage ∉ S) : e ∈ r'.events ↔ e ∈ r.events := by
  obtain ⟨es, h1, h2⟩ := h
  rw [h1, List.mem_append]
  constructor
  · rintro (h | h)
    · exact h
    · exact absurd (h2 e h) he
  · exact Or.inl

theorem AppendsIn.mem_mono {S : List Stage} {r r' : Run} (h : AppendsIn S r r') {e : Event}
    (he : e ∈ r.events) : e ∈ r'.events := by
  obtain ⟨es, h1, _⟩ := h
  rw [h1]; exact List.mem_append_left _ he

theorem gateEntry_appends (K : Collab) (M : RefreshMap) (r : Run) :
    Appends .preamble r (gateEntry K M r) := by
  unfold gateEntry
  simp only [progress_eq]
  split_ifs
  all_goals
    refine appends_of_eq _ _ (by simp; rfl) ?_
    intro e he
    simp at he
    aesop

theorem throughPreprocess_appends (K : Collab) (M : RefreshMap) (hdn : Bool) (rp : RAWParams)
    (r : Run) : AppendsIn [.preamble, .preprocess] r (throughPreprocess K M hdn rp r) := by
  unfold throughPreprocess
  refine ((gateEntry_appends K M r).toIn (by decide)).seq
    (((preprocessStage_appends M hdn rp _).toIn (by decide)).seq ?_)
  refine Appends.toIn (X := .preamble) ?_ (by decide)
  refine appends_of_eq _ _ (by simp; rfl) ?_
  intro e he
  simp at he
  aesop

theorem throughInit_appends (K : Collab) (M : RefreshMap) (N : MethodNames) (hdn : Bool)
    (rp : RAWParams) (r : Run) : AppendsIn rawStages r (throughInit K M N hdn rp r) := by
  unfold throughInit
  have h0 : AppendsIn rawStages r (throughPreprocess K M hdn rp r) := by
    obtain ⟨es, h1, h2⟩ := throughPreprocess_appends K M hdn rp r
    refine ⟨es, h1, fun e he => ?_⟩
    have := h2 e he
    simp only [List.mem_cons, List.mem_singleton, List.not_mem_nil, or_false] at this
    rcases this with h | h <;> rw [h] <;> decide
  exact ((h0.seq ((demosaicStage_appends M N hdn rp _).toIn (by decide))).seq
    ((retinexStage_appends M _).toIn (by decide))).seq
    ((initStage_appends K M _).toIn (by decide))

theorem afterTransform_appends (K : Collab) (M : RefreshMap) (r : Run) :
    AppendsIn lateStages r (afterTransform K M r) := by
  unfold afterTransform
  simp only [progress_eq]
  exact ((((((cbdlStage_appends M r).toIn (by decide)).seq
    ((autoExpStage_appends K M _).toIn (by decide))).seq
    ((workingTrcStage_appends M _).toIn (by decide))).seq
    ((rgbCurveStage_appends M _).toIn (by decide))).seq
    ((lumaCurveStage_appends M _).toIn (by decide))).seq
    ((luminanceColorStage_appends K M _).toIn (by decide)) |>.seq
    ((monitorStage_appends M _).toIn (by decide))

/-- The run after the outer `if`: crop windows, publication, release of the
transformed buffer. -/
theorem tail_appends (K : Collab) (M : RefreshMap) (pan hdn : Bool) (r : Run) :
    AppendsIn tailStages r
      (if (publish K M pan (cropLoop K M pan hdn r.c.crops 0 r)).2 ≠ RunEnd.completed then
         (publish K M pan (cropLoop K M pan hdn r.c.crops 0 r)).1
       else releaseTransformed (publish K M pan (cropLoop K M pan hdn r.c.crops 0 r)).1) := by
  have h : AppendsIn tailStages r (publish K M pan (cropLoop K M pan hdn r.c.crops 0 r)).1 :=
    ((cropLoop_appends K M pan hdn r.c.crops 0 r).toIn (by decide)).seq
      ((publish_appends K M pan _).toIn (by decide))
  split
  · exact h
  · exact h.sameEvents (releaseTransformed_events _)

/-! ## Calls of a whole run -/

theorem updatePreviewImage_mem {K : Collab} {M : RefreshMap} {N : MethodNames} {todo : Nat}
    {pan : Bool} {c : ImProcCoordinator} {e : Event} (he : e.stage ∉ tailStages) :
    e ∈ (updatePreviewImage K M N todo pan c).events ↔
      outerGate K M todo pan (highDetailNeeded K M c.crops todo) = true
        ∧ e ∈ (gateBody K M N (highDetailNeeded K M c.crops todo) ⟨c, todo, []⟩).events := by
  unfold updatePreviewImage
  simp only []
  rw [(tail_appends K M pan _ _).mem_iff_of_not_mem he]
  split <;> simp [*]

theorem gateBody_mem_raw {K : Collab} {M : RefreshMap} {N : MethodNames} {hdn : Bool} {r : Run}
    {e : Event} (he : e.stage ∈ rawStages) :
    e ∈ (gateBody K M N hdn r).events ↔
      e ∈ (throughInit K M N hdn (rawParamsFor N hdn r.c.params.raw) r).events := by
  unfold gateBody
  simp only [progress_eq]
  have h1 : e.stage ∉ lateStages := by
    revert he; generalize e.stage = s; revert s; decide
  have h2 : e.stage ≠ .transform := by
    revert he; generalize e.stage = s; revert s; decide
  have h3 : e.stage ≠ .hdr := by
    revert he; generalize e.stage = s; revert s; decide
  rw [(afterTransform_appends K M _).mem_iff_of_not_mem h1, (transformStage_appends K M _).mem_iff h2,
    (hdrStage_appends M _).mem_iff h3]

theorem gateBody_mem_transform {K : Collab} {M : RefreshMap} {N : MethodNames} {hdn : Bool}
    {r : Run} {e : Event} (he : e.stage = .transform) :
    e ∈ (gateBody K M N hdn r).events ↔
      e ∈ (transformStage K M
            (hdrStage M (throughInit K M N hdn (rawParamsFor N hdn r.c.params.raw) r))).events := by
  unfold gateBody
  simp only [progress_eq]
  rw [(afterTransform_appends K M _).mem_iff_of_not_mem (by rw [he]; decide)]

theorem throughInit_mem_demosaic {K : Collab} {M : RefreshMap} {N : MethodNames} {hdn : Bool}
    {rp : RAWParams} {r : Run} {e : Event} (he : e.stage = .demosaic) :
    e ∈ (throughInit K M N hdn rp r).events ↔
      e ∈ (demosaicStage M N hdn rp (throughPreprocess K M hdn rp r)).events := by
  unfold throughInit
  rw [(initStage_appends K M _).mem_iff (by rw [he]; decide),
    (retinexStage_appends M _).mem_iff (by rw [he]; decide)]

theorem throughInit_mem_preprocess {K : Collab} {M : RefreshMap} {N : MethodNames} {hdn : Bool}
    {rp : RAWParams} {r : Run} {e : Event} (he : e.stage = .preprocess) :
    e ∈ (throughInit K M N hdn rp r).events ↔
      e ∈ (preprocessStage M hdn rp (gateEntry K M r)).events := by
  unfold throughInit throughPreprocess
  rw [(initStage_appends K M _).mem_iff (by rw [he]; decide),
    (retinexStage_appends M _).mem_iff (by rw [he]; decide),
    (demosaicStage_appends M N hdn rp _).mem_iff (by rw [he]; decide)]
  simp only [emitIf_events, List.mem_append]
  constructor
  · rintro (h | h)
    · exact h
    · split at h
      · simp at h; subst h; simp at he
      · simp at h
  · exact Or.inl

/-! ## What the raw stages record -/

theorem core_fixed_raw (r : Run) : r.core.fixed.raw = r.c.params.raw := rfl

theorem core_sensor (r : Run) : r.core.sensor = r.c.imgsrc.sensorType := rfl

theorem preprocessStage_mem_preprocess (M : RefreshMap) (hdn : Bool) (rp : RAWParams) (r : Run)
    (rp' : RAWParams) (l co : FieldData) :
    Event.preprocess rp' l co ∈ (preprocessStage M hdn rp r).events ↔
      Event.preprocess rp' l co ∈ r.events
        ∨ (r.core.preprocessNeeded M hdn = true ∧ rp' = rp ∧ l = r.core.fixed.lensProf
            ∧ co = r.core.fixed.coarse) := by
  have e1 : r.core.fixed.lensProf = r.c.params.lensProf := rfl
  have e2 : r.core.fixed.coarse = r.c.params.coarse := rfl
  rw [e1, e2]
  unfold preprocessStage
  by_cases h : (testBits r.todo M.M_PREPROC || (!r.c.highDetailPreprocessComputed && hdn)) = true
  · have h' : r.core.preprocessNeeded M hdn = true := by
      simpa [Core.preprocessNeeded, Run.core] using h
    rw [if_pos h]
    simp [RawImageSource.preprocess, h', List.mem_replicate]
  · have h' : ¬ r.core.preprocessNeeded M hdn = true := by
      simpa [Core.preprocessNeeded, Run.core] using h
    rw [if_neg h]
    simp [h']

theorem borderStep_sensorType (N : MethodNames) (r : Run) :
    (borderStep N r).c.imgsrc.sensorType = r.c.imgsrc.sensorType := by
  unfold borderStep; split <;> rfl

theorem borderStep_params (N : MethodNames) (r : Run) :
    (borderStep N r).c.params = r.c.params := by
  unfold borderStep; split <;> rfl

theorem borderStep_mem_demosaic (N : MethodNames) (r : Run) (rp' : RAWParams) (a : Bool)
    (t : ℚ) :
    Event.demosaic rp' a t ∈ (borderStep N r).events ↔ Event.demosaic rp' a t ∈ r.events := by
  unfold borderStep; split <;> simp

theorem demosaicStage_mem_demosaic (M : RefreshMap) (N : MethodNames) (hdn : Bool)
    (rp : RAWParams) (r : Run) (rp' : RAWParams) (a : Bool) (t : ℚ) :
    Event.demosaic rp' a t ∈ (demosaicStage M N hdn rp r).events ↔
      Event.demosaic rp' a t ∈ r.events
        ∨ (r.core.demosaicNeeded M hdn = true ∧ rp' = rp
            ∧ a = autoContrastFor r.core.sensor r.core.fixed.raw
            ∧ t = contrastThresholdFor r.core.sensor r.core.fixed.raw) := by
  rw [core_fixed_raw, core_sensor]
  unfold demosaicStage
  rw [demosaicNeeded_core]
  by_cases h : r.core.demosaicNeeded M hdn = true
  · rw [if_pos h]
    unfold demosaicCall
    simp [h, borderStep_sensorType, borderStep_params, borderStep_mem_demosaic]
  · rw [if_neg h]
    simp [h]

/-! ## Projections of the dispatch steps -/

@[simp] theorem Core.preamble_hdPre (M : RefreshMap) (pcv : Bool) (k : Core) :
    (Core.preamble M pcv k).hdPre = k.hdPre := by unfold Core.preamble; split <;> rfl

@[simp] theorem Core.preamble_hdRaw (M : RefreshMap) (pcv : Bool) (k : Core) :
    (Core.preamble M pcv k).hdRaw = k.hdRaw := by unfold Core.preamble; split <;> rfl

@[simp] theorem Core.preamble_rgbMod (M : RefreshMap) (pcv : Bool) (k : Core) :
    (Core.preamble M pcv k).rgbMod = k.rgbMod := by unfold Core.preamble; split <;> rfl

@[simp] theorem Core.preamble_sensor (M : RefreshMap) (pcv : Bool) (k : Core) :
    (Core.preamble M pcv k).sensor = k.sensor := by unfold Core.preamble; split <;> rfl

@[simp] theorem Core.preamble_fixed (M : RefreshMap) (pcv : Bool) (k : Core) :
    (Core.preamble M pcv k).fixed = k.fixed := by unfold Core.preamble; split <;> rfl

@[simp] theorem Core.preprocess_todo (M : RefreshMap) (hdn : Bool) (k : Core) :
    (Core.preprocess M hdn k).todo = k.todo := by unfold Core.preprocess; split <;> rfl

@[simp] theorem Core.preprocess_hdPre (M : RefreshMap) (hdn : Bool) (k : Core) :
    (Core.preprocess M hdn k).hdPre = if k.preprocessNeeded M hdn then hdn else k.hdPre := by
  unfold Core.preprocess; split <;> rfl

@[simp] theorem Core.preprocess_hdRaw (M : RefreshMap) (hdn : Bool) (k : Core) :
    (Core.preprocess M hdn k).hdRaw = k.hdRaw := by unfold Core.preprocess; split <;> rfl

@[simp] theorem Core.preprocess_rgbMod (M : RefreshMap) (hdn : Bool) (k : Core) :
    (Core.preprocess M hdn k).rgbMod = k.rgbMod := by unfold Core.preprocess; split <;> rfl

@[simp] theorem Core.preprocess_sensor (M : RefreshMap) (hdn : Bool) (k : Core) :
    (Core.preprocess M hdn k).sensor = k.sensor := by unfold Core.preprocess; split <;> rfl

@[simp] theorem Core.preprocess_fixed (M : RefreshMap) (hdn : Bool) (k : Core) :
    (Core.preprocess M hdn k).fixed = k.fixed := by unfold Core.preprocess; split <;> rfl

@[simp] theorem Core.demosaic_todo (M : RefreshMap) (hdn : Bool) (k : Core) :
    (Core.demosaic M hdn k).todo
      = if k.demosaicNeeded M hdn then k.todo ||| M.M_INIT else k.todo := by
  unfold Core.demosaic; split <;> rfl

@[simp] theorem Core.demosaic_hdPre (M : RefreshMap) (hdn : Bool) (k : Core) :
    (Core.demosaic M hdn k).hdPre = k.hdPre := by unfold Core.demosaic; split <;> rfl

@[simp] theorem Core.demosaic_hdRaw (M : RefreshMap) (hdn : Bool) (k : Core) :
    (Core.demosaic M hdn k).hdRaw = if k.demosaicNeeded M hdn then hdn else k.hdRaw := by
  unfold Core.demosaic; split <;> rfl

@[simp] theorem Core.demosaic_rgbMod (M : RefreshMap) (hdn : Bool) (k : Core) :
    (Core.demosaic M hdn k).rgbMod = if k.demosaicNeeded M hdn then false else k.rgbMod := by
  unfold Core.demosaic; split <;> rfl

@[simp] theorem Core.demosaic_sensor (M : RefreshMap) (hdn : Bool) (k : Core) :
    (Core.demosaic M hdn k).sensor = k.sensor := by unfold Core.demosaic; split <;> rfl

@[simp] theorem Core.demosaic_fixed (M : RefreshMap) (hdn : Bool) (k : Core) :
    (Core.demosaic M hdn k).fixed = k.fixed := by unfold Core.demosaic; split <;> rfl

@[simp] theorem Core.retinex_todo (M : RefreshMap) (k : Core) :
    (Core.retinex M k).todo = k.todo := by unfold Core.retinex; split <;> rfl

@[simp] theorem Core.retinex_hdPre (M : RefreshMap) (k : Core) :
    (Core.retinex M k).hdPre = k.hdPre := by unfold Core.retinex; split <;> rfl

@[simp] theorem Core.retinex_hdRaw (M : RefreshMap) (k : Core) :
    (Core.retinex M k).hdRaw = k.hdRaw := by unfold Core.retinex; split <;> rfl

@[simp] theorem Core.retinex_sensor (M : RefreshMap) (k : Core) :
    (Core.retinex M k).sensor = k.sensor := by unfold Core.retinex; split <;> rfl

@[simp] theorem Core.retinex_fixed (M : RefreshMap) (k : Core) :
    (Core.retinex M k).fixed = k.fixed := by unfold Core.retinex; split <;> rfl

@[simp] theorem Core.init_todo (M : RefreshMap) (k : Core) :
    (Core.init M k).todo = k.todo := by unfold Core.init; split <;> rfl

@[simp] theorem Core.init_hdPre (M : RefreshMap) (k : Core) :
    (Core.init M k).hdPre = k.hdPre := by unfold Core.init; split <;> rfl

@[simp] theorem Core.init_hdRaw (M : RefreshMap) (k : Core) :
    (Core.init M k).hdRaw = k.hdRaw := by unfold Core.init; split <;> rfl

@[simp] theorem Core.init_sensor (M : RefreshMap) (k : Core) :
    (Core.init M k).sensor = k.sensor := by unfold Core.init; split <;> rfl

@[simp] theorem Core.init_fixed (M : RefreshMap) (k : Core) :
    (Core.init M k).fixed = k.fixed := by unfold Core.init; split <;> rfl

/-! ## The raw stages of a whole run -/

theorem updatePreviewImage_preprocess_iff (K : Collab) (M : RefreshMap) (N : MethodNames)
    (todo : Nat) (pan : Bool) (c : ImProcCoordinator) (rp' : RAWParams) (l co : FieldData) :
    Event.preprocess rp' l co ∈ (updatePreviewImage K M N todo pan c).events ↔
      preprocessRuns K M todo pan c = true
        ∧ rp' = rawParamsFor N (highDetailNeeded K M c.crops todo) c.params.raw
        ∧ l = c.params.lensProf ∧ co = c.params.coarse := by
  rw [updatePreviewImage_mem (by simp [tailStages]), gateBody_mem_raw (by simp [rawStages]),
    throughInit_mem_preprocess (by simp), preprocessStage_mem_preprocess, gateEntry_core]
  have h0 : Event.preprocess rp' l co ∉ (gateEntry K M ⟨c, todo, []⟩).events := by
    rw [(gateEntry_appends K M _).mem_iff (by simp)]
    simp
  simp only [h0, false_or, preprocessRuns, entryCore, Bool.and_eq_true, Core.preamble_fixed]
  have e1 : (Run.core ⟨c, todo, []⟩).fixed.lensProf = c.params.lensProf := rfl
  have e2 : (Run.core ⟨c, todo, []⟩).fixed.coarse = c.params.coarse := rfl
  rw [e1, e2]
  tauto

theorem updatePreviewImage_demosaic_iff (K : Collab) (M : RefreshMap) (N : MethodNames)
    (todo : Nat) (pan : Bool) (c : ImProcCoordinator) (rp' : RAWParams) (a : Bool) (t : ℚ) :
    Event.demosaic rp' a t ∈ (updatePreviewImage K M N todo pan c).events ↔
      demosaicRuns K M todo pan c = true
        ∧ rp' = rawParamsFor N (highDetailNeeded K M c.crops todo) c.params.raw
        ∧ a = autoContrastFor c.imgsrc.sensorType c.params.raw
        ∧ t = contrastThresholdFor c.imgsrc.sensorType c.params.raw := by
  rw [updatePreviewImage_mem (by simp [tailStages]), gateBody_mem_raw (by simp [rawStages]),
    throughInit_mem_demosaic (by simp), demosaicStage_mem_demosaic, throughPreprocess_core]
  have h0 : Event.demosaic rp' a t ∉
      (throughPreprocess K M (highDetailNeeded K M c.crops todo)
        (rawParamsFor N (highDetailNeeded K M c.crops todo) c.params.raw) ⟨c, todo, []⟩).events := by
    rw [(throughPreprocess_appends K M _ _ _).mem_iff_of_not_mem (by simp)]
    simp
  simp only [h0, false_or, demosaicRuns, entryCore, Bool.and_eq_true, Core.preamble_fixed,
    Core.preprocess_fixed, Core.preamble_sensor, Core.preprocess_sensor]
  have e1 : (Run.core ⟨c, todo, []⟩).fixed.raw = c.params.raw := rfl
  have e2 : (Run.core ⟨c, todo, []⟩).sensor = c.imgsrc.sensorType := rfl
  rw [e1, e2]
  tauto

theorem updatePreviewImage_hdPre (K : Collab) (M : RefreshMap) (N : MethodNames)
    (todo : Nat) (pan : Bool) (c : ImProcCoordinator) :
    (updatePreviewImage K M N todo pan c).c.highDetailPreprocessComputed
      = if preprocessRuns K M todo pan c then highDetailNeeded K M c.crops todo
        else c.highDetailPreprocessComputed := by
  have h := congrArg Core.hdPre (updatePreviewImage_core K M N todo pan c)
  have e : (updatePreviewImage K M N todo pan c).core.hdPre
      = (updatePreviewImage K M N todo pan c).c.highDetailPreprocessComputed := rfl
  rw [e] at h
  rw [h]
  unfold preprocessRuns entryCore
  by_cases hg : outerGate K M todo pan (highDetailNeeded K M c.crops todo) = true
  · simp [hg, Core.gateBody]; rfl
  · simp [hg]; rfl

theorem updatePreviewImage_hdRaw (K : Collab) (M : RefreshMap) (N : MethodNames)
    (todo : Nat) (pan : Bool) (c : ImProcCoordinator) :
    (updatePreviewImage K M N todo pan c).c.highDetailRawComputed
      = if demosaicRuns K M todo pan c then highDetailNeeded K M c.crops todo
        else c.highDetailRawComputed := by
  have h := congrArg Core.hdRaw (updatePreviewImage_core K M N todo pan c)
  have e : (updatePreviewImage K M N todo pan c).core.hdRaw
      = (updatePreviewImage K M N todo pan c).c.highDetailRawComputed := rfl
  rw [e] at h
  rw [h]
  unfold demosaicRuns entryCore
  by_cases hg : outerGate K M todo pan (highDetailNeeded K M c.crops todo) = true
  · simp [hg, Core.gateBody]; rfl
  · simp [hg]; rfl

/-! ## The change coalescer (C1) -/

theorem startProcessing_changeSinceLast (c : ImProcCoordinator) :
    (startProcessing c).changeSinceLast = c.changeSinceLast := by
  unfold startProcessing
  split_ifs <;> rfl

theorem submit_changeSinceLast (c : ImProcCoordinator) (s : Submission) :
    (submit c s).changeSinceLast = c.changeSinceLast ||| s.bits := by
  cases s <;>
    simp [submit, endUpdateParams, startProcessingWith, beginUpdateParams,
      startProcessing_changeSinceLast, Submission.bits]

theorem submitAll_changeSinceLast (subs : List Submission) (c : ImProcCoordinator) :
    (submitAll c subs).changeSinceLast
      = (subs.map Submission.bits).foldl (· ||| ·) c.changeSinceLast := by
  induction subs generalizing c with
  | nil => rfl
  | cons s subs ih =>
      simp only [submitAll, List.foldl_cons, List.map_cons] at ih ⊢
      rw [ih, submit_changeSinceLast]

theorem foldl_lor_eq (bs : List Nat) (m : Nat) :
    bs.foldl (· ||| ·) m = m ||| bs.foldl (· ||| ·) 0 := by
  induction bs generalizing m with
  | nil => simp
  | cons b bs ih =>
      simp only [List.foldl_cons]
      rw [ih (m ||| b), ih (0 ||| b), Nat.zero_or, Nat.lor_assoc]

theorem land_foldl_lor_of_mem (bs : List Nat) (m b : Nat) (h : b ∈ bs) :
    b &&& bs.foldl (· ||| ·) m = b := by
  induction bs generalizing m with
  | nil => cases h
  | cons x bs ih =>
      simp only [List.foldl_cons]
      rcases List.mem_cons.mp h with rfl | h
      · rw [foldl_lor_eq]
        apply Nat.eq_of_testBit_eq; intro i; simp; tauto
      · exact ih _ h

theorem land_foldl_lor_init (bs : List Nat) (m : Nat) :
    m &&& bs.foldl (· ||| ·) m = m := by
  rw [foldl_lor_eq]
  apply Nat.eq_of_testBit_eq; intro i; simp; tauto

theorem lor_rightCommutative : RightCommutative (fun (a b : Nat) => a ||| b) :=
  ⟨fun a b c => by
    apply Nat.eq_of_testBit_eq; intro i; simp [Bool.or_assoc, Bool.or_comm (b.testBit i)]⟩

/-- C1: whatever the accumulated mask `m` and the submissions `b1..bn` made
through `endUpdateParams(int)` or `startProcessing(int)` with no worker
iteration in between, `changeSinceLast` afterwards is `m | b1 | ... | bn`; no
bit of `m` or of a submission is cleared; the result is the same for every
order of the submissions; and `startProcessing(b)` leaves the coordinator in
the same state as `beginUpdateParams()` followed by `endUpdateParams(b)`. -/
theorem coalesce_union (c : ImProcCoordinator) (subs : List Submission) :
    (submitAll c subs).changeSinceLast
        = (subs.map Submission.bits).foldl (· ||| ·) c.changeSinceLast
      ∧ c.changeSinceLast &&& (submitAll c subs).changeSinceLast = c.changeSinceLast
      ∧ (∀ s ∈ subs, s.bits &&& (submitAll c subs).changeSinceLast = s.bits)
      ∧ (∀ subs', subs'.Perm subs →
          (submitAll c subs').changeSinceLast = (submitAll c subs).changeSinceLast)
      ∧ ∀ b, startProcessingWith b c = endUpdateParams b (beginUpdateParams c) := by
  refine ⟨submitAll_changeSinceLast subs c, ?_, ?_, ?_, ?_⟩
  · rw [submitAll_changeSinceLast]; exact land_foldl_lor_init _ _
  · intro s hs
    rw [submitAll_changeSinceLast]
    exact land_foldl_lor_of_mem _ _ _ (List.mem_map_of_mem _ hs)
  · intro subs' hp
    rw [submitAll_changeSinceLast, submitAll_changeSinceLast]
    haveI := lor_rightCommutative
    exact (hp.map Submission.bits).foldl_eq _
  · intro b; rfl

/-- Witness for C1: a pending mask `M_CROP`, then `startProcessing(M_MONITOR)`
and an edit carrying `M_RGBCURVE`. -/
theorem coalesce_union_witness :
    (submitAll { sampleCoordinator with changeSinceLast := refreshMap.M_CROP }
        [Submission.start refreshMap.M_MONITOR,
         Submission.edit id refreshMap.M_RGBCURVE]).changeSinceLast = 2 ^ 14 + 2 ^ 12 + 2 ^ 3
      ∧ refreshMap.M_MONITOR &&&
          (submitAll { sampleCoordinator with changeSinceLast := refreshMap.M_CROP }
            [Submission.start refreshMap.M_MONITOR,
             Submission.edit id refreshMap.M_RGBCURVE]).changeSinceLast = refreshMap.M_MONITOR
      ∧ (submitAll { sampleCoordinator with changeSinceLast := refreshMap.M_CROP }
            [Submission.edit id refreshMap.M_RGBCURVE,
             Submission.start refreshMap.M_MONITOR]).changeSinceLast
          = (submitAll { sampleCoordinator with changeSinceLast := refreshMap.M_CROP }
            [Submission.start refreshMap.M_MONITOR,
             Submission.edit id refreshMap.M_RGBCURVE]).changeSinceLast :=
  ⟨(coalesce_union _ _).1.trans (by decide),
   (coalesce_union _ _).2.2.1 (Submission.start refreshMap.M_MONITOR) (by simp),
   (coalesce_union _ _).2.2.2.1 _ (List.Perm.swap _ _ [])⟩

/-! ## Run serialization (C2) -/

theorem Core.gateBody_sched (M : RefreshMap) (hdn pcv : Bool) (k : Core) :
    (Core.gateBody M hdn pcv k).sched = k.sched := by
  unfold Core.gateBody Core.init Core.retinex Core.demosaic Core.preprocess Core.preamble
  split_ifs <;> rfl

theorem Core.gateBody_fixed (M : RefreshMap) (hdn pcv : Bool) (k : Core) :
    (Core.gateBody M hdn pcv k).fixed = k.fixed := by
  simp [Core.gateBody]

theorem updatePreviewImage_sched (K : Collab) (M : RefreshMap) (N : MethodNames) (todo : Nat)
    (pan : Bool) (c : ImProcCoordinator) :
    (updatePreviewImage K M N todo pan c).c.sched = c.sched := by
  have h := congrArg Core.sched (updatePreviewImage_core K M N todo pan c)
  have e : (updatePreviewImage K M N todo pan c).core.sched
      = (updatePreviewImage K M N todo pan c).c.sched := rfl
  rw [e] at h
  rw [h]
  split
  · rw [Core.gateBody_sched]; rfl
  · rfl

theorem updatePreviewImage_fixedPart (K : Collab) (M : RefreshMap) (N : MethodNames)
    (todo : Nat) (pan : Bool) (c : ImProcCoordinator) :
    (updatePreviewImage K M N todo pan c).c.params.fixedPart = c.params.fixedPart := by
  have h := congrArg Core.fixed (updatePreviewImage_core K M N todo pan c)
  have e : (updatePreviewImage K M N todo pan c).core.fixed
      = (updatePreviewImage K M N todo pan c).c.params.fixedPart := rfl
  rw [e] at h
  rw [h]
  split
  · rw [Core.gateBody_fixed]; rfl
  · rfl

theorem updatePreviewImage_changeSinceLast (K : Collab) (M : RefreshMap) (N : MethodNames)
    (todo : Nat) (pan : Bool) (c : ImProcCoordinator) :
    (updatePreviewImage K M N todo pan c).c.changeSinceLast = c.changeSinceLast :=
  congrArg Sched.changeSinceLast (updatePreviewImage_sched K M N todo pan c)

theorem updatePreviewImage_nextParams (K : Collab) (M : RefreshMap) (N : MethodNames)
    (todo : Nat) (pan : Bool) (c : ImProcCoordinator) :
    (updatePreviewImage K M N todo pan c).c.nextParams = c.nextParams :=
  congrArg Sched.nextParams (updatePreviewImage_sched K M N todo pan c)

theorem testBits_ne_zero {m b : Nat} (h : testBits m b = true) : m ≠ 0 := by
  rintro rfl
  simp [testBits] at h

/-- The state in which the worker leaves an iteration that calls
`updatePreviewImage` and during which nothing is submitted. -/
theorem processIteration_quiet (K : Collab) (M : RefreshMap) (N : MethodNames) (w : Worker)
    (h : testBits w.c.changeSinceLast (M.M_VOID - 1) = true) :
    (processIteration K M N [] w).iterations = w.iterations + 1
      ∧ (processIteration K M N [] w).calls.map (fun call => (call.todo, call.params))
          = w.calls.map (fun call => (call.todo, call.params))
            ++ [(w.c.changeSinceLast, w.c.nextParams)]
      ∧ (processIteration K M N [] w).c.changeSinceLast = 0
      ∧ (processIteration K M N [] w).c.nextParams = w.c.nextParams
      ∧ (processIteration K M N [] w).c.params.fixedPart = w.c.nextParams.fixedPart := by
  unfold processIteration
  simp only [h, if_true, submitAll, List.foldl_nil]
  refine ⟨trivial, by simp, ?_, ?_, ?_⟩
  · rw [updatePreviewImage_changeSinceLast]
  · rw [updatePreviewImage_nextParams]
  · rw [updatePreviewImage_fixedPart]

/-- The loop makes exactly one iteration when it is entered with a mask that
holds a stage bit and nothing more is submitted. -/
theorem processLoop_quiet (K : Nat → Collab) (M : RefreshMap) (N : MethodNames) (fuel : Nat)
    (w : Worker) (h : testBits w.c.changeSinceLast (M.M_VOID - 1) = true) :
    processLoop K M N (fuel + 2) [] w = some (processIteration (K w.iterations) M N [] w) := by
  have hq := processIteration_quiet (K w.iterations) M N w h
  rw [processLoop, if_pos (testBits_ne_zero h)]
  simp only [List.tail_nil, List.head?_nil, Option.getD_none]
  rw [processLoop, if_neg (by rw [hq.2.2.1]; simp)]

/-- C3: in every worker iteration `panningRelatedChange` is computed from the
snapshot committed before the iteration and the pending snapshot, and only
then is `params` overwritten with `nextParams` (the call receives the old
comparison and the new snapshot); it is true exactly when one of the
thirty-three sub-groups listed in `process()` differs, hence false when the
two snapshots are equal, and false when they differ only in sub-groups that
are not listed. -/
theorem panningRelatedChange_spec (K : Collab) (M : RefreshMap) (N : MethodNames)
    (arrived : List Submission) (w : Worker) (p n : ProcParams) (a b c d e : FieldData) :
    ((processIteration K M N arrived w).calls.map
        fun call => (call.todo, call.panningRelatedChange, call.params))
        = w.calls.map (fun call => (call.todo, call.panningRelatedChange, call.params))
          ++ (if testBits w.c.changeSinceLast (M.M_VOID - 1) then
                [(w.c.changeSinceLast, panningRelatedChange w.c.params w.c.nextParams,
                  w.c.nextParams)]
              else [])
      ∧ (panningRelatedChange p n = true ↔
          p.toneCurve ≠ n.toneCurve ∨ p.labCurve ≠ n.labCurve
          ∨ p.localContrast ≠ n.localContrast ∨ p.rgbCurves ≠ n.rgbCurves
          ∨ p.colorToning ≠ n.colorToning ∨ p.vibrance ≠ n.vibrance ∨ p.wb ≠ n.wb
          ∨ p.colorappearance ≠ n.colorappearance ∨ p.epd ≠ n.epd ∨ p.fattal ≠ n.fattal
          ∨ p.sh ≠ n.sh ∨ p.crop ≠ n.crop ∨ p.coarse ≠ n.coarse
          ∨ p.commonTrans ≠ n.commonTrans ∨ p.rotate ≠ n.rotate
          ∨ p.distortion ≠ n.distortion ∨ p.lensProf ≠ n.lensProf
          ∨ p.perspective ≠ n.perspective ∨ p.gradient ≠ n.gradient
          ∨ p.pcvignette ≠ n.pcvignette ∨ p.cacorrection ≠ n.cacorrection
          ∨ p.vignetting ≠ n.vignetting ∨ p.chmixer ≠ n.chmixer
          ∨ p.blackwhite ≠ n.blackwhite ∨ p.icm ≠ n.icm ∨ p.hsvequalizer ≠ n.hsvequalizer
          ∨ p.filmSimulation ≠ n.filmSimulation ∨ p.softlight ≠ n.softlight ∨ p.raw ≠ n.raw
          ∨ p.retinex ≠ n.retinex ∨ p.wavelet ≠ n.wavelet
          ∨ p.dirpyrequalizer ≠ n.dirpyrequalizer ∨ p.dehaze ≠ n.dehaze)
      ∧ panningRelatedChange p p = false
      ∧ panningRelatedChange p
          { p with sharpening := a, sharpenEdge := b, sharpenMicro := c, dirpyrDenoise := d,
                   localwb := e } = false := by
  refine ⟨?_, ?_, ?_, ?_⟩
  · unfold processIteration
    simp only []
    split <;> simp
  · simp only [panningRelatedChange, Bool.or_eq_true, bne_iff_ne, ne_eq, or_assoc]
  · simp [panningRelatedChange]
  · simp [panningRelatedChange]

/-! ## Detail promotion (C4, C5) -/

theorem testBits_lor_self {t i b : Nat} (h : i ≠ 0) : testBits (t ||| i) (i ||| b) = true := by
  obtain ⟨k, hk⟩ := Nat.ne_zero_implies_bit_true h
  simp only [testBits, bne_iff_ne, ne_eq]
  intro h0
  have := congrArg (fun x => x.testBit k) h0
  simp [hk] at this

theorem testBits_lor_left {a b c : Nat} :
    testBits (a ||| b) c = (testBits a c || testBits b c) := by
  have key : (a ||| b) &&& c = 0 ↔ a &&& c = 0 ∧ b &&& c = 0 := by
    constructor
    · intro h
      constructor <;>
      · apply Nat.eq_of_testBit_eq; intro k
        have := congrArg (fun x => x.testBit k) h
        simp at this ⊢
        tauto
    · rintro ⟨h1, h2⟩
      apply Nat.eq_of_testBit_eq; intro k
      have e1 := congrArg (fun x => x.testBit k) h1
      have e2 := congrArg (fun x => x.testBit k) h2
      simp at e1 e2 ⊢
      tauto
  rw [Bool.eq_iff_iff]
  simp only [testBits, bne_iff_ne, ne_eq, Bool.or_eq_true, key]
  tauto

theorem highDetailNeeded_of_crop (K : Collab) (M : RefreshMap) (crops : List Crop) (todo : Nat)
    (h : anyCropSkipOne crops = true) : highDetailNeeded K M crops todo = true := by
  unfold highDetailNeeded
  simp only []
  split_ifs <;> simp_all

theorem outerGate_of_detail (K : Collab) (M : RefreshMap) (todo : Nat) (pan : Bool)
    (h : K.prevdemo ≠ PrevDemo.PD_Sidecar) : outerGate K M todo pan true = true := by
  simp [outerGate, h]

theorem rawParamsFor_true (N : MethodNames) (raw : RAWParams) : rawParamsFor N true raw = raw :=
  rfl

/-- The dispatch state at the end of a run that passes the outer gate. -/
theorem updatePreviewImage_core_of_gate (K : Collab) (M : RefreshMap) (N : MethodNames)
    (todo : Nat) (pan : Bool) (c : ImProcCoordinator)
    (hg : outerGate K M todo pan (highDetailNeeded K M c.crops todo) = true) :
    (updatePreviewImage K M N todo pan c).core
      = Core.gateBody M (highDetailNeeded K M c.crops todo) (K.needsPCVignetting c.params)
          (entryCore c todo) := by
  rw [updatePreviewImage_core, if_pos hg]; rfl

/-- After a run that executes demosaic, `rgbSourceModified` says whether Color
highlight reconstruction is active in the committed snapshot. -/
theorem rgbSourceModified_after_demosaic (K : Collab) (M : RefreshMap) (N : MethodNames)
    (todo : Nat) (pan : Bool) (c : ImProcCoordinator) (hinit : M.M_INIT ≠ 0)
    (hd : demosaicRuns K M todo pan c = true) :
    (updatePreviewImage K M N todo pan c).c.imgsrc.rgbSourceModified
      = (c.params.toneCurve.hrenabled && c.params.toneCurve.method == "Color") := by
  unfold demosaicRuns at hd
  rw [Bool.and_eq_true] at hd
  have h := congrArg Core.rgbMod (updatePreviewImage_core_of_gate K M N todo pan c hd.1)
  have e : (updatePreviewImage K M N todo pan c).core.rgbMod
      = (updatePreviewImage K M N todo pan c).c.imgsrc.rgbSourceModified := rfl
  rw [e] at h
  rw [h]
  have hi : Core.initNeeded M (Core.retinex M (Core.demosaic M (highDetailNeeded K M c.crops todo)
      (Core.preprocess M (highDetailNeeded K M c.crops todo)
        (Core.preamble M (K.needsPCVignetting c.params) (entryCore c todo))))) = true := by
    unfold Core.initNeeded
    rw [Core.retinex_todo, Core.demosaic_todo, if_pos hd.2, Nat.lor_assoc]
    exact testBits_lor_self hinit
  have hr : (Core.retinex M (Core.demosaic M (highDetailNeeded K M c.crops todo)
      (Core.preprocess M (highDetailNeeded K M c.crops todo)
        (Core.preamble M (K.needsPCVignetting c.params) (entryCore c todo))))).rgbMod = false := by
    unfold Core.retinex
    split
    · rfl
    · rw [Core.demosaic_rgbMod, if_pos hd.2]
  unfold Core.gateBody Core.init
  rw [if_pos hi]
  simp only [hr, Bool.or_false, Core.retinex_fixed, Core.demosaic_fixed, Core.preprocess_fixed,
    Core.preamble_fixed]
  rfl

/-- Demosaic is not needed when the mask has no raw bit, the memo says full
detail, and `rgbSourceModified` agrees with the highlight-reconstruction
settings. -/
theorem demosaicRuns_eq_false (K : Collab) (M : RefreshMap) (todo : Nat) (pan : Bool)
    (c : ImProcCoordinator) (hraw : testBits todo M.M_RAW = false)
    (htr : testBits M.TRANSFORM M.M_RAW = false) (hmemo : c.highDetailRawComputed = true)
    (hsrc : c.imgsrc.rgbSourceModified
      = (c.params.toneCurve.hrenabled && c.params.toneCurve.method == "Color")) :
    demosaicRuns K M todo pan c = false := by
  have htodo : testBits (Core.preamble M (K.needsPCVignetting c.params) (entryCore c todo)).todo
      M.M_RAW = false := by
    unfold Core.preamble
    split
    · show testBits (todo ||| M.TRANSFORM) M.M_RAW = false
      rw [testBits_lor_left, hraw, htr]; rfl
    · exact hraw
  have h : Core.demosaicNeeded M (highDetailNeeded K M c.crops todo)
      (Core.preprocess M (highDetailNeeded K M c.crops todo)
        (Core.preamble M (K.needsPCVignetting c.params) (entryCore c todo))) = false := by
    unfold Core.demosaicNeeded
    simp only [Core.preprocess_todo, Core.preprocess_hdRaw, Core.preamble_hdRaw,
      Core.preprocess_fixed, Core.preamble_fixed, Core.preprocess_rgbMod, Core.preamble_rgbMod,
      htodo]
    have e1 : (entryCore c todo).hdRaw = c.highDetailRawComputed := rfl
    have e2 : (entryCore c todo).rgbMod = c.imgsrc.rgbSourceModified := rfl
    have e3 : (entryCore c todo).fixed.toneCurve.hrenabled = c.params.toneCurve.hrenabled := rfl
    have e4 : (entryCore c todo).fixed.toneCurve.method = c.params.toneCurve.method := rfl
    rw [e1, e2, e3, e4, hmemo, hsrc]
    cases c.params.toneCurve.hrenabled <;> by_cases hm : c.params.toneCurve.method = "Color" <;>
      simp [hm]
  unfold demosaicRuns
  rw [h, Bool.and_false]

theorem demosaicRuns_of_promotion (K : Collab) (M : RefreshMap) (todo : Nat) (pan : Bool)
    (c : ImProcCoordinator) (hmode : K.prevdemo ≠ PrevDemo.PD_Sidecar)
    (hcrop : anyCropSkipOne c.crops = true) (hmemo : c.highDetailRawComputed = false) :
    demosaicRuns K M todo pan c = true := by
  unfold demosaicRuns
  rw [highDetailNeeded_of_crop K M c.crops todo hcrop, outerGate_of_detail K M todo pan hmode]
  unfold Core.demosaicNeeded
  simp only [Core.preprocess_hdRaw, Core.preamble_hdRaw]
  have e1 : (entryCore c todo).hdRaw = c.highDetailRawComputed := rfl
  rw [e1, hmemo]
  simp

theorem preprocessRuns_of_promotion (K : Collab) (M : RefreshMap) (todo : Nat) (pan : Bool)
    (c : ImProcCoordinator) (hmode : K.prevdemo ≠ PrevDemo.PD_Sidecar)
    (hcrop : anyCropSkipOne c.crops = true) (hmemo : c.highDetailPreprocessComputed = false) :
    preprocessRuns K M todo pan c = true := by
  unfold preprocessRuns
  rw [highDetailNeeded_of_crop K M c.crops todo hcrop, outerGate_of_detail K M todo pan hmode]
  unfold Core.preprocessNeeded
  simp only [Core.preamble_hdPre]
  have e1 : (entryCore c todo).hdPre = c.highDetailPreprocessComputed := rfl
  rw [e1, hmemo]
  simp

/-- C4 (amended): when the preview mode is not Sidecar, raw-decode was last
computed at reduced detail (`highDetailRawComputed` false) and a crop window
has skip factor 1, a run of `updatePreviewImage` executes demosaic with the
unmodified raw parameters and sets `highDetailRawComputed`, for every mask; a
second run whose mask has no raw-decode bit, started with the memo and the
`rgbSourceModified` flag the first run left and with unchanged
highlight-reconstruction settings, does not execute demosaic. -/
theorem detail_promotion_memo (K K2 : Collab) (M : RefreshMap) (N : MethodNames)
    (todo todo2 : Nat) (pan pan2 : Bool) (c c2 : ImProcCoordinator)
    (hmode : K.prevdemo ≠ PrevDemo.PD_Sidecar)
    (hcrop : anyCropSkipOne c.crops = true)
    (hmemo : c.highDetailRawComputed = false)
    (hinit : M.M_INIT ≠ 0) (htr : testBits M.TRANSFORM M.M_RAW = false)
    (hraw : testBits todo2 M.M_RAW = false)
    (h2memo : c2.highDetailRawComputed
      = (updatePreviewImage K M N todo pan c).c.highDetailRawComputed)
    (h2src : c2.imgsrc.rgbSourceModified
      = (updatePreviewImage K M N todo pan c).c.imgsrc.rgbSourceModified)
    (h2hr : c2.params.toneCurve.hrenabled = c.params.toneCurve.hrenabled)
    (h2hm : c2.params.toneCurve.method = c.params.toneCurve.method) :
    Event.demosaic c.params.raw (autoContrastFor c.imgsrc.sensorType c.params.raw)
        (contrastThresholdFor c.imgsrc.sensorType c.params.raw)
        ∈ (updatePreviewImage K M N todo pan c).events
      ∧ (updatePreviewImage K M N todo pan c).c.highDetailRawComputed = true
      ∧ ∀ rp a t, Event.demosaic rp a t ∉ (updatePreviewImage K2 M N todo2 pan2 c2).events := by
  have hd := demosaicRuns_of_promotion K M todo pan c hmode hcrop hmemo
  have hn := highDetailNeeded_of_crop K M c.crops todo hcrop
  have hflag : (updatePreviewImage K M N todo pan c).c.highDetailRawComputed = true := by
    rw [updatePreviewImage_hdRaw, if_pos hd, hn]
  refine ⟨?_, hflag, ?_⟩
  · rw [updatePreviewImage_demosaic_iff, hn]
    exact ⟨hd, rfl, rfl, rfl⟩
  · intro rp a t
    rw [updatePreviewImage_demosaic_iff]
    have h2 : demosaicRuns K2 M todo2 pan2 c2 = false := by
      apply demosaicRuns_eq_false K2 M todo2 pan2 c2 hraw htr (by rw [h2memo, hflag])
      rw [h2src, rgbSourceModified_after_demosaic K M N todo pan c hinit hd, h2hr, h2hm]
    rw [h2]
    simp

/-- Counterexample to C4 as stated: in Sidecar preview mode, with a crop
window of skip factor 1 and `highDetailRawComputed` false, a run with the mask
`M_RGBCURVE` and no geometry change does not pass the outer gate: no call of
the demosaic stage is made and the memo stays false. -/
theorem sidecar_run_skips_demosaic :
    ((updatePreviewImage (sampleCollab PrevDemo.PD_Sidecar) refreshMap methodNames
        refreshMap.M_RGBCURVE false detailCoordinator).events.any
          (fun e => e.stage == Stage.demosaic),
     (updatePreviewImage (sampleCollab PrevDemo.PD_Sidecar) refreshMap methodNames
        refreshMap.M_RGBCURVE false detailCoordinator).c.highDetailRawComputed,
     anyCropSkipOne detailCoordinator.crops,
     detailCoordinator.highDetailRawComputed)
      = (false, false, true, false) := by
  rfl

/-- Witness for C4: preview mode Full, one crop window with skip factor 1, a
first run with the mask `M_RGBCURVE`, then a run with the mask `M_LUMACURVE`
from the state the first run left. -/
theorem detail_promotion_memo_witness :
    Event.demosaic sampleParams.raw false 20
        ∈ (updatePreviewImage (sampleCollab PrevDemo.PD_Full) refreshMap methodNames
            refreshMap.M_RGBCURVE false detailCoordinator).events
      ∧ (updatePreviewImage (sampleCollab PrevDemo.PD_Full) refreshMap methodNames
            refreshMap.M_RGBCURVE false detailCoordinator).c.highDetailRawComputed = true
      ∧ Event.demosaic sampleParams.raw false 20
        ∉ (updatePreviewImage (sampleCollab PrevDemo.PD_Full) refreshMap methodNames
            refreshMap.M_LUMACURVE false
            (updatePreviewImage (sampleCollab PrevDemo.PD_Full) refreshMap methodNames
              refreshMap.M_RGBCURVE false detailCoordinator).c).events :=
  have h := detail_promotion_memo (sampleCollab PrevDemo.PD_Full) (sampleCollab PrevDemo.PD_Full)
    refreshMap methodNames refreshMap.M_RGBCURVE refreshMap.M_LUMACURVE false false
    detailCoordinator
    (updatePreviewImage (sampleCollab PrevDemo.PD_Full) refreshMap methodNames
      refreshMap.M_RGBCURVE false detailCoordinator).c
    (by decide) rfl rfl (by decide) (by decide) (by decide) rfl rfl rfl rfl
  ⟨h.1, h.2.1, h.2.2 _ _ _⟩

/-- C5 (amended): when the preview mode is not Sidecar, in every run of
`updatePreviewImage` in which some registered crop window has skip factor 1,
whatever the mask, full detail is needed; raw-preprocess is executed unless
`highDetailPreprocessComputed` is already true and demosaic is executed unless
`highDetailRawComputed` is already true; and every execution of either stage
in such a run receives the unmodified raw parameters. -/
theorem promotion_rule (K : Collab) (M : RefreshMap) (N : MethodNames) (todo : Nat)
    (pan : Bool) (c : ImProcCoordinator)
    (hmode : K.prevdemo ≠ PrevDemo.PD_Sidecar)
    (hcrop : anyCropSkipOne c.crops = true) :
    highDetailNeeded K M c.crops todo = true
      ∧ (c.highDetailPreprocessComputed = false →
          Event.preprocess c.params.raw c.params.lensProf c.params.coarse
            ∈ (updatePreviewImage K M N todo pan c).events)
      ∧ (c.highDetailRawComputed = false →
          Event.demosaic c.params.raw (autoContrastFor c.imgsrc.sensorType c.params.raw)
            (contrastThresholdFor c.imgsrc.sensorType c.params.raw)
            ∈ (updatePreviewImage K M N todo pan c).events)
      ∧ (∀ rp l co, Event.preprocess rp l co ∈ (updatePreviewImage K M N todo pan c).events →
          rp = c.params.raw)
      ∧ (∀ rp a t, Event.demosaic rp a t ∈ (updatePreviewImage K M N todo pan c).events →
          rp = c.params.raw) := by
  have hn := highDetailNeeded_of_crop K M c.crops todo hcrop
  refine ⟨hn, ?_, ?_, ?_, ?_⟩
  · intro hmemo
    rw [updatePreviewImage_preprocess_iff, hn]
    exact ⟨preprocessRuns_of_promotion K M todo pan c hmode hcrop hmemo, rfl, rfl, rfl⟩
  · intro hmemo
    rw [updatePreviewImage_demosaic_iff, hn]
    exact ⟨demosaicRuns_of_promotion K M todo pan c hmode hcrop hmemo, rfl, rfl, rfl⟩
  · intro rp l co h
    rw [updatePreviewImage_preprocess_iff, hn] at h
    exact h.2.1
  · intro rp a t h
    rw [updatePreviewImage_demosaic_iff, hn] at h
    exact h.2.1

/-- Counterexample to C5 as stated: in Sidecar preview mode, with a crop
window of skip factor 1 and both detail memos false, a run with the mask
`M_LUMACURVE` and no geometry change executes neither raw-preprocess nor
demosaic. -/
theorem sidecar_run_skips_raw_stages :
    (anyCropSkipOne detailCoordinator.crops,
     detailCoordinator.highDetailPreprocessComputed,
     detailCoordinator.highDetailRawComputed,
     (updatePreviewImage (sampleCollab PrevDemo.PD_Sidecar) refreshMap methodNames
        refreshMap.M_LUMACURVE false detailCoordinator).events.any
          (fun e => e.stage == Stage.preprocess || e.stage == Stage.demosaic))
      = (true, false, false, false) := by
  rfl

/-- Witness for C5: preview mode Full, one crop window with skip factor 1,
mask `M_LUMACURVE`, both memos false. -/
theorem promotion_rule_witness :
    Event.preprocess sampleParams.raw 0 0
        ∈ (updatePreviewImage (sampleCollab PrevDemo.PD_Full) refreshMap methodNames
            refreshMap.M_LUMACURVE false detailCoordinator).events
      ∧ Event.demosaic sampleParams.raw false 20
        ∈ (updatePreviewImage (sampleCollab PrevDemo.PD_Full) refreshMap methodNames
            refreshMap.M_LUMACURVE false detailCoordinator).events :=
  have h := promotion_rule (sampleCollab PrevDemo.PD_Full) refreshMap methodNames
    refreshMap.M_LUMACURVE false detailCoordinator (by decide) rfl
  ⟨h.2.1 rfl, h.2.2.1 rfl⟩

/-! ## Accuracy of the detail memos (C6) -/

theorem any_isPreprocess (K : Collab) (M : RefreshMap) (N : MethodNames) (todo : Nat)
    (pan : Bool) (c : ImProcCoordinator) :
    (updatePreviewImage K M N todo pan c).events.any Event.isPreprocess
      = preprocessRuns K M todo pan c := by
  rw [Bool.eq_iff_iff, List.any_eq_true]
  constructor
  · rintro ⟨e, he, hp⟩
    cases e <;> simp [Event.isPreprocess] at hp
    rw [updatePreviewImage_preprocess_iff] at he
    exact he.1
  · intro h
    exact ⟨_, (updatePreviewImage_preprocess_iff K M N todo pan c _ _ _).mpr ⟨h, rfl, rfl, rfl⟩,
      rfl⟩

theorem any_isDemosaic (K : Collab) (M : RefreshMap) (N : MethodNames) (todo : Nat)
    (pan : Bool) (c : ImProcCoordinator) :
    (updatePreviewImage K M N todo pan c).events.any Event.isDemosaic
      = demosaicRuns K M todo pan c := by
  rw [Bool.eq_iff_iff, List.any_eq_true]
  constructor
  · rintro ⟨e, he, hp⟩
    cases e <;> simp [Event.isDemosaic] at hp
    rw [updatePreviewImage_demosaic_iff] at he
    exact he.1
  · intro h
    exact ⟨_, (updatePreviewImage_demosaic_iff K M N todo pan c _ _ _).mpr ⟨h, rfl, rfl, rfl⟩,
      rfl⟩

theorem lastDetail_append (p : Event → Bool) (recs : List RunRecord) (rec : RunRecord) :
    lastDetail p (recs ++ [rec])
      = match lastDetail p recs with
        | some d => some d
        | none => if rec.events.any p then some rec.highDetailNeeded else none := by
  induction recs with
  | nil => simp [lastDetail]
  | cons r recs ih =>
      simp only [List.cons_append, lastDetail]
      split
      · rfl
      · exact ih

theorem runHistory_memos (M : RefreshMap) (N : MethodNames) (reqs : List RunRequest)
    (memo : Bool × Bool) :
    (runHistory M N reqs memo).1.1
        = (lastDetail Event.isPreprocess (runHistory M N reqs memo).2).getD memo.1
      ∧ (runHistory M N reqs memo).1.2
        = (lastDetail Event.isDemosaic (runHistory M N reqs memo).2).getD memo.2 := by
  induction reqs generalizing memo with
  | nil => exact ⟨rfl, rfl⟩
  | cons q qs ih =>
      obtain ⟨ih1, ih2⟩ := ih
        ((updatePreviewImage q.K M N q.todo q.panningRelatedChange
            (q.start memo)).c.highDetailPreprocessComputed,
         (updatePreviewImage q.K M N q.todo q.panningRelatedChange
            (q.start memo)).c.highDetailRawComputed)
      simp only [runHistory, lastDetail_append]
      constructor
      · rw [ih1]
        cases lastDetail Event.isPreprocess (runHistory M N qs _).2 with
        | some d => rfl
        | none =>
            simp only [Option.getD_none, any_isPreprocess, updatePreviewImage_hdPre]
            split <;> rfl
      · rw [ih2]
        cases lastDetail Event.isDemosaic (runHistory M N qs _).2 with
        | some d => rfl
        | none =>
            simp only [Option.getD_none, any_isDemosaic, updatePreviewImage_hdRaw]
            split <;> rfl

/-- C6: after any sequence of runs of `updatePreviewImage`,
`highDetailPreprocessComputed` (respectively `highDetailRawComputed`) is the
`highDetailNeeded` of the most recent run that executed the raw-preprocess
stage (respectively the demosaic stage), and its initial value if no run did;
within a single run the flag becomes the run's `highDetailNeeded` when the
stage executes and is left unchanged when it does not; and a run with
`highDetailNeeded` true hands the unmodified raw parameters to the stage. -/
theorem detail_memo_accuracy (M : RefreshMap) (N : MethodNames) (reqs : List RunRequest)
    (memo : Bool × Bool) (K : Collab) (todo : Nat) (pan : Bool) (c : ImProcCoordinator) :
    (runHistory M N reqs memo).1.1
        = (lastDetail Event.isPreprocess (runHistory M N reqs memo).2).getD memo.1
      ∧ (runHistory M N reqs memo).1.2
        = (lastDetail Event.isDemosaic (runHistory M N reqs memo).2).getD memo.2
      ∧ (updatePreviewImage K M N todo pan c).c.highDetailPreprocessComputed
        = (if (updatePreviewImage K M N todo pan c).events.any Event.isPreprocess then
            highDetailNeeded K M c.crops todo
          else c.highDetailPreprocessComputed)
      ∧ (updatePreviewImage K M N todo pan c).c.highDetailRawComputed
        = (if (updatePreviewImage K M N todo pan c).events.any Event.isDemosaic then
            highDetailNeeded K M c.crops todo
          else c.highDetailRawComputed)
      ∧ rawParamsFor N true c.params.raw = c.params.raw := by
  refine ⟨(runHistory_memos M N reqs memo).1, (runHistory_memos M N reqs memo).2, ?_, ?_, rfl⟩
  · rw [any_isPreprocess, updatePreviewImage_hdPre]
  · rw [any_isDemosaic, updatePreviewImage_hdRaw]

/-! ## The fast path: demosaic downgrade (C7) -/

theorem highDetailNeeded_eq_false_iff (K : Collab) (M : RefreshMap) (crops : List Crop)
    (todo : Nat) :
    highDetailNeeded K M crops todo = false
      ↔ K.prevdemo ≠ PrevDemo.PD_Sidecar ∧ testBits todo M.M_HIGHQUAL = false
          ∧ anyCropSkipOne crops = false := by
  unfold highDetailNeeded
  by_cases hm : K.prevdemo = PrevDemo.PD_Sidecar
  · simp [hm]
  · cases hq : testBits todo M.M_HIGHQUAL <;> simp [hm, hq]

theorem fastPath_bayer_method (N : MethodNames) (raw : RAWParams) :
    (fastPath N raw).bayersensor.method
      = if raw.bayersensor.method = N.bayerNONE then raw.bayersensor.method
        else N.bayerFAST := by
  unfold fastPath
  by_cases hb : raw.bayersensor.method = N.bayerNONE <;>
    by_cases hx : raw.xtranssensor.method = N.xtransNONE <;> simp [hb, hx]

theorem fastPath_xtrans_method (N : MethodNames) (raw : RAWParams) :
    (fastPath N raw).xtranssensor.method
      = if raw.xtranssensor.method = N.xtransNONE then raw.xtranssensor.method
        else N.xtransFAST := by
  unfold fastPath
  by_cases hb : raw.bayersensor.method = N.bayerNONE <;>
    by_cases hx : raw.xtranssensor.method = N.xtransNONE <;> simp [hb, hx]

theorem updatePreviewImage_params_raw (K : Collab) (M : RefreshMap) (N : MethodNames)
    (todo : Nat) (pan : Bool) (c : ImProcCoordinator) :
    (updatePreviewImage K M N todo pan c).c.params.raw = c.params.raw := by
  have h := congrArg ProcParams.raw (updatePreviewImage_fixedPart K M N todo pan c)
  exact h

/-- C7: `highDetailNeeded` is false exactly when the preview mode is not
Sidecar, the mask has no high-quality bit and no crop window has skip factor
1; in a run with `highDetailNeeded` false, every `preprocess` and every
`demosaic` call receives raw parameters whose Bayer and X-Trans demosaic
methods are FAST unless the configured method is NONE (which is kept); in a
run with `highDetailNeeded` true they receive `params.raw` itself; and the
committed `params.raw` is the same after the run as before it. -/
theorem fast_path_downgrade (K : Collab) (M : RefreshMap) (N : MethodNames) (todo : Nat)
    (pan : Bool) (c : ImProcCoordinator) (rp : RAWParams)
    (hcall : (∃ l co, Event.preprocess rp l co ∈ (updatePreviewImage K M N todo pan c).events)
      ∨ (∃ a t, Event.demosaic rp a t ∈ (updatePreviewImage K M N todo pan c).events)) :
    (highDetailNeeded K M c.crops todo = false
        ↔ K.prevdemo ≠ PrevDemo.PD_Sidecar ∧ testBits todo M.M_HIGHQUAL = false
            ∧ anyCropSkipOne c.crops = false)
      ∧ outerGate K M todo pan (highDetailNeeded K M c.crops todo) = true
      ∧ (highDetailNeeded K M c.crops todo = false →
          rp.bayersensor.method
              = (if c.params.raw.bayersensor.method = N.bayerNONE then N.bayerNONE
                 else N.bayerFAST)
            ∧ rp.xtranssensor.method
              = (if c.params.raw.xtranssensor.method = N.xtransNONE then N.xtransNONE
                 else N.xtransFAST))
      ∧ (highDetailNeeded K M c.crops todo = true → rp = c.params.raw)
      ∧ (updatePreviewImage K M N todo pan c).c.params.raw = c.params.raw := by
  have hrp : rp = rawParamsFor N (highDetailNeeded K M c.crops todo) c.params.raw
      ∧ outerGate K M todo pan (highDetailNeeded K M c.crops todo) = true := by
    rcases hcall with ⟨l, co, h⟩ | ⟨a, t, h⟩
    · rw [updatePreviewImage_preprocess_iff] at h
      refine ⟨h.2.1, ?_⟩
      have h1 := h.1
      simp only [preprocessRuns, Bool.and_eq_true] at h1
      exact h1.1
    · rw [updatePreviewImage_demosaic_iff] at h
      refine ⟨h.2.1, ?_⟩
      have h1 := h.1
      simp only [demosaicRuns, Bool.and_eq_true] at h1
      exact h1.1
  refine ⟨highDetailNeeded_eq_false_iff K M c.crops todo, hrp.2, ?_, ?_,
    updatePreviewImage_params_raw K M N todo pan c⟩
  · intro hd
    rw [hrp.1, hd]
    simp only [rawParamsFor, Bool.not_false, if_true]
    rw [fastPath_bayer_method, fastPath_xtrans_method]
    constructor
    · split
      · assumption
      · rfl
    · split
      · assumption
      · rfl
  · intro hd
    rw [hrp.1, hd]
    rfl

/-- Witness for C7: a run with the mask `ALL` in preview mode Full with no
crop window is on the fast path; its `preprocess` call receives the sample raw
parameters with both methods replaced by FAST. -/
theorem fast_path_downgrade_witness :
    Event.preprocess (fastPath methodNames sampleParams.raw) 0 0
        ∈ (updatePreviewImage (sampleCollab PrevDemo.PD_Full) refreshMap methodNames
            refreshMap.ALL false sampleCoordinator).events
      ∧ highDetailNeeded (sampleCollab PrevDemo.PD_Full) refreshMap sampleCoordinator.crops
          refreshMap.ALL = false
      ∧ (fastPath methodNames sampleParams.raw).bayersensor.method = "fast"
      ∧ (fastPath methodNames sampleParams.raw).xtranssensor.method = "fast"
      ∧ (updatePreviewImage (sampleCollab PrevDemo.PD_Full) refreshMap methodNames
            refreshMap.ALL false sampleCoordinator).c.params.raw = sampleParams.raw :=
  have hmem : Event.preprocess (fastPath methodNames sampleParams.raw) 0 0
      ∈ (updatePreviewImage (sampleCollab PrevDemo.PD_Full) refreshMap methodNames
          refreshMap.ALL false sampleCoordinator).events :=
    (updatePreviewImage_preprocess_iff (sampleCollab PrevDemo.PD_Full) refreshMap methodNames
      refreshMap.ALL false sampleCoordinator _ _ _).mpr ⟨rfl, rfl, rfl, rfl⟩
  have h := fast_path_downgrade (sampleCollab PrevDemo.PD_Full) refreshMap methodNames
    refreshMap.ALL false sampleCoordinator (fastPath methodNames sampleParams.raw)
    (Or.inl ⟨0, 0, hmem⟩)
  ⟨hmem, rfl, (h.2.2.1 rfl).1, (h.2.2.1 rfl).2, h.2.2.2.2⟩

/-! ## The fast path and chromatic-aberration correction (C8) -/

/-- C8, evaluated on the code: a run with the mask `ALL` in preview mode Full,
with no crop window and automatic chromatic-aberration correction enabled on a
Bayer source, is on the fast path (`highDetailNeeded` false), executes the
raw-preprocess stage, hands `preprocess` raw parameters in which
`ca_autocorrect` is still set, and `preprocess` calls `CA_correct_RT` once. -/
theorem fast_path_runs_ca_correction :
    (highDetailNeeded (sampleCollab PrevDemo.PD_Full) refreshMap caCoordinator.crops
        refreshMap.ALL,
     preprocessRuns (sampleCollab PrevDemo.PD_Full) refreshMap refreshMap.ALL false
        caCoordinator,
     (rawParamsFor methodNames false caCoordinator.params.raw).ca_autocorrect,
     (updatePreviewImage (sampleCollab PrevDemo.PD_Full) refreshMap methodNames
        refreshMap.ALL false caCoordinator).events.count (Event.call Call.CA_correct_RT))
      = (false, true, true, 1) := by
  rfl

/-! ## A demosaic re-run forces the init stage (C9) -/

theorem demosaicCall_todo (M : RefreshMap) (hdn : Bool) (rp : RAWParams) (r : Run) :
    (demosaicCall M hdn rp r).todo = r.todo ||| M.M_INIT := by
  unfold demosaicCall
  simp

theorem borderStep_todo (N : MethodNames) (r : Run) : (borderStep N r).todo = r.todo := by
  unfold borderStep; split <;> rfl

theorem retinexStage_todo (M : RefreshMap) (r : Run) : (retinexStage M r).todo = r.todo := by
  unfold retinexStage
  split <;> simp

theorem setScale_events (K : Collab) (s : Int) (r : Run) :
    ∃ es, (setScale K s r).events = r.events ++ Event.setScale s :: es := by
  unfold setScale
  simp only []
  obtain ⟨e1, h1, -⟩ := commitScale_appends
    (setScaleLoop (r.c.imgsrc.getFullSize (K.getCoarseBitMask r.c.params.coarse)).1
      (r.c.imgsrc.getFullSize (K.getCoarseBitMask r.c.params.coarse)).2 s.toNat s).1
    (r.c.imgsrc.getFullSize (K.getCoarseBitMask r.c.params.coarse)).1
    (r.c.imgsrc.getFullSize (K.getCoarseBitMask r.c.params.coarse)).2
    (reallocate
      (setScaleLoop (r.c.imgsrc.getFullSize (K.getCoarseBitMask r.c.params.coarse)).1
        (r.c.imgsrc.getFullSize (K.getCoarseBitMask r.c.params.coarse)).2 s.toNat s).2.1
      (setScaleLoop (r.c.imgsrc.getFullSize (K.getCoarseBitMask r.c.params.coarse)).1
        (r.c.imgsrc.getFullSize (K.getCoarseBitMask r.c.params.coarse)).2 s.toNat s).2.2
      { (r.emit (Event.setScale s)) with
          c := { r.c with tr := K.getCoarseBitMask r.c.params.coarse,
                          fw := (r.c.imgsrc.getFullSize (K.getCoarseBitMask r.c.params.coarse)).1,
                          fh := (r.c.imgsrc.getFullSize
                                  (K.getCoarseBitMask r.c.params.coarse)).2 } })
  obtain ⟨e0, h0, -⟩ := reallocate_appends
    (setScaleLoop (r.c.imgsrc.getFullSize (K.getCoarseBitMask r.c.params.coarse)).1
      (r.c.imgsrc.getFullSize (K.getCoarseBitMask r.c.params.coarse)).2 s.toNat s).2.1
    (setScaleLoop (r.c.imgsrc.getFullSize (K.getCoarseBitMask r.c.params.coarse)).1
      (r.c.imgsrc.getFullSize (K.getCoarseBitMask r.c.params.coarse)).2 s.toNat s).2.2
    { (r.emit (Event.setScale s)) with
        c := { r.c with tr := K.getCoarseBitMask r.c.params.coarse,
                        fw := (r.c.imgsrc.getFullSize (K.getCoarseBitMask r.c.params.coarse)).1,
                        fh := (r.c.imgsrc.getFullSize
                                (K.getCoarseBitMask r.c.params.coarse)).2 } }
  refine ⟨e0 ++ e1, ?_⟩
  rw [h1, h0]
  simp

/-- The calls of the init stage, in order, as a sublist of what the stage
appends when it executes. -/
theorem initStage_events (K : Collab) (M : RefreshMap) (r : Run)
    (h : testBits r.todo (M.M_INIT ||| M.M_LINDENOISE ||| M.M_HDR) = true) :
    ∃ es s, (initStage K M r).events = r.events ++ es
      ∧ [Event.HLRecovery_Global r.c.params.toneCurve, Event.setScale s,
          Event.call Call.getImage, Event.call Call.convertColorSpace,
          Event.call Call.firstAnalysis].Sublist es := by
  unfold initStage
  rw [if_pos h]
  unfold loadPreview
  obtain ⟨e3, h3⟩ := setScale_events K (fullSize K (whiteBalance K (highlightRecovery r))).c.scale
    (fullSize K (whiteBalance K (highlightRecovery r)))
  obtain ⟨e2, h2, -⟩ := whiteBalance_appends K (highlightRecovery r)
  have h1 : (highlightRecovery r).events
      = r.events ++ Event.HLRecovery_Global r.c.params.toneCurve
          :: (r.c.imgsrc.HLRecovery_Global r.c.params.toneCurve).2 := by
    unfold highlightRecovery
    simp
  have hf : (fullSize K (whiteBalance K (highlightRecovery r))).events
      = (whiteBalance K (highlightRecovery r)).events := rfl
  refine ⟨Event.HLRecovery_Global r.c.params.toneCurve
      :: ((r.c.imgsrc.HLRecovery_Global r.c.params.toneCurve).2 ++ e2
        ++ Event.setScale (fullSize K (whiteBalance K (highlightRecovery r))).c.scale
          :: (e3 ++ [Event.call Call.getImage, Event.call Call.convertColorSpace,
                Event.call Call.firstAnalysis])),
    (fullSize K (whiteBalance K (highlightRecovery r))).c.scale, ?_, ?_⟩
  · simp only [emit_events]
    rw [h3, hf, h2, h1]
    simp
  · refine List.Sublist.cons₂ _ ?_
    exact (List.Sublist.cons₂ _ (List.sublist_append_right e3 _)).trans
      (List.sublist_append_right _ _)

theorem throughPreprocess_no_demosaic (K : Collab) (M : RefreshMap) (hdn : Bool)
    (rp : RAWParams) (c : ImProcCoordinator) (todo : Nat) (e : Event)
    (he : e.stage = Stage.demosaic) :
    e ∉ (throughPreprocess K M hdn rp ⟨c, todo, []⟩).events := by
  obtain ⟨es, h1, h2⟩ := throughPreprocess_appends K M hdn rp ⟨c, todo, []⟩
  rw [h1]
  intro hmem
  simp only [List.nil_append] at hmem
  have h3 := h2 e hmem
  rw [he] at h3
  revert h3
  decide

theorem gateBody_events (K : Collab) (M : RefreshMap) (N : MethodNames) (hdn : Bool)
    (r : Run) :
    ∃ es, (gateBody K M N hdn r).events
      = (throughInit K M N hdn (rawParamsFor N hdn r.c.params.raw) r).events ++ es := by
  unfold gateBody
  simp only [progress_eq]
  obtain ⟨e10, h10, -⟩ := afterTransform_appends K M
    (transformStage K M (hdrStage M (throughInit K M N hdn (rawParamsFor N hdn r.c.params.raw) r)))
  obtain ⟨e9, h9, -⟩ := transformStage_appends K M
    (hdrStage M (throughInit K M N hdn (rawParamsFor N hdn r.c.params.raw) r))
  obtain ⟨e8, h8, -⟩ := hdrStage_appends M
    (throughInit K M N hdn (rawParamsFor N hdn r.c.params.raw) r)
  refine ⟨e8 ++ e9 ++ e10, ?_⟩
  rw [h10, h9, h8]
  simp

theorem updatePreviewImage_events (K : Collab) (M : RefreshMap) (N : MethodNames) (todo : Nat)
    (pan : Bool) (c : ImProcCoordinator)
    (hg : outerGate K M todo pan (highDetailNeeded K M c.crops todo) = true) :
    ∃ es, (updatePreviewImage K M N todo pan c).events
      = (gateBody K M N (highDetailNeeded K M c.crops todo) ⟨c, todo, []⟩).events ++ es := by
  unfold updatePreviewImage
  simp only []
  rw [if_pos hg]
  obtain ⟨es, h, -⟩ := tail_appends K M pan (highDetailNeeded K M c.crops todo)
    (gateBody K M N (highDetailNeeded K M c.crops todo) ⟨c, todo, []⟩)
  exact ⟨es, h⟩

/-- C9: for a refresh map whose init bit `M_INIT` is not zero, in every run of
`updatePreviewImage` in which `demosaic` is called, whatever the mask, the
calls of the white-balance / init stage (`HLRecovery_Global`, `setScale`,
`getImage`, `convertColorSpace`, `firstAnalysis`) are made, in this order,
after the `demosaic` call in the same run. -/
theorem demosaic_forces_init (K : Collab) (M : RefreshMap) (N : MethodNames) (todo : Nat)
    (pan : Bool) (c : ImProcCoordinator) (rp : RAWParams) (a : Bool) (t : ℚ)
    (hinit : M.M_INIT ≠ 0)
    (hd : Event.demosaic rp a t ∈ (updatePreviewImage K M N todo pan c).events) :
    ∃ pre post hrp s,
      (updatePreviewImage K M N todo pan c).events = pre ++ Event.demosaic rp a t :: post
        ∧ [Event.HLRecovery_Global hrp, Event.setScale s, Event.call Call.getImage,
            Event.call Call.convertColorSpace, Event.call Call.firstAnalysis].Sublist post := by
  have hst : (Event.demosaic rp a t).stage = Stage.demosaic := rfl
  have hg := ((updatePreviewImage_mem (by rw [hst]; decide)).mp hd).1
  have hb := ((updatePreviewImage_mem (by rw [hst]; decide)).mp hd).2
  rw [gateBody_mem_raw (by rw [hst]; decide), throughInit_mem_demosaic hst] at hb
  obtain ⟨et, het⟩ := updatePreviewImage_events K M N todo pan c hg
  obtain ⟨eb, heb⟩ := gateBody_events K M N (highDetailNeeded K M c.crops todo) ⟨c, todo, []⟩
  generalize highDetailNeeded K M c.crops todo = hdn at hg hb het heb
  simp only [] at hb heb
  generalize rawParamsFor N hdn c.params.raw = rp0 at hb heb
  have hn : demosaicNeeded M hdn (throughPreprocess K M hdn rp0 ⟨c, todo, []⟩) = true := by
    by_contra hn
    unfold demosaicStage at hb
    rw [if_neg hn] at hb
    exact throughPreprocess_no_demosaic K M hdn rp0 c todo _ hst hb
  have htodo : testBits
      (retinexStage M (demosaicStage M N hdn rp0
        (throughPreprocess K M hdn rp0 ⟨c, todo, []⟩))).todo
      (M.M_INIT ||| M.M_LINDENOISE ||| M.M_HDR) = true := by
    rw [retinexStage_todo]
    unfold demosaicStage
    rw [if_pos hn, demosaicCall_todo, Nat.lor_assoc]
    exact testBits_lor_self hinit
  obtain ⟨e7, s, h7, hsub⟩ := initStage_events K M _ htodo
  obtain ⟨e6, h6, -⟩ := retinexStage_appends M
    (demosaicStage M N hdn rp0 (throughPreprocess K M hdn rp0 ⟨c, todo, []⟩))
  obtain ⟨pre, post5, h5⟩ := List.append_of_mem hb
  refine ⟨pre, post5 ++ e6 ++ e7 ++ eb ++ et,
    (retinexStage M (demosaicStage M N hdn rp0
      (throughPreprocess K M hdn rp0 ⟨c, todo, []⟩))).c.params.toneCurve, s, ?_, ?_⟩
  · rw [het, heb]
    unfold throughInit
    rw [h7, h6, h5]
    simp
  · exact hsub.trans ((List.sublist_append_right _ _).trans
      ((List.sublist_append_left _ _).trans (List.sublist_append_left _ _)))

/-- Witness for C9: a run with the mask `M_RAW` only, after a geometry change,
in preview mode Full on the sample image: demosaic is called, and the init
calls follow it although the mask has no init bit. -/
theorem demosaic_forces_init_witness :
    refreshMap.M_INIT ≠ 0
      ∧ testBits refreshMap.M_RAW refreshMap.M_INIT = false
      ∧ Event.demosaic (fastPath methodNames sampleParams.raw) false 20
          ∈ (updatePreviewImage (sampleCollab PrevDemo.PD_Full) refreshMap methodNames
              refreshMap.M_RAW true sampleCoordinator).events
      ∧ ∃ pre post hrp s,
        (updatePreviewImage (sampleCollab PrevDemo.PD_Full) refreshMap methodNames
            refreshMap.M_RAW true sampleCoordinator).events
          = pre ++ Event.demosaic (fastPath methodNames sampleParams.raw) false 20 :: post
        ∧ [Event.HLRecovery_Global hrp, Event.setScale s, Event.call Call.getImage,
            Event.call Call.convertColorSpace, Event.call Call.firstAnalysis].Sublist post :=
  have hmem : Event.demosaic (fastPath methodNames sampleParams.raw) false 20
      ∈ (updatePreviewImage (sampleCollab PrevDemo.PD_Full) refreshMap methodNames
          refreshMap.M_RAW true sampleCoordinator).events :=
    (updatePreviewImage_demosaic_iff (sampleCollab PrevDemo.PD_Full) refreshMap methodNames
      refreshMap.M_RAW true sampleCoordinator _ _ _).mpr ⟨rfl, rfl, rfl, rfl⟩
  ⟨by decide, by decide, hmem,
   demosaic_forces_init (sampleCollab PrevDemo.PD_Full) refreshMap methodNames
    refreshMap.M_RAW true sampleCoordinator (fastPath methodNames sampleParams.raw) false 20
    (by decide) hmem⟩

/-! ## The geometry-transform stage and the mask (C10) -/

theorem Core.gateBody_todo_bits (M : RefreshMap) (hdn pcv : Bool) (k : Core) (b : Nat)
    (hb : testBits k.todo b = false) (hcrop : k.todo = M.CROP → pcv = false)
    (hinit : testBits M.M_INIT b = false) :
    testBits (Core.gateBody M hdn pcv k).todo b = false := by
  have hp : Core.preamble M pcv k = k := by
    unfold Core.preamble
    rw [if_neg]
    rintro ⟨h1, h2⟩
    rw [hcrop h1] at h2
    exact Bool.noConfusion h2
  unfold Core.gateBody
  simp only [Core.init_todo, Core.retinex_todo, Core.demosaic_todo, Core.preprocess_todo, hp]
  split
  · rw [testBits_lor_left, hb, hinit]; rfl
  · exact hb

theorem transformStage_skipped (K : Collab) (M : RefreshMap) (r : Run)
    (hn : K.needsTransform r.c.params = false)
    (hb : testBits r.todo (M.M_TRANSFORM ||| M.M_RGBCURVE) = false) :
    transformStage K M r = r := by
  unfold transformStage cbdlBefore
  simp [hn, hb]

theorem hdrStage_no_transform (K : Collab) (M : RefreshMap) (N : MethodNames) (hdn : Bool)
    (rp : RAWParams) (c : ImProcCoordinator) (todo : Nat) (e : Event)
    (he : e.stage = Stage.transform) :
    e ∉ (hdrStage M (throughInit K M N hdn rp ⟨c, todo, []⟩)).events := by
  rw [(hdrStage_appends M _).mem_iff (by rw [he]; decide)]
  obtain ⟨es, h1, h2⟩ := throughInit_appends K M N hdn rp ⟨c, todo, []⟩
  rw [h1]
  intro hmem
  simp only [List.nil_append] at hmem
  have h3 := h2 e hmem
  rw [he] at h3
  revert h3
  decide

/-- C10 (amended): for a refresh map whose init bit is neither the transform
bit nor the RGB-curve bit, in a run of `updatePreviewImage` whose mask
contains neither `M_TRANSFORM` nor `M_RGBCURVE`, which is not a `CROP` run
with post-crop vignetting, and whose committed parameters need no geometric
transform (`needsTransform` false), the geometry-transform stage does not
execute: no `transform`, no `copyData`, and no allocation of a transform
buffer. -/
theorem transform_dispatch (K : Collab) (M : RefreshMap) (N : MethodNames) (todo : Nat)
    (pan : Bool) (c : ImProcCoordinator)
    (hmask : testBits todo (M.M_TRANSFORM ||| M.M_RGBCURVE) = false)
    (hcrop : todo = M.CROP → K.needsPCVignetting c.params = false)
    (hinit : testBits M.M_INIT (M.M_TRANSFORM ||| M.M_RGBCURVE) = false)
    (hneeds : ∀ p : ProcParams, p.fixedPart = c.params.fixedPart → K.needsTransform p = false) :
    Event.call Call.transform ∉ (updatePreviewImage K M N todo pan c).events
      ∧ (∀ buf, Event.newImagefloat buf ∉ (updatePreviewImage K M N todo pan c).events)
      ∧ transformCalls (updatePreviewImage K M N todo pan c).events = [] := by
  have key : ∀ e : Event, e.stage = Stage.transform →
      e ∉ (updatePreviewImage K M N todo pan c).events := by
    intro e he hmem
    have hb := ((updatePreviewImage_mem (by rw [he]; decide)).mp hmem).2
    rw [gateBody_mem_transform he] at hb
    have hcore : (hdrStage M (throughInit K M N (highDetailNeeded K M c.crops todo)
        (rawParamsFor N (highDetailNeeded K M c.crops todo) c.params.raw) ⟨c, todo, []⟩)).core
        = Core.gateBody M (highDetailNeeded K M c.crops todo) (K.needsPCVignetting c.params)
            (Run.core ⟨c, todo, []⟩) := by
      rw [hdrStage_core, throughInit_core]
    have htodo : testBits (hdrStage M (throughInit K M N (highDetailNeeded K M c.crops todo)
        (rawParamsFor N (highDetailNeeded K M c.crops todo) c.params.raw) ⟨c, todo, []⟩)).todo
        (M.M_TRANSFORM ||| M.M_RGBCURVE) = false := by
      have h := congrArg Core.todo hcore
      have e1 : ∀ r : Run, r.core.todo = r.todo := fun _ => rfl
      rw [e1] at h
      rw [h]
      exact Core.gateBody_todo_bits M _ _ _ _ hmask hcrop hinit
    have hfix : (hdrStage M (throughInit K M N (highDetailNeeded K M c.crops todo)
        (rawParamsFor N (highDetailNeeded K M c.crops todo) c.params.raw)
          ⟨c, todo, []⟩)).c.params.fixedPart = c.params.fixedPart := by
      have h := congrArg Core.fixed hcore
      have e1 : ∀ r : Run, r.core.fixed = r.c.params.fixedPart := fun _ => rfl
      rw [e1, Core.gateBody_fixed] at h
      exact h
    simp only [] at hb
    rw [transformStage_skipped K M _ (hneeds _ hfix) htodo] at hb
    exact hdrStage_no_transform K M N _ _ c todo e he hb
  refine ⟨key _ rfl, fun buf => key _ rfl, ?_⟩
  unfold transformCalls
  rw [List.filter_eq_nil_iff]
  intro e hmem hst
  exact key e (by simpa using hst) hmem

theorem firstRun_fixedPart (p : ProcParams) :
    (firstRun p).c.params.fixedPart = p.fixedPart := by
  unfold firstRun
  rw [updatePreviewImage_fixedPart]
  rfl

/-- Counterexample to C10 as stated.  After a first full run, a run with the
mask `M_LUMACURVE` (which contains no bit of the transform stage or of a stage
before it) with `highDetailNeeded` false, on parameters with a rotation,
allocates a transform buffer and calls `transform`; and a run with the mask
`M_RGBCURVE` on parameters with contrast by detail levels enabled "before"
allocates a transform buffer and copies into it. -/
theorem transform_runs_without_mask_bit :
    (testBits refreshMap.M_LUMACURVE
        (refreshMap.M_TRANSFORM ||| refreshMap.M_HDR ||| refreshMap.M_LINDENOISE
          ||| refreshMap.M_INIT ||| refreshMap.M_RETINEX ||| refreshMap.M_RAW
          ||| refreshMap.M_PREPROC),
     highDetailNeeded (sampleCollab PrevDemo.PD_Full) refreshMap
        (firstRun rotatedParams).c.crops refreshMap.M_LUMACURVE,
     transformCalls (updatePreviewImage (sampleCollab PrevDemo.PD_Full) refreshMap methodNames
        refreshMap.M_LUMACURVE true (firstRun rotatedParams).c).events,
     transformCalls (updatePreviewImage (sampleCollab PrevDemo.PD_Full) refreshMap methodNames
        refreshMap.M_RGBCURVE true (firstRun cbdlParams).c).events)
      = (false, false,
         [Event.newImagefloat ⟨7, 571, 428⟩, Event.call Call.transform],
         [Event.newImagefloat ⟨7, 571, 428⟩, Event.call Call.copyData]) := by
  decide!

/-- Witness for C10: after a first full run on the sample parameters (no
rotation), a run with the mask `M_LUMACURVE` after a geometry-related change
passes the outer gate and makes no call of the transform stage. -/
theorem transform_dispatch_witness :
    outerGate (sampleCollab PrevDemo.PD_Full) refreshMap refreshMap.M_LUMACURVE true
        (highDetailNeeded (sampleCollab PrevDemo.PD_Full) refreshMap
          (firstRun sampleParams).c.crops refreshMap.M_LUMACURVE) = true
      ∧ testBits refreshMap.M_LUMACURVE (refreshMap.M_TRANSFORM ||| refreshMap.M_RGBCURVE)
          = false
      ∧ transformCalls (updatePreviewImage (sampleCollab PrevDemo.PD_Full) refreshMap
          methodNames refreshMap.M_LUMACURVE true (firstRun sampleParams).c).events = [] :=
  ⟨rfl, by decide,
   (transform_dispatch (sampleCollab PrevDemo.PD_Full) refreshMap methodNames
      refreshMap.M_LUMACURVE true (firstRun sampleParams).c (by decide)
      (fun _ => rfl) (by decide)
      (fun p hp => by
        rw [firstRun_fixedPart] at hp
        have h : p.fixedPart.rotate = sampleParams.fixedPart.rotate :=
          congrArg ProcParams.rotate hp
        have h0 : p.rotate = 0 := h
        simp [sampleCollab, h0])).2.2⟩

/-! ## Scale selection (C12) -/

theorem ceil_div_eq (a s : Int) (ha : 0 ≤ a) (hs : 1 ≤ s) :
    ⌈(a : ℚ) / (s : ℚ)⌉ = Int.tdiv a s + (if Int.tmod a s > 0 then 1 else 0) := by
  have hs0 : (0 : Int) ≤ s := by omega
  rw [Int.tdiv_eq_ediv ha hs0, Int.tmod_eq_emod ha hs0]
  have hsq : (0 : ℚ) < (s : ℚ) := by exact_mod_cast (by omega : (0 : Int) < s)
  have hdiv := Int.emod_add_ediv a s
  have hm0 := Int.emod_nonneg a (by omega : s ≠ 0)
  have hm1 := Int.emod_lt_of_pos a (by omega : (0 : Int) < s)
  rw [Int.ceil_eq_iff]
  split_ifs with h
  · constructor
    · rw [lt_div_iff₀ hsq]
      have : (a / s + 1 - 1) * s < a := by
        have : (a / s) * s < a := by nlinarith
        simpa using this
      exact_mod_cast this
    · rw [div_le_iff₀ hsq]
      have : a ≤ (a / s + 1) * s := by nlinarith
      exact_mod_cast this
  · have hz : a % s = 0 := by omega
    constructor
    · rw [lt_div_iff₀ hsq]
      have : (a / s + 0 - 1) * s < a := by nlinarith
      exact_mod_cast this
    · rw [div_le_iff₀ hsq]
      have : a ≤ (a / s + 0) * s := by nlinarith
      exact_mod_cast this

theorem getSize_eq_ceil (fw fh s : Int) (hfw : 0 ≤ fw) (hfh : 0 ≤ fh) (hs : 1 ≤ s) :
    getSize fw fh s = (⌈(fw : ℚ) / (s : ℚ)⌉, ⌈(fh : ℚ) / (s : ℚ)⌉) := by
  unfold getSize
  rw [ceil_div_eq fw s hfw hs, ceil_div_eq fh s hfh hs]

/-- The loop stops at the first scale, counting down from `s`, at which its
condition fails; the fuel `n` only needs to cover `s`. -/
theorem setScaleLoop_spec (fw fh : Int) (n : Nat) (s : Int) (hs : 1 ≤ s) (hn : s.toNat ≤ n) :
    1 ≤ (setScaleLoop fw fh n s).1 ∧ (setScaleLoop fw fh n s).1 ≤ s
      ∧ (setScaleLoop fw fh n s).2 = getSize fw fh (setScaleLoop fw fh n s).1
      ∧ ¬ ((getSize fw fh (setScaleLoop fw fh n s).1).2 < 400
            ∧ (setScaleLoop fw fh n s).1 > 1
            ∧ wrapInt ((getSize fw fh (setScaleLoop fw fh n s).1).1
                * (getSize fw fh (setScaleLoop fw fh n s).1).2) < 1000000)
      ∧ ∀ q, (setScaleLoop fw fh n s).1 < q → q ≤ s →
          (getSize fw fh q).2 < 400 ∧ q > 1
            ∧ wrapInt ((getSize fw fh q).1 * (getSize fw fh q).2) < 1000000 := by
  induction n generalizing s with
  | zero => omega
  | succ n ih =>
      unfold setScaleLoop
      simp only []
      by_cases hc : (getSize fw fh s).2 < 400 ∧ s > 1
          ∧ wrapInt ((getSize fw fh s).1 * (getSize fw fh s).2) < 1000000
      · rw [if_pos hc]
        obtain ⟨h1, h2, h3, h4, h5⟩ := ih (s - 1) (by omega) (by omega)
        refine ⟨h1, by omega, h3, h4, ?_⟩
        intro q hq1 hq2
        by_cases hqs : q = s
        · rw [hqs]; exact hc
        · exact h5 q hq1 (by omega)
      · rw [if_neg hc]
        refine ⟨hs, le_refl _, rfl, hc, ?_⟩
        intro q hq1 hq2
        simp only [] at hq1
        omega

theorem setScaleProbes_ge (fw fh : Int) (n : Nat) (s : Int) (hs : 1 ≤ s) :
    ∀ q ∈ setScaleProbes fw fh n s, 1 ≤ q := by
  induction n generalizing s with
  | zero =>
      intro q hq
      simp only [setScaleProbes, List.mem_singleton] at hq
      omega
  | succ n ih =>
      intro q hq
      unfold setScaleProbes at hq
      simp only [] at hq
      split_ifs at hq with hc
      · rcases List.mem_cons.mp hq with h | h
        · omega
        · exact ih (s - 1) (by omega) q h
      · simp only [List.mem_singleton] at hq
        omega

theorem setScale_scale (K : Collab) (p : Int) (r : Run) :
    (setScale K p r).c.scale
      = (setScaleLoop (r.c.imgsrc.getFullSize (K.getCoarseBitMask r.c.params.coarse)).1
          (r.c.imgsrc.getFullSize (K.getCoarseBitMask r.c.params.coarse)).2 p.toNat p).1 := by
  unfold setScale commitScale
  simp

theorem setScale_dims (K : Collab) (p : Int) (r : Run) :
    ((setScale K p r).c.pW, (setScale K p r).c.pH)
      = (setScaleLoop (r.c.imgsrc.getFullSize (K.getCoarseBitMask r.c.params.coarse)).1
          (r.c.imgsrc.getFullSize (K.getCoarseBitMask r.c.params.coarse)).2 p.toNat p).2 := by
  unfold setScale commitScale reallocate
  simp only [emitAll_c]
  split_ifs with h
  · rfl
  · simp only [emit_c, not_or, not_not] at h
    simp only [emit_c]
    rw [← h.1, ← h.2]

theorem setScaleLoop_fuel (fw fh : Int) (n : Nat) (s : Int) (hs : 1 ≤ s) (hn : s.toNat ≤ n) :
    setScaleLoop fw fh n s = setScaleLoop fw fh s.toNat s := by
  obtain ⟨-, a2, a3, a4, a5⟩ := setScaleLoop_spec fw fh n s hs hn
  obtain ⟨-, b2, b3, b4, b5⟩ := setScaleLoop_spec fw fh s.toNat s hs (le_refl _)
  have h1 : (setScaleLoop fw fh n s).1 = (setScaleLoop fw fh s.toNat s).1 := by
    rcases lt_trichotomy (setScaleLoop fw fh n s).1 (setScaleLoop fw fh s.toNat s).1 with h | h | h
    · exact absurd (a5 _ h b2) b4
    · exact h
    · exact absurd (b5 _ h a2) a4
  refine Prod.ext h1 ?_
  rw [a3, b3, h1]

theorem getSize_bounds (fw fh s : Int) (hfw : 0 ≤ fw) (hfh : 0 ≤ fh) (hs : 1 ≤ s) :
    0 ≤ (getSize fw fh s).1 ∧ (getSize fw fh s).1 ≤ fw
      ∧ 0 ≤ (getSize fw fh s).2 ∧ (getSize fw fh s).2 ≤ fh := by
  have key : ∀ a : Int, 0 ≤ a →
      0 ≤ Int.tdiv a s + (if Int.tmod a s > 0 then 1 else 0)
        ∧ Int.tdiv a s + (if Int.tmod a s > 0 then 1 else 0) ≤ a := by
    intro a ha
    have hs0 : (0 : Int) ≤ s := by omega
    rw [Int.tdiv_eq_ediv ha hs0, Int.tmod_eq_emod ha hs0]
    have hdiv := Int.emod_add_ediv a s
    have hm0 := Int.emod_nonneg a (by omega : s ≠ 0)
    have hd0 : 0 ≤ a / s := Int.ediv_nonneg ha hs0
    have hmul : a / s ≤ s * (a / s) := by nlinarith
    split_ifs with h <;> constructor <;> omega
  unfold getSize
  exact ⟨(key fw hfw).1, (key fw hfw).2, (key fh hfh).1, (key fh hfh).2⟩

theorem wrapInt_of_lt (x : Int) (h0 : 0 ≤ x) (h1 : x < 2147483648) : wrapInt x = x := by
  unfold wrapInt
  omega

/-- C12 (amended): for a full-resolution size `fw x fh` with `fw, fh >= 1`
whose pixel count fits in an `int` (`fw * fh < 2^31`) and a requested scale
`p >= 1`, `setScale(p)` sets `scale` to the largest `s` with `1 <= s <= p` at
which the stop condition holds (preview height at least 400, or `s = 1`, or
at least 1000000 preview pixels, the preview being
`ceil(fw/s) x ceil(fh/s)`), and `pW x pH` to that preview size; the loop ends
within `p` steps (any larger bound gives the same result), and every scale
handed to `getSize` is at least 1. -/
theorem scale_selection (K : Collab) (p fw fh : Int) (r : Run) (n : Nat)
    (hfull : r.c.imgsrc.getFullSize (K.getCoarseBitMask r.c.params.coarse) = (fw, fh))
    (hfw : 1 ≤ fw) (hfh : 1 ≤ fh) (hpix : fw * fh < 2147483648) (hp : 1 ≤ p)
    (hn : p.toNat ≤ n) :
    1 ≤ (setScale K p r).c.scale ∧ (setScale K p r).c.scale ≤ p
      ∧ scaleStops fw fh (setScale K p r).c.scale
      ∧ (∀ q, (setScale K p r).c.scale < q → q ≤ p → ¬ scaleStops fw fh q)
      ∧ ((setScale K p r).c.pW, (setScale K p r).c.pH)
          = (⌈(fw : ℚ) / ((setScale K p r).c.scale : ℚ)⌉,
             ⌈(fh : ℚ) / ((setScale K p r).c.scale : ℚ)⌉)
      ∧ setScaleLoop fw fh n p = setScaleLoop fw fh p.toNat p
      ∧ ∀ q ∈ setScaleProbes fw fh p.toNat p, 1 ≤ q := by
  have hsc := setScale_scale K p r
  have hdim := setScale_dims K p r
  rw [hfull] at hsc hdim
  simp only [] at hsc hdim
  obtain ⟨a1, a2, a3, a4, a5⟩ := setScaleLoop_spec fw fh p.toNat p hp (le_refl _)
  rw [← hsc] at a1 a2 a3 a4 a5
  have hwrap : ∀ q : Int, 1 ≤ q →
      wrapInt ((getSize fw fh q).1 * (getSize fw fh q).2)
        = (getSize fw fh q).1 * (getSize fw fh q).2 := by
    intro q hq
    obtain ⟨b1, b2, b3, b4⟩ := getSize_bounds fw fh q (by omega) (by omega) hq
    apply wrapInt_of_lt
    · exact mul_nonneg b1 b3
    · have : (getSize fw fh q).1 * (getSize fw fh q).2 ≤ fw * fh :=
        mul_le_mul b2 b4 b3 (by omega)
      omega
  have hstop : ∀ q : Int, 1 ≤ q →
      (scaleStops fw fh q ↔ ¬ ((getSize fw fh q).2 < 400 ∧ q > 1
        ∧ wrapInt ((getSize fw fh q).1 * (getSize fw fh q).2) < 1000000)) := by
    intro q hq
    rw [hwrap q hq]
    unfold scaleStops
    rw [getSize_eq_ceil fw fh q (by omega) (by omega) hq]
    simp only []
    constructor
    · rintro (h | h | h) ⟨c1, c2, c3⟩ <;> omega
    · intro h
      by_contra hcon
      apply h
      refine ⟨by omega, by omega, by omega⟩
  refine ⟨a1, a2, (hstop _ a1).mpr a4, ?_, ?_, setScaleLoop_fuel fw fh n p hp hn,
    setScaleProbes_ge fw fh p.toNat p hp⟩
  · intro q hq1 hq2
    rw [hstop q (by omega)]
    exact not_not.mpr (a5 q hq1 hq2)
  · rw [hdim, a3, getSize_eq_ceil fw fh _ (by omega) (by omega) a1]

/-- Counterexample to C12 as stated: a source of 33554432 x 512 pixels and
the requested scale 2.  At scale 2 the preview is 16777216 x 256, whose height
is below 400 and whose pixel count `2^32` is at least 1000000, so the stop
condition of the claim holds at 2; the `int` product `nW * nH` wraps to 0,
the loop goes on and `setScale` ends at scale 1. -/
theorem scale_selection_overflow :
    wideSource.getFullSize 0 = (33554432, 512)
      ∧ getSize 33554432 512 2 = (16777216, 256)
      ∧ scaleStops 33554432 512 2
      ∧ wrapInt (16777216 * 256) = 0
      ∧ (setScale (sampleCollab PrevDemo.PD_Full) 2
          ⟨newCoordinator (sampleCollab PrevDemo.PD_Full) sampleParams wideSource, 0, []⟩).c.scale
          = 1 := by
  refine ⟨by decide, by decide, ?_, by decide, by rfl⟩
  unfold scaleStops
  right; right
  have h := getSize_eq_ceil 33554432 512 2 (by decide) (by decide) (by decide)
  have e : getSize 33554432 512 2 = (16777216, 256) := by decide
  rw [e, Prod.mk.injEq] at h
  rw [← h.1, ← h.2]
  decide

/-- Witness for C12: a 4000 x 3000 source and the requested scale 10 give the
scale 7 and a 572 x 429 preview, whose height is at least 400. -/
theorem scale_selection_witness :
    (plainSource.getFullSize 0 = (4000, 3000))
      ∧ (setScale (sampleCollab PrevDemo.PD_Full) 10 ⟨plainCoordinator, 0, []⟩).c.scale = 7
      ∧ ((setScale (sampleCollab PrevDemo.PD_Full) 10 ⟨plainCoordinator, 0, []⟩).c.pW,
         (setScale (sampleCollab PrevDemo.PD_Full) 10 ⟨plainCoordinator, 0, []⟩).c.pH)
          = (572, 429)
      ∧ scaleStops 4000 3000
          (setScale (sampleCollab PrevDemo.PD_Full) 10 ⟨plainCoordinator, 0, []⟩).c.scale
      ∧ ∀ q, (setScale (sampleCollab PrevDemo.PD_Full) 10 ⟨plainCoordinator, 0, []⟩).c.scale < q →
          q ≤ 10 → ¬ scaleStops 4000 3000 q :=
  have h := scale_selection (sampleCollab PrevDemo.PD_Full) 10 4000 3000
    ⟨plainCoordinator, 0, []⟩ 10 rfl (by decide) (by decide) (by decide) (by decide) (by decide)
  ⟨rfl, rfl, rfl, h.2.2.1, h.2.2.2.1⟩

/-! ## Scale idempotence (C13) -/

theorem setScale_source (K : Collab) (p : Int) (r : Run) :
    (setScale K p r).c.imgsrc = r.c.imgsrc ∧ (setScale K p r).c.params = r.c.params := by
  unfold setScale commitScale reallocate freeAll
  simp only [emitAll_c, emit_c]
  split_ifs <;> simp

theorem setScale_fields (K : Collab) (p : Int) (r : Run) :
    (setScale K p r).c.tr = K.getCoarseBitMask r.c.params.coarse
      ∧ (setScale K p r).c.fw = (r.c.imgsrc.getFullSize (K.getCoarseBitMask r.c.params.coarse)).1
      ∧ (setScale K p r).c.fh = (r.c.imgsrc.getFullSize (K.getCoarseBitMask r.c.params.coarse)).2
      ∧ (setScale K p r).c.fullw
          = (r.c.imgsrc.getFullSize (K.getCoarseBitMask r.c.params.coarse)).1
      ∧ (setScale K p r).c.fullh
          = (r.c.imgsrc.getFullSize (K.getCoarseBitMask r.c.params.coarse)).2
      ∧ (setScale K p r).c.resultValid = false := by
  unfold setScale commitScale reallocate freeAll
  simp only [emitAll_c, emit_c]
  split_ifs <;> simp

/-- A call of `setScale` in a state that already holds what the call
computes changes no member. -/
theorem setScale_fixed (K : Collab) (p : Int) (r : Run)
    (htr : r.c.tr = K.getCoarseBitMask r.c.params.coarse)
    (hfw : r.c.fw = (r.c.imgsrc.getFullSize (K.getCoarseBitMask r.c.params.coarse)).1)
    (hfh : r.c.fh = (r.c.imgsrc.getFullSize (K.getCoarseBitMask r.c.params.coarse)).2)
    (hfullw : r.c.fullw = (r.c.imgsrc.getFullSize (K.getCoarseBitMask r.c.params.coarse)).1)
    (hfullh : r.c.fullh = (r.c.imgsrc.getFullSize (K.getCoarseBitMask r.c.params.coarse)).2)
    (hvalid : r.c.resultValid = false)
    (hscale : r.c.scale
      = (setScaleLoop (r.c.imgsrc.getFullSize (K.getCoarseBitMask r.c.params.coarse)).1
          (r.c.imgsrc.getFullSize (K.getCoarseBitMask r.c.params.coarse)).2 p.toNat p).1)
    (hdims : (r.c.pW, r.c.pH)
      = (setScaleLoop (r.c.imgsrc.getFullSize (K.getCoarseBitMask r.c.params.coarse)).1
          (r.c.imgsrc.getFullSize (K.getCoarseBitMask r.c.params.coarse)).2 p.toNat p).2) :
    (setScale K p r).c = r.c
      ∧ (setScale K p r).events
          = r.events ++ Event.setScale p
              :: List.replicate r.c.listeners.sizeListeners
                  (Event.sizeChanged r.c.fw r.c.fh r.c.fw r.c.fh) := by
  have hW : (setScaleLoop (r.c.imgsrc.getFullSize (K.getCoarseBitMask r.c.params.coarse)).1
      (r.c.imgsrc.getFullSize (K.getCoarseBitMask r.c.params.coarse)).2 p.toNat p).2.1
      = r.c.pW := by rw [← hdims]
  have hH : (setScaleLoop (r.c.imgsrc.getFullSize (K.getCoarseBitMask r.c.params.coarse)).1
      (r.c.imgsrc.getFullSize (K.getCoarseBitMask r.c.params.coarse)).2 p.toNat p).2.2
      = r.c.pH := by rw [← hdims]
  unfold setScale commitScale reallocate
  simp only [emitAll_c, emit_c, emitAll_events, emit_events, hW, hH, ne_eq, not_true_eq_false,
    or_self, if_false]
  rw [← hscale, ← hfw, ← hfh, ← htr]
  constructor
  · obtain ⟨c, todo, es⟩ := r
    cases c
    simp_all
  · simp

/-- C13: calling `setScale(s)` twice in a row, with the source and the
parameters unchanged in between, leaves after the second call every member of
the coordinator as the first call left it: the same buffers (`orig_prev`,
`oprevi`, `oprevl`, `nprevl`, `ncie`, `previmg`, `workimg`), no allocation
(`nextId`), the same `pW`, `pH` and `scale`; the second call only notifies the
size listeners again. -/
theorem scale_idempotence (K : Collab) (s : Int) (r : Run) :
    (setScale K s (setScale K s r)).c = (setScale K s r).c
      ∧ (setScale K s (setScale K s r)).events
          = (setScale K s r).events ++ Event.setScale s
              :: List.replicate (setScale K s r).c.listeners.sizeListeners
                  (Event.sizeChanged (setScale K s r).c.fw (setScale K s r).c.fh
                    (setScale K s r).c.fw (setScale K s r).c.fh) := by
  obtain ⟨h1, h2⟩ := setScale_source K s r
  obtain ⟨f1, f2, f3, f4, f5, f6⟩ := setScale_fields K s r
  apply setScale_fixed K s (setScale K s r)
  · rw [f1, h2]
  · rw [f2, h1, h2]
  · rw [f3, h1, h2]
  · rw [f4, h1, h2]
  · rw [f5, h1, h2]
  · exact f6
  · rw [setScale_scale, h1, h2]
  · rw [setScale_dims, h1, h2]

/-! ## Group reallocation (C14) -/

/-- C14: in a state where the buffers are allocated or no CIECAM buffer
exists, whenever `setScale` computes dimensions `nW x nH` that differ from
`pW x pH`, on return `pW = nW`, `pH = nH`; `orig_prev`, `oprevl`, `nprevl`,
`previmg` and `workimg` are five new buffers (identities from `nextId` on) of
exactly these dimensions; `oprevi` aliases `orig_prev`; the CIECAM buffer is
absent; `allocated` is true; `resultValid` is false; and after the `setScale`
call (and the `delImage` of the freed preview, if an image listener is
registered) the calls made are exactly one `sizeChanged` with the full size
per registered size listener. -/
theorem group_reallocation (K : Collab) (p nW nH fw fh : Int) (r : Run)
    (hfull : r.c.imgsrc.getFullSize (K.getCoarseBitMask r.c.params.coarse) = (fw, fh))
    (hres : (setScaleLoop fw fh p.toNat p).2 = (nW, nH))
    (hinv : r.c.allocated = true ∨ r.c.ncie = none)
    (hdiff : nW ≠ r.c.pW ∨ nH ≠ r.c.pH) :
    (setScale K p r).c.pW = nW ∧ (setScale K p r).c.pH = nH
      ∧ (setScale K p r).c.orig_prev = some ⟨r.c.nextId, nW, nH⟩
      ∧ (setScale K p r).c.oprevl = some ⟨r.c.nextId + 1, nW, nH⟩
      ∧ (setScale K p r).c.nprevl = some ⟨r.c.nextId + 2, nW, nH⟩
      ∧ (setScale K p r).c.previmg = some ⟨r.c.nextId + 3, nW, nH⟩
      ∧ (setScale K p r).c.workimg = some ⟨r.c.nextId + 4, nW, nH⟩
      ∧ (setScale K p r).c.nextId = r.c.nextId + 5
      ∧ (setScale K p r).c.oprevi = (setScale K p r).c.orig_prev
      ∧ (setScale K p r).c.ncie = none
      ∧ (setScale K p r).c.allocated = true
      ∧ (setScale K p r).c.resultValid = false
      ∧ (setScale K p r).events
          = r.events ++ Event.setScale p
              :: ((if r.c.allocated && r.c.listeners.imageListener then
                    [Event.call Call.delImage] else [])
                  ++ List.replicate r.c.listeners.sizeListeners
                      (Event.sizeChanged fw fh fw fh)) := by
  have h1 : (setScaleLoop fw fh p.toNat p).2.1 = nW := by rw [hres]
  have h2 : (setScaleLoop fw fh p.toNat p).2.2 = nH := by rw [hres]
  unfold setScale commitScale reallocate freeAll
  simp only [hfull, h1, h2, emit_c, emitAll_c, emitAll_events]
  rw [if_pos hdiff]
  cases ha : r.c.allocated
  · have hn : r.c.ncie = none := by
      rcases hinv with h | h
      · rw [ha] at h; exact Bool.noConfusion h
      · exact h
    simp [hn]
  · cases hl : r.c.listeners.imageListener <;> simp [Run.emitIf, hl]

/-- Witness for C14: the first `setScale(10)` on a freshly constructed
coordinator (`pW = pH = -1`, nothing allocated) with two size listeners on the
4000 x 3000 source. -/
theorem group_reallocation_witness :
    (setScale (sampleCollab PrevDemo.PD_Full) 10
        ⟨{ plainCoordinator with
            listeners := { plainCoordinator.listeners with
              sizeListeners := 2 } }, 0, []⟩).c.previmg = some ⟨3, 572, 429⟩
      ∧ (setScale (sampleCollab PrevDemo.PD_Full) 10
        ⟨{ plainCoordinator with
            listeners := { plainCoordinator.listeners with
              sizeListeners := 2 } }, 0, []⟩).events
          = [Event.setScale 10, Event.sizeChanged 4000 3000 4000 3000,
             Event.sizeChanged 4000 3000 4000 3000] :=
  have h := group_reallocation (sampleCollab PrevDemo.PD_Full) 10 572 429 4000 3000
    ⟨{ plainCoordinator with
        listeners := { plainCoordinator.listeners with
          sizeListeners := 2 } }, 0, []⟩ rfl rfl (Or.inr rfl) (Or.inl (by decide))
  ⟨h.2.2.2.2.2.1, h.2.2.2.2.2.2.2.2.2.2.2.2⟩

/-! ## Crop fan-out (C15) -/

theorem cropUpdates_append (l1 l2 : List Event) :
    cropUpdates (l1 ++ l2) = cropUpdates l1 ++ cropUpdates l2 := by
  induction l1 with
  | nil => rfl
  | cons e l ih => cases e <;> simp [cropUpdates, ih]

theorem cropUpdates_eq_nil (l : List Event) (h : ∀ e ∈ l, e.stage ≠ Stage.crop) :
    cropUpdates l = [] := by
  induction l with
  | nil => rfl
  | cons e l ih =>
      have hl := ih (fun x hx => h x (List.mem_cons_of_mem _ hx))
      have he := h e (List.mem_cons_self _ _)
      cases e <;> first | exact hl | (exact absurd rfl he)

theorem cropLoop_events (K : Collab) (M : RefreshMap) (pan hdn : Bool) (crops : List Crop)
    (i : Nat) (r : Run) :
    cropUpdates (cropLoop K M pan hdn crops i r).events
      = cropUpdates r.events
          ++ dueWindows (cropUpdateDue K M pan hdn r.todo) r.todo crops i := by
  induction crops generalizing i r with
  | nil => simp [cropLoop, dueWindows]
  | cons cr crops ih =>
      unfold cropLoop
      simp only []
      rw [ih, emitIf_todo, emitIf_events, dueWindows]
      have hc : (cr.hasListener && (pan || (hdn && K.prevdemo != PrevDemo.PD_Sidecar)
          || testBits r.todo (M.M_MONITOR ||| M.M_RGBCURVE ||| M.M_LUMACURVE)
          || cr.skip == 1)) = cropUpdateDue K M pan hdn r.todo cr := rfl
      rw [hc]
      cases cropUpdateDue K M pan hdn r.todo cr
      · simp
      · simp [cropUpdates_append, cropUpdates]

theorem Core.gateBody_crops (M : RefreshMap) (hdn pcv : Bool) (k : Core) :
    (Core.gateBody M hdn pcv k).crops = k.crops := by
  unfold Core.gateBody Core.init Core.retinex Core.demosaic Core.preprocess Core.preamble
  split_ifs <;> rfl

theorem AppendsIn.weaken {S T : List Stage} {r r' : Run} (h : AppendsIn S r r')
    (hST : ∀ x ∈ S, x ∈ T) : AppendsIn T r r' := by
  obtain ⟨es, h1, h2⟩ := h
  exact ⟨es, h1, fun e he => hST _ (h2 e he)⟩

theorem gateBody_appendsIn (K : Collab) (M : RefreshMap) (N : MethodNames) (hdn : Bool)
    (r : Run) : AppendsIn gateStages r (gateBody K M N hdn r) := by
  unfold gateBody
  simp only [progress_eq]
  exact (((throughInit_appends K M N hdn _ r).weaken (by decide)).seq
    ((hdrStage_appends M _).toIn (by decide))).seq
    (((transformStage_appends K M _).toIn (by decide)).seq
      ((afterTransform_appends K M _).weaken (by decide)))

theorem gateBody_stage (K : Collab) (M : RefreshMap) (N : MethodNames) (hdn : Bool)
    (c : ImProcCoordinator) (todo : Nat) :
    ∀ e ∈ (gateBody K M N hdn ⟨c, todo, []⟩).events, e.stage ∈ gateStages := by
  obtain ⟨es, h1, h2⟩ := gateBody_appendsIn K M N hdn ⟨c, todo, []⟩
  intro e he
  rw [h1] at he
  exact h2 e (by simpa using he)

theorem updatePreviewImage_cropUpdates (K : Collab) (M : RefreshMap) (N : MethodNames)
    (todo : Nat) (pan : Bool) (c : ImProcCoordinator) :
    cropUpdates (updatePreviewImage K M N todo pan c).events
      = dueWindows
          (cropUpdateDue K M pan (highDetailNeeded K M c.crops todo)
            (updatePreviewImage K M N todo pan c).todo)
          (updatePreviewImage K M N todo pan c).todo c.crops 0 := by
  have htodo : ∀ r : Run, r.core.todo = r.todo := fun _ => rfl
  have hcrops : ∀ r : Run, r.core.crops = r.c.crops := fun _ => rfl
  have hpub : ∀ r : Run, cropUpdates (publish K M pan r).1.events = cropUpdates r.events := by
    intro r
    obtain ⟨es, h1, h2⟩ := publish_appends K M pan r
    rw [h1, cropUpdates_append, cropUpdates_eq_nil es (fun e he => by rw [h2 e he]; decide)]
    simp
  have hpt : ∀ r : Run, (publish K M pan r).1.todo = r.todo := by
    intro r
    have := congrArg Core.todo (publish_core K M pan r)
    exact this
  have key : ∀ r1 : Run, cropUpdates r1.events = [] → r1.c.crops = c.crops →
      cropUpdates (if (publish K M pan (cropLoop K M pan (highDetailNeeded K M c.crops todo)
            r1.c.crops 0 r1)).2 ≠ RunEnd.completed then
          (publish K M pan (cropLoop K M pan (highDetailNeeded K M c.crops todo)
            r1.c.crops 0 r1)).1
        else releaseTransformed (publish K M pan (cropLoop K M pan
            (highDetailNeeded K M c.crops todo) r1.c.crops 0 r1)).1).events
        = dueWindows (cropUpdateDue K M pan (highDetailNeeded K M c.crops todo) r1.todo)
            r1.todo c.crops 0
      ∧ (if (publish K M pan (cropLoop K M pan (highDetailNeeded K M c.crops todo)
            r1.c.crops 0 r1)).2 ≠ RunEnd.completed then
          (publish K M pan (cropLoop K M pan (highDetailNeeded K M c.crops todo)
            r1.c.crops 0 r1)).1
        else releaseTransformed (publish K M pan (cropLoop K M pan
            (highDetailNeeded K M c.crops todo) r1.c.crops 0 r1)).1).todo = r1.todo := by
    intro r1 h0 hc
    rw [hc]
    have hlt : (cropLoop K M pan (highDetailNeeded K M c.crops todo) c.crops 0 r1).todo
        = r1.todo := congrArg Core.todo (cropLoop_core K M pan _ c.crops 0 r1)
    split
    · rw [hpub, cropLoop_events, h0, hpt, hlt]
      exact ⟨by simp, rfl⟩
    · rw [releaseTransformed_events, hpub, cropLoop_events, h0]
      refine ⟨by simp, ?_⟩
      have := congrArg Core.todo (releaseTransformed_core
        (publish K M pan (cropLoop K M pan (highDetailNeeded K M c.crops todo)
          c.crops 0 r1)).1)
      rw [htodo, htodo, hpt, hlt] at this
      exact this
  unfold updatePreviewImage
  simp only []
  split
  · have hg := key (gateBody K M N (highDetailNeeded K M c.crops todo) ⟨c, todo, []⟩)
      (cropUpdates_eq_nil _ (fun e he => by
        have := gateBody_stage K M N _ c todo e he
        revert this; generalize e.stage = s; revert s; decide))
      (by
        have := congrArg Core.crops (gateBody_core K M N (highDetailNeeded K M c.crops todo)
          ⟨c, todo, []⟩)
        rw [hcrops, Core.gateBody_crops] at this
        exact this)
    rw [hg.1, hg.2]
  · have hg := key ⟨c, todo, []⟩ rfl rfl
    rw [hg.1, hg.2]

theorem dueWindows_mem (due : Crop → Bool) (todo : Nat) (crops : List Crop) (i j t : Nat) :
    (j, t) ∈ dueWindows due todo crops i
      ↔ t = todo ∧ i ≤ j ∧ ∃ cr, crops[j - i]? = some cr ∧ due cr = true := by
  induction crops generalizing i with
  | nil => simp [dueWindows]
  | cons cr crops ih =>
      unfold dueWindows
      have hstep : (j, t) ∈ dueWindows due todo crops (i + 1)
          ↔ t = todo ∧ i + 1 ≤ j ∧ ∃ cr', (cr :: crops)[j - i]? = some cr' ∧ due cr' = true := by
        rw [ih]
        constructor
        · rintro ⟨h1, h2, cr', h3, h4⟩
          refine ⟨h1, h2, cr', ?_, h4⟩
          have : j - i = (j - (i + 1)) + 1 := by omega
          rw [this, List.getElem?_cons_succ]
          exact h3
        · rintro ⟨h1, h2, cr', h3, h4⟩
          refine ⟨h1, h2, cr', ?_, h4⟩
          have : j - i = (j - (i + 1)) + 1 := by omega
          rw [this, List.getElem?_cons_succ] at h3
          exact h3
      by_cases hd : due cr = true
      · rw [if_pos hd, List.mem_cons, hstep]
        constructor
        · rintro (h | ⟨h1, h2, h3⟩)
          · obtain ⟨rfl, rfl⟩ := Prod.mk.inj h
            exact ⟨rfl, le_refl _, cr, by simp, hd⟩
          · exact ⟨h1, by omega, h3⟩
        · rintro ⟨h1, h2, h3⟩
          by_cases hij : j = i
          · left; rw [hij, h1]
          · right; exact ⟨h1, by omega, h3⟩
      · rw [if_neg hd, hstep]
        constructor
        · rintro ⟨h1, h2, h3⟩
          exact ⟨h1, by omega, h3⟩
        · rintro ⟨h1, h2, cr', h3, h4⟩
          refine ⟨h1, ?_, cr', h3, h4⟩
          by_contra hlt
          have hij : j = i := by omega
          rw [hij] at h3
          simp at h3
          rw [h3] at hd
          exact hd h4

theorem dueWindows_pairwise (due : Crop → Bool) (todo : Nat) (crops : List Crop) (i : Nat) :
    (dueWindows due todo crops i).Pairwise (fun a b => a.1 < b.1) := by
  induction crops generalizing i with
  | nil => simp [dueWindows]
  | cons cr crops ih =>
      unfold dueWindows
      split
      · refine List.Pairwise.cons ?_ (ih (i + 1))
        rintro ⟨j, t⟩ hj
        have := (dueWindows_mem due todo crops (i + 1) j t).mp hj
        simp only []
        omega
      · exact ih (i + 1)

theorem Core.gateBody_todo_mono (M : RefreshMap) (hdn pcv : Bool) (k : Core) (b : Nat)
    (hb : testBits k.todo b = true) : testBits (Core.gateBody M hdn pcv k).todo b = true := by
  unfold Core.gateBody
  simp only [Core.init_todo, Core.retinex_todo, Core.demosaic_todo, Core.preprocess_todo]
  have hp : testBits (Core.preamble M pcv k).todo b = true := by
    unfold Core.preamble
    split
    · show testBits (k.todo ||| M.TRANSFORM) b = true
      rw [testBits_lor_left, hb]; rfl
    · exact hb
  split
  · rw [testBits_lor_left, hp]; rfl
  · exact hp

/-- C15 (amended): in every run of `updatePreviewImage`, the `update` calls
made on the registered crop windows are, in registration order and each
exactly once, those on the windows that have a listener and for which
geometry changed this run, or the run needs full detail
(`highDetailNeeded`) and the preview mode is not Sidecar, or the local `todo`
of the run contains the monitor, RGB-curve or luma-curve bit, or the window's
own skip factor is 1; each is handed the local `todo`, which contains every
bit of the mask of the run; a window without a listener is never updated. -/
theorem crop_fan_out (K : Collab) (M : RefreshMap) (N : MethodNames) (todo : Nat) (pan : Bool)
    (c : ImProcCoordinator) :
    cropUpdates (updatePreviewImage K M N todo pan c).events
        = dueWindows
            (cropUpdateDue K M pan (highDetailNeeded K M c.crops todo)
              (updatePreviewImage K M N todo pan c).todo)
            (updatePreviewImage K M N todo pan c).todo c.crops 0
      ∧ (∀ i t, (i, t) ∈ cropUpdates (updatePreviewImage K M N todo pan c).events
          ↔ t = (updatePreviewImage K M N todo pan c).todo
              ∧ ∃ cr, c.crops[i]? = some cr
                ∧ cropUpdateDue K M pan (highDetailNeeded K M c.crops todo)
                    (updatePreviewImage K M N todo pan c).todo cr = true)
      ∧ (cropUpdates (updatePreviewImage K M N todo pan c).events).Pairwise
          (fun a b => a.1 < b.1)
      ∧ (∀ cr, cr.hasListener = false →
          cropUpdateDue K M pan (highDetailNeeded K M c.crops todo)
            (updatePreviewImage K M N todo pan c).todo cr = false)
      ∧ (∀ b, testBits todo b = true →
          testBits (updatePreviewImage K M N todo pan c).todo b = true) := by
  have h := updatePreviewImage_cropUpdates K M N todo pan c
  refine ⟨h, ?_, ?_, ?_, ?_⟩
  · intro i t
    rw [h, dueWindows_mem]
    simp
  · rw [h]
    exact dueWindows_pairwise _ _ _ _
  · intro cr hl
    simp [cropUpdateDue, hl]
  · intro b hb
    have hc := congrArg Core.todo (updatePreviewImage_core K M N todo pan c)
    have e1 : ∀ r : Run, r.core.todo = r.todo := fun _ => rfl
    rw [e1] at hc
    rw [hc]
    split
    · exact Core.gateBody_todo_mono M _ _ _ b hb
    · exact hb

/-- Counterexample to C15 as stated, for both readings of "the window
currently requires full detail".  Read as the run needing full detail
(`highDetailNeeded`): in preview mode Sidecar, after a first full run, a run
with the mask `M_LUMINANCE` and no geometry change needs full detail, so the
claimed predicate holds of a window with a listener and skip factor 2, but no
`update` call is made.  Read as the window asking for it (skip factor 1): in
preview mode Full, with two windows of skip factors 2 and 1, the claimed
predicate fails for the first window, yet both are updated. -/
theorem crop_update_differs_from_claimed :
    (highDetailNeeded (sampleCollab PrevDemo.PD_Sidecar) refreshMap
        (detailSession PrevDemo.PD_Sidecar [⟨2, true⟩]).crops refreshMap.M_LUMINANCE,
     cropUpdateClaimed refreshMap false true refreshMap.M_LUMINANCE ⟨2, true⟩,
     cropUpdates (updatePreviewImage (sampleCollab PrevDemo.PD_Sidecar) refreshMap methodNames
        refreshMap.M_LUMINANCE false (detailSession PrevDemo.PD_Sidecar [⟨2, true⟩])).events,
     cropUpdateClaimed refreshMap false false refreshMap.M_LUMINANCE ⟨2, true⟩,
     cropUpdates (updatePreviewImage (sampleCollab PrevDemo.PD_Full) refreshMap methodNames
        refreshMap.M_LUMINANCE false
        (detailSession PrevDemo.PD_Full [⟨2, true⟩, ⟨1, true⟩])).events)
      = (true, true, [], false, [(0, 514), (1, 514)]) := by
  decide!

/-! ## What a run publishes -/

theorem updatePreviewImage_eq_outcome (K : Collab) (M : RefreshMap) (N : MethodNames)
    (todo : Nat) (pan : Bool) (c : ImProcCoordinator) :
    updatePreviewImage K M N todo pan c
      = if (publishOutcome K M N todo pan c).2 ≠ RunEnd.completed then (publishOutcome K M N todo pan c).1
        else releaseTransformed (publishOutcome K M N todo pan c).1 := rfl

@[simp] theorem emit_published (r : Run) (e : Event) : (r.emit e).published = r.published := rfl

@[simp] theorem emitAll_published (r : Run) (es : List Event) :
    (r.emitAll es).published = r.published := rfl

@[simp] theorem emitIf_published (r : Run) (b : Bool) (e : Event) :
    (r.emitIf b e).published = r.published := by
  unfold Run.emitIf; split <;> rfl

theorem preprocessStage_published (M : RefreshMap) (hdn : Bool) (rp : RAWParams) (r : Run) :
    (preprocessStage M hdn rp r).published = r.published := by
  unfold preprocessStage
  split <;> simp [Run.published]

theorem gateEntry_published (K : Collab) (M : RefreshMap) (r : Run) :
    (gateEntry K M r).published = r.published := by
  unfold gateEntry
  simp only [progress_eq, emitIf_published]
  split <;> rfl

theorem throughPreprocess_published (K : Collab) (M : RefreshMap) (hdn : Bool)
    (rp : RAWParams) (r : Run) :
    (throughPreprocess K M hdn rp r).published = r.published := by
  unfold throughPreprocess
  simp only [emitIf_published, preprocessStage_published, gateEntry_published]

theorem borderStep_published (N : MethodNames) (r : Run) :
    (borderStep N r).published = r.published := by
  unfold borderStep
  split <;> simp [Run.published]

theorem demosaicStage_published (M : RefreshMap) (N : MethodNames) (hdn : Bool)
    (rp : RAWParams) (r : Run) : (demosaicStage M N hdn rp r).published = r.published := by
  unfold demosaicStage
  split
  · rw [← borderStep_published N r]
    unfold demosaicCall
    simp [Run.published]
  · rfl

theorem retinexStage_published (M : RefreshMap) (r : Run) :
    (retinexStage M r).published = r.published := by
  unfold retinexStage
  split <;> simp [Run.published]

theorem hdrStage_published (M : RefreshMap) (r : Run) :
    (hdrStage M r).published = r.published := by
  unfold hdrStage
  split <;> simp [Run.published]

theorem transformStage_published (K : Collab) (M : RefreshMap) (r : Run) :
    (transformStage K M r).published = r.published := by
  unfold transformStage
  simp only []
  split_ifs <;> simp [Run.published]

theorem cbdlStage_published (M : RefreshMap) (r : Run) :
    (cbdlStage M r).published = r.published := by
  unfold cbdlStage
  split <;> simp [Run.published]

theorem autoExposure_published (K : Collab) (r : Run) :
    (autoExposure K r).published = r.published := by
  unfold autoExposure
  split <;> simp [Run.published]

theorem histogramMatching_published (K : Collab) (r : Run) :
    (histogramMatching K r).published = r.published := by
  unfold histogramMatching
  simp only [emitIf_published]
  split_ifs <;> simp [Run.published]

theorem autoExpStage_published (K : Collab) (M : RefreshMap) (r : Run) :
    (autoExpStage K M r).published = r.published := by
  unfold autoExpStage
  split <;> simp [histogramMatching_published, autoExposure_published]

theorem workingTrcStage_published (M : RefreshMap) (r : Run) :
    (workingTrcStage M r).published = r.published := by
  unfold workingTrcStage
  split <;> simp [Run.published]

theorem rgbCurveStage_published (M : RefreshMap) (r : Run) :
    (rgbCurveStage M r).published = r.published := by
  unfold rgbCurveStage
  simp only []
  split_ifs <;> simp [Run.published]

theorem lumaCurveStage_published (M : RefreshMap) (r : Run) :
    (lumaCurveStage M r).published = r.published := by
  unfold lumaCurveStage
  simp only []
  split_ifs <;> simp [Run.published]

theorem luminanceColorStage_published (K : Collab) (M : RefreshMap) (r : Run) :
    (luminanceColorStage K M r).published = r.published := by
  unfold luminanceColorStage
  simp only []
  split_ifs <;> simp [Run.published]

theorem monitorStage_published (M : RefreshMap) (r : Run) :
    (monitorStage M r).published = r.published := by
  unfold monitorStage
  simp only []
  split <;> simp [Run.published]

theorem afterTransform_published (K : Collab) (M : RefreshMap) (r : Run) :
    (afterTransform K M r).published = r.published := by
  unfold afterTransform
  simp only [progress_eq, monitorStage_published, luminanceColorStage_published,
    lumaCurveStage_published, rgbCurveStage_published, workingTrcStage_published,
    autoExpStage_published, cbdlStage_published]

theorem cropLoop_published (K : Collab) (M : RefreshMap) (pan hdn : Bool) (crops : List Crop)
    (i : Nat) (r : Run) : (cropLoop K M pan hdn crops i r).published = r.published := by
  induction crops generalizing i r with
  | nil => rfl
  | cons cr crops ih => simp [cropLoop, ih]

theorem releaseTransformed_published (r : Run) :
    (releaseTransformed r).published = r.published := by
  unfold releaseTransformed; split <;> rfl

theorem initStage_skipped (K : Collab) (M : RefreshMap) (r : Run)
    (h : testBits r.todo (M.M_INIT ||| M.M_LINDENOISE ||| M.M_HDR) = false) :
    initStage K M r = r := by
  unfold initStage
  rw [if_neg (by rw [h]; exact Bool.false_ne_true)]

theorem initStage_invalidates (K : Collab) (M : RefreshMap) (r : Run)
    (h : testBits r.todo (M.M_INIT ||| M.M_LINDENOISE ||| M.M_HDR) = true) :
    (initStage K M r).c.resultValid = false := by
  unfold initStage
  rw [if_pos h]
  unfold loadPreview
  simp only [emit_c]
  exact (setScale_fields K _ _).2.2.2.2.2

theorem preInit_published (K : Collab) (M : RefreshMap) (N : MethodNames) (hdn : Bool)
    (rp : RAWParams) (r : Run) :
    (retinexStage M (demosaicStage M N hdn rp (throughPreprocess K M hdn rp r))).published
      = r.published := by
  rw [retinexStage_published, demosaicStage_published, throughPreprocess_published]

theorem gateBody_published (K : Collab) (M : RefreshMap) (N : MethodNames) (hdn : Bool)
    (r : Run) :
    (gateBody K M N hdn r).published
      = (throughInit K M N hdn (rawParamsFor N hdn r.c.params.raw) r).published := by
  unfold gateBody
  simp only [progress_eq, afterTransform_published, transformStage_published,
    hdrStage_published]

/-- The body of the outer `if` either skips the init stage, makes no call of
that stage and leaves the published part alone, or executes the init stage,
whose `setScale` call is recorded and clears `resultValid`. -/
theorem gateBody_published_cases (K : Collab) (M : RefreshMap) (N : MethodNames) (hdn : Bool)
    (c : ImProcCoordinator) (todo : Nat) :
    ((gateBody K M N hdn ⟨c, todo, []⟩).published = Run.published ⟨c, todo, []⟩
        ∧ ∀ e ∈ (gateBody K M N hdn ⟨c, todo, []⟩).events, e.stage ≠ Stage.init)
      ∨ ((gateBody K M N hdn ⟨c, todo, []⟩).c.resultValid = false
        ∧ ∃ s, Event.setScale s ∈ (gateBody K M N hdn ⟨c, todo, []⟩).events) := by
  have hpub := gateBody_published K M N hdn ⟨c, todo, []⟩
  obtain ⟨eb, heb⟩ := gateBody_events K M N hdn ⟨c, todo, []⟩
  have hmem : ∀ e : Event, e.stage = Stage.init →
      (e ∈ (gateBody K M N hdn ⟨c, todo, []⟩).events ↔
        e ∈ (throughInit K M N hdn (rawParamsFor N hdn c.params.raw) ⟨c, todo, []⟩).events) :=
    fun e he => gateBody_mem_raw (by rw [he]; decide)
  simp only [] at hpub heb
  generalize rawParamsFor N hdn c.params.raw = rp at hpub heb hmem
  cases ht : testBits (retinexStage M (demosaicStage M N hdn rp
      (throughPreprocess K M hdn rp ⟨c, todo, []⟩))).todo
      (M.M_INIT ||| M.M_LINDENOISE ||| M.M_HDR)
  · left
    constructor
    · rw [hpub]
      unfold throughInit
      rw [initStage_skipped K M _ ht, preInit_published]
    · intro e he hst
      rw [hmem e hst] at he
      unfold throughInit at he
      rw [initStage_skipped K M _ ht,
        (retinexStage_appends M _).mem_iff (by rw [hst]; decide),
        (demosaicStage_appends M N hdn rp _).mem_iff (by rw [hst]; decide)] at he
      obtain ⟨es, h1, h2⟩ := throughPreprocess_appends K M hdn rp ⟨c, todo, []⟩
      rw [h1] at he
      have h3 := h2 e (by simpa using he)
      rw [hst] at h3
      revert h3
      decide
  · right
    constructor
    · have h := congrArg Published.resultValid hpub
      have e1 : ∀ x : Run, x.published.resultValid = x.c.resultValid := fun _ => rfl
      rw [e1, e1] at h
      rw [h]
      unfold throughInit
      exact initStage_invalidates K M _ ht
    · obtain ⟨es, s, h1, h2⟩ := initStage_events K M _ ht
      refine ⟨s, ?_⟩
      rw [heb]
      unfold throughInit
      rw [h1]
      refine List.mem_append_left _ (List.mem_append_right _ ?_)
      exact h2.subset (by simp)

theorem convertPreview_failed (K : Collab) (M : RefreshMap) (r : Run)
    (h : (convertPreview K M r).2 = RunEnd.caught) :
    (convertPreview K M r).1.c = r.c
      ∧ ((K.conversion = Conversion.lab2monitorRgbThrows
            ∧ (convertPreview K M r).1.events = r.events ++ [Event.call Call.lab2monitorRgb])
          ∨ (K.conversion = Conversion.lab2rgbThrows
            ∧ (convertPreview K M r).1.events
                = r.events ++ [Event.call Call.lab2monitorRgb, Event.call Call.lab2rgb])) := by
  unfold convertPreview at h ⊢
  by_cases hcond : (r.todo ≠ M.CROP ∧ r.todo ≠ M.MINUPDATE) ∨ testBits r.todo M.M_MONITOR = true
  · rw [if_pos hcond] at h ⊢
    cases hb : r.c.previmg
    · rw [hb] at h
      exact absurd h (by simp)
    · cases hc : K.conversion
      · rw [hb, hc] at h
        exact absurd h (by simp)
      · simp [progress_eq]
      · simp [progress_eq]
  · rw [if_neg hcond] at h
    exact absurd h (by simp)

theorem publish_failed (K : Collab) (M : RefreshMap) (pan : Bool) (r : Run)
    (h : (publish K M pan r).2 = RunEnd.caught) :
    (publish K M pan r).1.c = r.c
      ∧ ((K.conversion = Conversion.lab2monitorRgbThrows
            ∧ (publish K M pan r).1.events = r.events ++ [Event.call Call.lab2monitorRgb])
          ∨ (K.conversion = Conversion.lab2rgbThrows
            ∧ (publish K M pan r).1.events
                = r.events ++ [Event.call Call.lab2monitorRgb, Event.call Call.lab2rgb])) := by
  unfold publish at h ⊢
  simp only [progress_eq] at h ⊢
  by_cases hp : (pan || testBits r.todo M.M_MONITOR) = true
  · rw [if_pos hp] at h ⊢
    by_cases h2 : (convertPreview K M r).2 ≠ RunEnd.completed
    · rw [if_pos h2] at h ⊢
      exact convertPreview_failed K M r h
    · rw [if_neg h2] at h
      exact absurd h (by simp)
  · rw [if_neg hp] at h
    exact absurd h (by simp)

theorem beforePublish_stage (K : Collab) (M : RefreshMap) (N : MethodNames) (todo : Nat)
    (pan : Bool) (c : ImProcCoordinator) :
    ∀ e ∈ (beforePublish K M N todo pan c).events, e.stage ≠ Stage.publish := by
  have key : ∀ r1 : Run, (∀ e ∈ r1.events, e.stage ∈ gateStages) →
      ∀ e ∈ (cropLoop K M pan (highDetailNeeded K M c.crops todo) r1.c.crops 0 r1).events,
        e.stage ≠ Stage.publish := by
    intro r1 h1 e he
    obtain ⟨es, h2, h3⟩ := cropLoop_appends K M pan (highDetailNeeded K M c.crops todo)
      r1.c.crops 0 r1
    rw [h2] at he
    rcases List.mem_append.mp he with h | h
    · have := h1 e h
      revert this; generalize e.stage = s; revert s; decide
    · rw [h3 e h]; decide
  unfold beforePublish
  simp only []
  split
  · exact key _ (gateBody_stage K M N _ c todo)
  · exact key ⟨c, todo, []⟩ (by simp)

theorem beforePublish_published_cases (K : Collab) (M : RefreshMap) (N : MethodNames)
    (todo : Nat) (pan : Bool) (c : ImProcCoordinator) :
    ((beforePublish K M N todo pan c).published = ⟨c.resultValid, c.previmg, c.workimg⟩
        ∧ ∀ s, Event.setScale s ∉ (beforePublish K M N todo pan c).events)
      ∨ ((beforePublish K M N todo pan c).c.resultValid = false
        ∧ ∃ s, Event.setScale s ∈ (beforePublish K M N todo pan c).events) := by
  have hst : ∀ s, (Event.setScale s).stage = Stage.init := fun _ => rfl
  unfold beforePublish
  simp only []
  split
  · rcases gateBody_published_cases K M N (highDetailNeeded K M c.crops todo) c todo
      with ⟨h, hno⟩ | ⟨h1, s, h2⟩
    · left
      constructor
      · rw [cropLoop_published, h]
        rfl
      · intro s hs
        rw [(cropLoop_appends K M pan _ _ 0 _).mem_iff (by rw [hst]; decide)] at hs
        exact hno _ hs (hst s)
    · right
      constructor
      · have h := congrArg Published.resultValid (cropLoop_published K M pan
          (highDetailNeeded K M c.crops todo)
          (gateBody K M N (highDetailNeeded K M c.crops todo) ⟨c, todo, []⟩).c.crops 0
          (gateBody K M N (highDetailNeeded K M c.crops todo) ⟨c, todo, []⟩))
        have e1 : ∀ x : Run, x.published.resultValid = x.c.resultValid := fun _ => rfl
        rw [e1, e1] at h
        rw [h, h1]
      · exact ⟨s, (cropLoop_appends K M pan _ _ 0 _).mem_of_mem h2⟩
  · left
    constructor
    · rw [cropLoop_published]
      rfl
    · intro s hs
      rw [(cropLoop_appends K M pan _ _ 0 _).mem_iff (by rw [hst]; decide)] at hs
      simp at hs

/-! ## A run whose colour conversion throws (C16, C17, C18) -/

/-- When a conversion throws, the run ends in the state and with the record
it had at the publication point, followed by the conversion calls made. -/
theorem failed_run_shape (K : Collab) (M : RefreshMap) (N : MethodNames) (todo : Nat)
    (pan : Bool) (c : ImProcCoordinator)
    (hfail : (publishOutcome K M N todo pan c).2 = RunEnd.caught) :
    (updatePreviewImage K M N todo pan c).c = (beforePublish K M N todo pan c).c
      ∧ ((K.conversion = Conversion.lab2monitorRgbThrows
            ∧ (updatePreviewImage K M N todo pan c).events
                = (beforePublish K M N todo pan c).events ++ [Event.call Call.lab2monitorRgb])
          ∨ (K.conversion = Conversion.lab2rgbThrows
            ∧ (updatePreviewImage K M N todo pan c).events
                = (beforePublish K M N todo pan c).events
                    ++ [Event.call Call.lab2monitorRgb, Event.call Call.lab2rgb])) := by
  rw [updatePreviewImage_eq_outcome, if_pos (by rw [hfail]; simp)]
  exact publish_failed K M pan _ hfail

/-- C17: if a colour-conversion call (`lab2monitorRgb` or `lab2rgb`) throws
during a run of `updatePreviewImage`, the run stops there: the last call it
records is the conversion call that threw, neither `setImage` nor
`imageReady` nor `updateLRGBHistograms` nor `histogramChanged` is called in
the run, and `resultValid` is not set to true (it is true after the run only
if it was true before). -/
theorem failed_run_not_published (K : Collab) (M : RefreshMap) (N : MethodNames) (todo : Nat)
    (pan : Bool) (c : ImProcCoordinator)
    (hfail : (publishOutcome K M N todo pan c).2 = RunEnd.caught) :
    Event.call Call.setImage ∉ (updatePreviewImage K M N todo pan c).events
      ∧ Event.call Call.imageReady ∉ (updatePreviewImage K M N todo pan c).events
      ∧ Event.call Call.updateLRGBHistograms ∉ (updatePreviewImage K M N todo pan c).events
      ∧ Event.call Call.histogramChanged ∉ (updatePreviewImage K M N todo pan c).events
      ∧ ((updatePreviewImage K M N todo pan c).c.resultValid = true → c.resultValid = true)
      ∧ ((K.conversion = Conversion.lab2monitorRgbThrows
            ∧ (updatePreviewImage K M N todo pan c).events.getLast?
                = some (Event.call Call.lab2monitorRgb))
          ∨ (K.conversion = Conversion.lab2rgbThrows
            ∧ (updatePreviewImage K M N todo pan c).events.getLast?
                = some (Event.call Call.lab2rgb))) := by
  obtain ⟨hc, hev⟩ := failed_run_shape K M N todo pan c hfail
  have hst := beforePublish_stage K M N todo pan c
  have key : ∀ e : Event, e.stage = Stage.publish → e ≠ Event.call Call.lab2monitorRgb →
      e ≠ Event.call Call.lab2rgb → e ∉ (updatePreviewImage K M N todo pan c).events := by
    intro e he h1 h2 hmem
    rcases hev with ⟨-, h⟩ | ⟨-, h⟩
    · rw [h] at hmem
      rcases List.mem_append.mp hmem with hm | hm
      · exact hst e hm he
      · simp only [List.mem_singleton] at hm
        exact h1 hm
    · rw [h] at hmem
      rcases List.mem_append.mp hmem with hm | hm
      · exact hst e hm he
      · simp only [List.mem_cons, List.mem_singleton, List.not_mem_nil, or_false] at hm
        rcases hm with hm | hm
        · exact h1 hm
        · exact h2 hm
  refine ⟨key _ rfl (by decide) (by decide), key _ rfl (by decide) (by decide),
    key _ rfl (by decide) (by decide), key _ rfl (by decide) (by decide), ?_, ?_⟩
  · intro hv
    rw [hc] at hv
    rcases beforePublish_published_cases K M N todo pan c with ⟨h, -⟩ | ⟨h, -⟩
    · have h' := congrArg Published.resultValid h
      have e1 : ∀ x : Run, x.published.resultValid = x.c.resultValid := fun _ => rfl
      rw [e1] at h'
      exact h'.symm.trans hv
    · rw [h] at hv
      exact Bool.noConfusion hv
  · rcases hev with ⟨h0, h⟩ | ⟨h0, h⟩
    · left
      refine ⟨h0, ?_⟩
      rw [h]
      simp
    · right
      refine ⟨h0, ?_⟩
      rw [h]
      simp [List.getLast?_append]

/-- Witness for C17: after a first successful run with image and histogram
listeners registered, a run with the mask `M_MONITOR` in which `lab2rgb`
throws. -/
theorem failed_run_not_published_witness :
    (publishOutcome (conversionCollab Conversion.lab2rgbThrows) refreshMap methodNames
        refreshMap.M_MONITOR false listeningSession).2 = RunEnd.caught
      ∧ listeningSession.listeners.imageListener = true
      ∧ listeningSession.listeners.hListener = true
      ∧ Event.call Call.imageReady
          ∉ (updatePreviewImage (conversionCollab Conversion.lab2rgbThrows) refreshMap
              methodNames refreshMap.M_MONITOR false listeningSession).events
      ∧ Event.call Call.histogramChanged
          ∉ (updatePreviewImage (conversionCollab Conversion.lab2rgbThrows) refreshMap
              methodNames refreshMap.M_MONITOR false listeningSession).events :=
  have hf : (publishOutcome (conversionCollab Conversion.lab2rgbThrows) refreshMap methodNames
      refreshMap.M_MONITOR false listeningSession).2 = RunEnd.caught := by decide!
  have h := failed_run_not_published (conversionCollab Conversion.lab2rgbThrows) refreshMap
    methodNames refreshMap.M_MONITOR false listeningSession hf
  ⟨hf, by decide!, by decide!, h.2.1, h.2.2.2.1⟩

/-- C16 (amended): for every run of `updatePreviewImage` in which a
colour-conversion call throws: if the init stage did not execute in the run
(no `setScale` call), `resultValid` after the run equals its value before
the run and `previmg` is the same buffer as before, and so is `workimg` when
the call that threw is `lab2monitorRgb`; if the init stage did execute,
`resultValid` is false after the run. -/
theorem failed_run_keeps_published (K : Collab) (M : RefreshMap) (N : MethodNames)
    (todo : Nat) (pan : Bool) (c : ImProcCoordinator)
    (hfail : (publishOutcome K M N todo pan c).2 = RunEnd.caught) :
    ((∀ s, Event.setScale s ∉ (updatePreviewImage K M N todo pan c).events) →
        (updatePreviewImage K M N todo pan c).c.resultValid = c.resultValid
          ∧ (updatePreviewImage K M N todo pan c).c.previmg = c.previmg
          ∧ (K.conversion = Conversion.lab2monitorRgbThrows →
              (updatePreviewImage K M N todo pan c).c.workimg = c.workimg))
      ∧ ((∃ s, Event.setScale s ∈ (updatePreviewImage K M N todo pan c).events) →
          (updatePreviewImage K M N todo pan c).c.resultValid = false) := by
  obtain ⟨hc, hev⟩ := failed_run_shape K M N todo pan c hfail
  have hsub : ∀ e, e ∈ (beforePublish K M N todo pan c).events →
      e ∈ (updatePreviewImage K M N todo pan c).events := by
    intro e he
    rcases hev with ⟨-, h⟩ | ⟨-, h⟩ <;> rw [h] <;> exact List.mem_append_left _ he
  have hback : ∀ s, Event.setScale s ∈ (updatePreviewImage K M N todo pan c).events →
      Event.setScale s ∈ (beforePublish K M N todo pan c).events := by
    intro s hs
    rcases hev with ⟨-, h⟩ | ⟨-, h⟩ <;> rw [h] at hs <;>
      rcases List.mem_append.mp hs with hm | hm
    · exact hm
    · simp at hm
    · exact hm
    · simp at hm
  rw [hc]
  constructor
  · intro hno
    rcases beforePublish_published_cases K M N todo pan c with ⟨h, -⟩ | ⟨-, s, hs⟩
    · have h1 := congrArg Published.resultValid h
      have h2 := congrArg Published.previmg h
      have h3 := congrArg Published.workimg h
      exact ⟨h1, h2, fun _ => h3⟩
    · exact absurd (hsub _ hs) (hno s)
  · rintro ⟨s, hs⟩
    have hs' := hback s hs
    rcases beforePublish_published_cases K M N todo pan c with ⟨-, hno⟩ | ⟨h, -⟩
    · exact absurd hs' (hno s)
    · exact h

/-- Counterexample to C16 as stated.  After a first successful run
(`resultValid` true), a run with the mask `ALL` in which `lab2monitorRgb`
throws executes the init stage, whose `setScale` clears `resultValid`: the
flag is false after the run.  And a run with the mask `M_MONITOR` in which
`lab2rgb` throws has by then completed `lab2monitorRgb`, the call that writes
the pixels of `previmg`. -/
theorem failed_run_changes_published :
    (listeningSession.resultValid,
     (publishOutcome (conversionCollab Conversion.lab2monitorRgbThrows) refreshMap methodNames
        refreshMap.ALL false listeningSession).2,
     (updatePreviewImage (conversionCollab Conversion.lab2monitorRgbThrows) refreshMap
        methodNames refreshMap.ALL false listeningSession).c.resultValid,
     (publishOutcome (conversionCollab Conversion.lab2rgbThrows) refreshMap methodNames
        refreshMap.M_MONITOR false listeningSession).2,
     (updatePreviewImage (conversionCollab Conversion.lab2rgbThrows) refreshMap methodNames
        refreshMap.M_MONITOR false listeningSession).events)
      = (true, RunEnd.caught, false, RunEnd.caught,
         [Event.call Call.updateColorProfiles, Event.call Call.lab2monitorRgb,
          Event.call Call.lab2rgb]) := by
  decide!

/-- Witness for C16: after a first successful run, a run with the mask
`M_MONITOR` in which `lab2monitorRgb` throws: the init stage does not
execute, `resultValid` stays true and `previmg` and `workimg` are the buffers
of the first run. -/
theorem failed_run_keeps_published_witness :
    (publishOutcome (conversionCollab Conversion.lab2monitorRgbThrows) refreshMap methodNames
        refreshMap.M_MONITOR false listeningSession).2 = RunEnd.caught
      ∧ (updatePreviewImage (conversionCollab Conversion.lab2monitorRgbThrows) refreshMap
          methodNames refreshMap.M_MONITOR false listeningSession).c.resultValid
          = listeningSession.resultValid
      ∧ (updatePreviewImage (conversionCollab Conversion.lab2monitorRgbThrows) refreshMap
          methodNames refreshMap.M_MONITOR false listeningSession).c.previmg
          = listeningSession.previmg
      ∧ (updatePreviewImage (conversionCollab Conversion.lab2monitorRgbThrows) refreshMap
          methodNames refreshMap.M_MONITOR false listeningSession).c.workimg
          = listeningSession.workimg :=
  have hf : (publishOutcome (conversionCollab Conversion.lab2monitorRgbThrows) refreshMap
      methodNames refreshMap.M_MONITOR false listeningSession).2 = RunEnd.caught := by decide!
  have hev : (updatePreviewImage (conversionCollab Conversion.lab2monitorRgbThrows) refreshMap
      methodNames refreshMap.M_MONITOR false listeningSession).events
      = [Event.call Call.updateColorProfiles, Event.call Call.lab2monitorRgb] := by decide!
  have h := (failed_run_keeps_published (conversionCollab Conversion.lab2monitorRgbThrows)
    refreshMap methodNames refreshMap.M_MONITOR false listeningSession hf).1
      (fun s hs => by rw [hev] at hs; simp at hs)
  ⟨hf, h.1, h.2.1, h.2.2 rfl⟩

theorem updatePreviewImage_listeners (K : Collab) (M : RefreshMap) (N : MethodNames)
    (todo : Nat) (pan : Bool) (c : ImProcCoordinator) :
    (updatePreviewImage K M N todo pan c).c.listeners = c.listeners := by
  have h := congrArg Core.listeners (updatePreviewImage_core K M N todo pan c)
  have e1 : ∀ r : Run, r.core.listeners = r.c.listeners := fun _ => rfl
  rw [e1] at h
  rw [h]
  split
  · unfold Core.gateBody Core.init Core.retinex Core.demosaic Core.preprocess Core.preamble
    split_ifs <;> rfl
  · rfl

/-- C18 (amended): if a colour-conversion call throws during a run of
`updatePreviewImage` and a progress listener is registered, the handler calls
`progress("Error converting file...", 0)`, whose body is disabled: no callback
is invoked and no member changes.  The run ends with the state it had at the
publication point and with the conversion call that threw as its last
recorded call; the progress listener is still registered. -/
theorem failed_run_reports_nothing (K : Collab) (M : RefreshMap) (N : MethodNames)
    (todo : Nat) (pan : Bool) (c : ImProcCoordinator)
    (hfail : (publishOutcome K M N todo pan c).2 = RunEnd.caught)
    (hlistener : c.listeners.plistener = true) :
    (∀ r : Run, progress r = r)
      ∧ (updatePreviewImage K M N todo pan c).c.listeners.plistener = true
      ∧ (updatePreviewImage K M N todo pan c).c = (beforePublish K M N todo pan c).c
      ∧ ((updatePreviewImage K M N todo pan c).events
            = (beforePublish K M N todo pan c).events ++ [Event.call Call.lab2monitorRgb]
          ∨ (updatePreviewImage K M N todo pan c).events
            = (beforePublish K M N todo pan c).events
                ++ [Event.call Call.lab2monitorRgb, Event.call Call.lab2rgb]) := by
  obtain ⟨hc, hev⟩ := failed_run_shape K M N todo pan c hfail
  refine ⟨fun _ => rfl, ?_, hc, ?_⟩
  · rw [updatePreviewImage_listeners, hlistener]
  · rcases hev with ⟨-, h⟩ | ⟨-, h⟩
    · exact Or.inl h
    · exact Or.inr h

/-- Counterexample to C18 as stated: after a first successful run with a
progress listener registered, a run with the mask `M_MONITOR` in which
`lab2rgb` throws records three calls, `updateColorProfiles`, `lab2monitorRgb`
and `lab2rgb`, and no call after the one that threw. -/
theorem failed_run_fires_no_callback :
    (listeningSession.listeners.plistener,
     (publishOutcome (conversionCollab Conversion.lab2rgbThrows) refreshMap methodNames
        refreshMap.M_MONITOR false listeningSession).2,
     (updatePreviewImage (conversionCollab Conversion.lab2rgbThrows) refreshMap methodNames
        refreshMap.M_MONITOR false listeningSession).events.map Event.stage,
     (updatePreviewImage (conversionCollab Conversion.lab2rgbThrows) refreshMap methodNames
        refreshMap.M_MONITOR false listeningSession).events.getLast?)
      = (true, RunEnd.caught, [Stage.monitor, Stage.publish, Stage.publish],
         some (Event.call Call.lab2rgb)) := by
  decide!

/-- Witness for C18: after a first successful run with a progress listener
registered, a run with the mask `M_MONITOR` in which `lab2monitorRgb`
throws. -/
theorem failed_run_reports_nothing_witness :
    (publishOutcome (conversionCollab Conversion.lab2monitorRgbThrows) refreshMap methodNames
        refreshMap.M_MONITOR false listeningSession).2 = RunEnd.caught
      ∧ listeningSession.listeners.plistener = true
      ∧ (updatePreviewImage (conversionCollab Conversion.lab2monitorRgbThrows) refreshMap
          methodNames refreshMap.M_MONITOR false listeningSession).c
          = (beforePublish (conversionCollab Conversion.lab2monitorRgbThrows) refreshMap
              methodNames refreshMap.M_MONITOR false listeningSession).c :=
  have hf : (publishOutcome (conversionCollab Conversion.lab2monitorRgbThrows) refreshMap
      methodNames refreshMap.M_MONITOR false listeningSession).2 = RunEnd.caught := by decide!
  have hl : listeningSession.listeners.plistener = true := by decide!
  ⟨hf, hl, (failed_run_reports_nothing (conversionCollab Conversion.lab2monitorRgbThrows)
    refreshMap methodNames refreshMap.M_MONITOR false listeningSession hf hl).2.2.1⟩

/-! ## The accumulated mask over failed runs and `stopProcessing` (C19, C20) -/

theorem processIteration_changeSinceLast (K : Collab) (M : RefreshMap) (N : MethodNames)
    (arrived : List Submission) (w : Worker) :
    (processIteration K M N arrived w).c.changeSinceLast
      = (arrived.map Submission.bits).foldl (· ||| ·) 0 := by
  unfold processIteration
  simp only []
  split
  · rw [submitAll_changeSinceLast, updatePreviewImage_changeSinceLast]
  · rw [submitAll_changeSinceLast]

theorem process_of_empty (K : Nat → Collab) (M : RefreshMap) (N : MethodNames) (fuel : Nat)
    (c : ImProcCoordinator) (h : c.changeSinceLast = 0) :
    process K M N (fuel + 1) [] c = some ⟨{ c with updaterRunning := false }, 0, []⟩ := by
  unfold process
  rw [processLoop, if_neg (by rw [h]; simp)]
  rfl

theorem finishWorker_loopTest (K : Nat → Collab) (M : RefreshMap) (N : MethodNames)
    (fuel : Nat) (c : ImProcCoordinator) :
    finishWorker K M N fuel WorkerAt.loopTest c = process K M N fuel [] c := rfl

theorem finishWorker_inRun (K : Nat → Collab) (M : RefreshMap) (N : MethodNames) (fuel : Nat)
    (K0 : Collab) (todo : Nat) (pan : Bool) (c : ImProcCoordinator) :
    finishWorker K M N fuel (WorkerAt.inRun K0 todo pan) c
      = process K M N fuel [] (updatePreviewImage K0 M N todo pan c).c := rfl

/-- When the updater runs, `stopProcessing()` returns with an empty
accumulated mask and the worker idle, wherever the worker was. -/
theorem stopProcessing_running (K : Nat → Collab) (M : RefreshMap) (N : MethodNames)
    (fuel : Nat) (wk : WorkerAt) (c : ImProcCoordinator)
    (hrun : c.updaterRunning = true) (hthread : c.thread = true) :
    ∃ c', stopProcessing K M N (fuel + 1) wk c = some c'
      ∧ c'.changeSinceLast = 0 ∧ c'.updaterRunning = false
      ∧ c'.destroying = c.destroying ∧ c'.threadsCreated = c.threadsCreated := by
  unfold stopProcessing
  rw [if_pos (by rw [hrun, hthread]; rfl)]
  cases wk with
  | loopTest =>
      rw [finishWorker_loopTest, process_of_empty K M N fuel _ rfl]
      exact ⟨_, rfl, rfl, rfl, rfl, rfl⟩
  | inRun K0 todo pan =>
      rw [finishWorker_inRun]
      have hs := updatePreviewImage_sched K0 M N todo pan { c with changeSinceLast := 0 }
      rw [process_of_empty K M N fuel _ (congrArg Sched.changeSinceLast hs)]
      exact ⟨_, rfl, congrArg Sched.changeSinceLast hs, rfl, congrArg Sched.destroying hs,
        congrArg Sched.threadsCreated hs⟩

/-- C19 (amended): the accumulated mask holds the bits submitted since the
worker last took the mask or `stopProcessing()` last cleared it.  After a
loop iteration of `process()`, whatever the outcome of its run (also when a
conversion threw), the mask is the union of the masks submitted during the
iteration, the bits of the run itself being gone; and when the updater runs,
`stopProcessing()` returns with the mask empty, whatever was pending. -/
theorem accumulated_mask_rule (K : Collab) (Ks : Nat → Collab) (M : RefreshMap)
    (N : MethodNames) (arrived : List Submission) (w : Worker) (fuel : Nat) (wk : WorkerAt)
    (c : ImProcCoordinator) (hrun : c.updaterRunning = true) (hthread : c.thread = true) :
    (processIteration K M N arrived w).c.changeSinceLast
        = (arrived.map Submission.bits).foldl (· ||| ·) 0
      ∧ ∃ c', stopProcessing Ks M N (fuel + 1) wk c = some c' ∧ c'.changeSinceLast = 0 := by
  refine ⟨processIteration_changeSinceLast K M N arrived w, ?_⟩
  obtain ⟨c', h1, h2, -⟩ := stopProcessing_running Ks M N fuel wk c hrun hthread
  exact ⟨c', h1, h2⟩

/-- Counterexample to C19 as stated.  The worker takes the mask `M_MONITOR`
and `lab2rgb` throws in the run: after the iteration the accumulated mask is
empty, although the run was aborted.  And `stopProcessing()`, called during a
run while `M_RGBCURVE` is pending, returns with the accumulated mask
empty. -/
theorem mask_drops_stale_bits :
    ((submit listeningSession (Submission.start refreshMap.M_MONITOR)).changeSinceLast,
     (processIteration (conversionCollab Conversion.lab2rgbThrows) refreshMap methodNames []
        ⟨submit listeningSession (Submission.start refreshMap.M_MONITOR), 0, []⟩).calls.map
          (fun call => call.events.getLast?),
     (processIteration (conversionCollab Conversion.lab2rgbThrows) refreshMap methodNames []
        ⟨submit listeningSession (Submission.start refreshMap.M_MONITOR), 0, []⟩).c.changeSinceLast,
     (submit runningSession (Submission.start refreshMap.M_RGBCURVE)).changeSinceLast,
     (stopProcessing (fun _ => sampleCollab PrevDemo.PD_Full) refreshMap methodNames 1
        (WorkerAt.inRun (sampleCollab PrevDemo.PD_Full) refreshMap.M_MONITOR false)
        (submit runningSession (Submission.start refreshMap.M_RGBCURVE))).map
          (fun c => c.changeSinceLast))
      = (refreshMap.M_MONITOR, [some (Event.call Call.lab2rgb)], 0,
         refreshMap.M_RGBCURVE, some 0) := by
  decide!

/-- Witness for C19: the worker of the sample session is inside a run while
`M_RGBCURVE` is pending. -/
theorem accumulated_mask_rule_witness :
    (submit runningSession (Submission.start refreshMap.M_RGBCURVE)).updaterRunning = true
      ∧ (submit runningSession (Submission.start refreshMap.M_RGBCURVE)).thread = true
      ∧ ∃ c', stopProcessing (fun _ => sampleCollab PrevDemo.PD_Full) refreshMap methodNames 1
            (WorkerAt.inRun (sampleCollab PrevDemo.PD_Full) refreshMap.M_MONITOR false)
            (submit runningSession (Submission.start refreshMap.M_RGBCURVE)) = some c'
          ∧ c'.changeSinceLast = 0 :=
  have h1 : (submit runningSession (Submission.start refreshMap.M_RGBCURVE)).updaterRunning
      = true := by decide!
  have h2 : (submit runningSession (Submission.start refreshMap.M_RGBCURVE)).thread = true := by
    decide!
  ⟨h1, h2, (accumulated_mask_rule (sampleCollab PrevDemo.PD_Full)
    (fun _ => sampleCollab PrevDemo.PD_Full) refreshMap methodNames []
    ⟨runningSession, 0, []⟩ 0
    (WorkerAt.inRun (sampleCollab PrevDemo.PD_Full) refreshMap.M_MONITOR false)
    (submit runningSession (Submission.start refreshMap.M_RGBCURVE)) h1 h2).2⟩

theorem startProcessing_idle (c : ImProcCoordinator) (hd : c.destroying = false)
    (hr : c.updaterRunning = false) :
    startProcessing c
      = { c with updaterRunning := true, thread := true,
                 threadsCreated := c.threadsCreated + 1 } := by
  unfold startProcessing
  rw [if_pos (by rw [hd]; rfl), if_pos (by rw [hr]; rfl)]

/-- C20 (amended): `stopProcessing()` stops the worker but does not prevent
new runs.  When it returns the worker is idle and, if the updater was
running, the accumulated mask is empty; unless the coordinator is being
destroyed, a subsequent `endUpdateParams(bits)` or `startProcessing(bits)`
then takes the worker from idle to running, creating a new thread, and
`process()` calls `updatePreviewImage` once, with the accumulated mask, when
`bits` holds a stage bit. -/
theorem stop_then_submit (K : Nat → Collab) (M : RefreshMap) (N : MethodNames) (fuel : Nat)
    (wk : WorkerAt) (c : ImProcCoordinator) (bits : Nat)
    (hthread : c.updaterRunning = true → c.thread = true) (hd : c.destroying = false)
    (hbits : testBits bits (M.M_VOID - 1) = true) :
    ∃ c', stopProcessing K M N (fuel + 1) wk c = some c'
      ∧ c'.updaterRunning = false
      ∧ (c.updaterRunning = true → c'.changeSinceLast = 0)
      ∧ (endUpdateParams bits c').updaterRunning = true
      ∧ (endUpdateParams bits c').threadsCreated = c.threadsCreated + 1
      ∧ (startProcessingWith bits c').updaterRunning = true
      ∧ (startProcessingWith bits c').threadsCreated = c.threadsCreated + 1
      ∧ ∃ w, process K M N (fuel + 2) [] (endUpdateParams bits c') = some w
          ∧ w.calls.map (fun call => call.todo) = [c'.changeSinceLast ||| bits] := by
  have main : ∀ c' : ImProcCoordinator, c'.updaterRunning = false → c'.destroying = false →
      c'.threadsCreated = c.threadsCreated →
      (endUpdateParams bits c').updaterRunning = true
      ∧ (endUpdateParams bits c').threadsCreated = c.threadsCreated + 1
      ∧ (startProcessingWith bits c').updaterRunning = true
      ∧ (startProcessingWith bits c').threadsCreated = c.threadsCreated + 1
      ∧ ∃ w, process K M N (fuel + 2) [] (endUpdateParams bits c') = some w
          ∧ w.calls.map (fun call => call.todo) = [c'.changeSinceLast ||| bits] := by
    intro c' hr hd' ht
    have hs : endUpdateParams bits c'
        = { c' with changeSinceLast := c'.changeSinceLast ||| bits, updaterRunning := true,
                    thread := true, threadsCreated := c'.threadsCreated + 1 } := by
      unfold endUpdateParams
      exact startProcessing_idle { c' with changeSinceLast := c'.changeSinceLast ||| bits }
        hd' hr
    have hs' : startProcessingWith bits c' = endUpdateParams bits c' := rfl
    rw [hs', hs]
    refine ⟨rfl, by simp [ht], rfl, by simp [ht], ?_⟩
    have hb : testBits (c'.changeSinceLast ||| bits) (M.M_VOID - 1) = true := by
      rw [testBits_lor_left, hbits]
      simp
    unfold process
    rw [processLoop_quiet K M N fuel _ hb]
    refine ⟨_, rfl, ?_⟩
    have hq := (processIteration_quiet (K 0) M N
      ⟨{ c' with changeSinceLast := c'.changeSinceLast ||| bits, updaterRunning := true,
                 thread := true, threadsCreated := c'.threadsCreated + 1 }, 0, []⟩ hb).2.1
    have := congrArg (List.map Prod.fst) hq
    simpa [List.map_map] using this
  cases hrun : c.updaterRunning
  · refine ⟨c, ?_, hrun, fun h => Bool.noConfusion h, main c hrun hd rfl⟩
    unfold stopProcessing
    rw [if_neg (by rw [hrun]; simp)]
  · obtain ⟨c', h1, h2, h3, h4, h5⟩ :=
      stopProcessing_running K M N fuel wk c hrun (hthread hrun)
    exact ⟨c', h1, h3, fun _ => h2, main c' h3 (by rw [h4, hd]) h5⟩

/-- Counterexample to C20 as stated: `stopProcessing()` is called while the
worker of the sample session is inside a run; after it has returned,
`endUpdateParams(M_MONITOR)` marks the updater running again and creates a
second thread, and `process()` calls `updatePreviewImage` with the mask
`M_MONITOR`. -/
theorem run_after_stop :
    ((stopProcessing (fun _ => sampleCollab PrevDemo.PD_Full) refreshMap methodNames 1
        (WorkerAt.inRun (sampleCollab PrevDemo.PD_Full) refreshMap.M_MONITOR false)
        runningSession).map
      (fun c => (c.updaterRunning, c.threadsCreated,
        (endUpdateParams refreshMap.M_MONITOR c).updaterRunning,
        (endUpdateParams refreshMap.M_MONITOR c).threadsCreated,
        (process (fun _ => sampleCollab PrevDemo.PD_Full) refreshMap methodNames 2 []
          (endUpdateParams refreshMap.M_MONITOR c)).map
            (fun w => w.calls.map (fun call => call.todo)))))
      = some (false, 1, true, 2, some [refreshMap.M_MONITOR]) := by
  decide!

/-- Witness for C20: `stopProcessing()` during a run of the sample session,
then `endUpdateParams(M_MONITOR)`. -/
theorem stop_then_submit_witness :
    runningSession.destroying = false
      ∧ testBits refreshMap.M_MONITOR (refreshMap.M_VOID - 1) = true
      ∧ ∃ c', stopProcessing (fun _ => sampleCollab PrevDemo.PD_Full) refreshMap methodNames 1
            (WorkerAt.inRun (sampleCollab PrevDemo.PD_Full) refreshMap.M_MONITOR false)
            runningSession = some c'
          ∧ c'.updaterRunning = false
          ∧ (endUpdateParams refreshMap.M_MONITOR c').updaterRunning = true :=
  have hd : runningSession.destroying = false := by decide!
  have ht : runningSession.updaterRunning = true → runningSession.thread = true :=
    fun _ => by decide!
  have h := stop_then_submit (fun _ => sampleCollab PrevDemo.PD_Full) refreshMap methodNames 0
    (WorkerAt.inRun (sampleCollab PrevDemo.PD_Full) refreshMap.M_MONITOR false)
    runningSession refreshMap.M_MONITOR ht hd (by decide)
  ⟨hd, by decide, h.elim fun c' hc => ⟨c', hc.1, hc.2.1, hc.2.2.2.1⟩⟩

/-! ## A monitor edit (C11) -/

theorem testBits_lor_right {a b c : Nat} :
    testBits a (b ||| c) = (testBits a b || testBits a c) := by
  have h1 : testBits a (b ||| c) = testBits (b ||| c) a := by
    unfold testBits; rw [Nat.land_comm]
  have h2 : testBits a b = testBits b a := by unfold testBits; rw [Nat.land_comm]
  have h3 : testBits a c = testBits c a := by unfold testBits; rw [Nat.land_comm]
  rw [h1, h2, h3, testBits_lor_left]

theorem testBits_self {a : Nat} (h : a ≠ 0) : testBits a a = true := by
  unfold testBits
  rw [Nat.and_self]
  simpa using h

theorem preprocessStage_skip (M : RefreshMap) (hdn : Bool) (rp : RAWParams) (r : Run)
    (h : testBits r.todo M.M_PREPROC = false)
    (hd : (!r.c.highDetailPreprocessComputed && hdn) = false) :
    preprocessStage M hdn rp r = r := by
  unfold preprocessStage
  rw [if_neg (by rw [h, hd]; simp)]

theorem demosaicStage_skip (M : RefreshMap) (N : MethodNames) (hdn : Bool) (rp : RAWParams)
    (r : Run) (h : demosaicNeeded M hdn r = false) : demosaicStage M N hdn rp r = r := by
  unfold demosaicStage
  simp [h]

theorem retinexStage_skip (M : RefreshMap) (r : Run)
    (h : testBits r.todo (M.M_RETINEX ||| M.M_INIT) = false) : retinexStage M r = r := by
  unfold retinexStage
  simp [h]

theorem cbdlStage_skip (M : RefreshMap) (r : Run)
    (h : testBits r.todo (M.M_TRANSFORM ||| M.M_RGBCURVE) = false) : cbdlStage M r = r := by
  unfold cbdlStage cbdlBefore
  simp [h]

theorem autoExpStage_skip (K : Collab) (M : RefreshMap) (r : Run)
    (h : testBits r.todo M.M_AUTOEXP = false) : autoExpStage K M r = r := by
  unfold autoExpStage
  simp [h]

theorem workingTrcStage_skip (M : RefreshMap) (r : Run)
    (h : testBits r.todo (M.M_AUTOEXP ||| M.M_RGBCURVE) = false) : workingTrcStage M r = r := by
  unfold workingTrcStage
  simp [h]

theorem rgbCurveStage_skip (M : RefreshMap) (r : Run)
    (h1 : testBits r.todo M.M_RGBCURVE = false) (h2 : testBits r.todo M.M_CROP = false) :
    rgbCurveStage M r = r := by
  unfold rgbCurveStage
  simp [h1, h2]

theorem lumaCurveStage_skip (M : RefreshMap) (r : Run)
    (h1 : testBits r.todo (M.M_LUMACURVE ||| M.M_CROP) = false)
    (h2 : testBits r.todo M.M_LUMACURVE = false) : lumaCurveStage M r = r := by
  unfold lumaCurveStage
  simp [h1, h2, Run.emitIf]

theorem luminanceColorStage_skip (K : Collab) (M : RefreshMap) (r : Run)
    (h : testBits r.todo (M.M_LUMINANCE + M.M_COLOR) = false) :
    luminanceColorStage K M r = r := by
  unfold luminanceColorStage
  simp [h]

theorem hdrStage_skip (M : RefreshMap) (r : Run) (h : testBits r.todo M.M_HDR = false) :
    (hdrStage M r).events = r.events ∧ (hdrStage M r).todo = r.todo
      ∧ (hdrStage M r).c.params = r.c.params ∧ (hdrStage M r).c.listeners = r.c.listeners
      ∧ (hdrStage M r).c.resultValid = r.c.resultValid
      ∧ (hdrStage M r).c.crops = r.c.crops := by
  unfold hdrStage
  simp [h]

theorem monitorStage_run (M : RefreshMap) (r : Run) (h : testBits r.todo M.M_MONITOR = true) :
    (monitorStage M r).events = r.events ++ [Event.call Call.updateColorProfiles]
      ∧ (monitorStage M r).todo = r.todo
      ∧ (monitorStage M r).c.listeners = r.c.listeners
      ∧ (monitorStage M r).c.resultValid = r.c.resultValid
      ∧ (monitorStage M r).c.crops = r.c.crops := by
  unfold monitorStage
  simp [h]

/-- The run of a monitor edit up to the crop loop. -/
theorem monitor_edit_gateBody (K : Collab) (M : RefreshMap) (N : MethodNames) (hdn : Bool)
    (c : ImProcCoordinator)
    (hpre : (!c.highDetailPreprocessComputed && hdn) = false)
    (hraw : (!c.highDetailRawComputed && hdn) = false)
    (hiso : testBits M.M_MONITOR M.otherStageBits = false)
    (hmon : M.M_MONITOR ≠ 0) (hcropmask : M.M_MONITOR ≠ M.CROP)
    (htr : K.needsTransform c.params = false)
    (hhlr1 : (c.params.toneCurve.hrenabled && c.params.toneCurve.method != "Color"
      && c.imgsrc.rgbSourceModified) = false)
    (hhlr2 : (!c.params.toneCurve.hrenabled && c.params.toneCurve.method == "Color"
      && c.imgsrc.rgbSourceModified) = false) :
    (gateBody K M N hdn ⟨c, M.M_MONITOR, []⟩).events
        = (if c.listeners.frameCountListener then
            [Event.FrameCountChanged c.params.raw.bayersensor.imageNum] else [])
          ++ (if c.listeners.imageTypeListener then [Event.call Call.imageTypeChanged] else [])
          ++ [Event.call Call.updateColorProfiles]
      ∧ (gateBody K M N hdn ⟨c, M.M_MONITOR, []⟩).todo = M.M_MONITOR
      ∧ (gateBody K M N hdn ⟨c, M.M_MONITOR, []⟩).c.listeners = c.listeners
      ∧ (gateBody K M N hdn ⟨c, M.M_MONITOR, []⟩).c.resultValid = c.resultValid
      ∧ (gateBody K M N hdn ⟨c, M.M_MONITOR, []⟩).c.crops = c.crops := by
  simp only [RefreshMap.otherStageBits, testBits_lor_right, Bool.or_eq_false_iff] at hiso
  obtain ⟨⟨⟨⟨⟨⟨⟨⟨⟨⟨⟨⟨b1, b2⟩, b3⟩, b4⟩, b5⟩, b6⟩, b7⟩, b8⟩, b9⟩, b10⟩, b11⟩, b12⟩, b13⟩ := hiso
  have e1 : gateEntry K M ⟨c, M.M_MONITOR, []⟩
      = (⟨c, M.M_MONITOR, []⟩ : Run).emitIf c.listeners.frameCountListener
          (Event.FrameCountChanged c.params.raw.bayersensor.imageNum) := by
    unfold gateEntry
    simp only [progress_eq]
    rw [if_neg (fun h => hcropmask h.1)]
  have e2 : ∀ rp, throughPreprocess K M hdn rp ⟨c, M.M_MONITOR, []⟩
      = ((⟨c, M.M_MONITOR, []⟩ : Run).emitIf c.listeners.frameCountListener
          (Event.FrameCountChanged c.params.raw.bayersensor.imageNum)).emitIf
            c.listeners.imageTypeListener (Event.call Call.imageTypeChanged) := by
    intro rp
    unfold throughPreprocess
    simp only []
    rw [e1, preprocessStage_skip M hdn rp _ (by simpa using b2) (by simpa using hpre)]
    simp
  have e3 : ∀ rp, throughInit K M N hdn rp ⟨c, M.M_MONITOR, []⟩
      = ((⟨c, M.M_MONITOR, []⟩ : Run).emitIf c.listeners.frameCountListener
          (Event.FrameCountChanged c.params.raw.bayersensor.imageNum)).emitIf
            c.listeners.imageTypeListener (Event.call Call.imageTypeChanged) := by
    intro rp
    unfold throughInit
    rw [e2, demosaicStage_skip M N hdn rp _ (by
        simp only [demosaicNeeded, emitIf_todo, emitIf_c, b3, hraw, hhlr1, hhlr2]
        rfl),
      retinexStage_skip M _ (by simp [testBits_lor_right, b4, b5]),
      initStage_skipped K M _ (by simp [testBits_lor_right, b5, b6, b7])]
  unfold gateBody
  simp only [progress_eq]
  rw [e3]
  have ha1 : (((⟨c, M.M_MONITOR, []⟩ : Run).emitIf c.listeners.frameCountListener
      (Event.FrameCountChanged c.params.raw.bayersensor.imageNum)).emitIf
        c.listeners.imageTypeListener (Event.call Call.imageTypeChanged)).todo
      = M.M_MONITOR := by simp
  have ha2 : (((⟨c, M.M_MONITOR, []⟩ : Run).emitIf c.listeners.frameCountListener
      (Event.FrameCountChanged c.params.raw.bayersensor.imageNum)).emitIf
        c.listeners.imageTypeListener (Event.call Call.imageTypeChanged)).c = c := by simp
  have ha3 : (((⟨c, M.M_MONITOR, []⟩ : Run).emitIf c.listeners.frameCountListener
      (Event.FrameCountChanged c.params.raw.bayersensor.imageNum)).emitIf
        c.listeners.imageTypeListener (Event.call Call.imageTypeChanged)).events
      = (if c.listeners.frameCountListener then
            [Event.FrameCountChanged c.params.raw.bayersensor.imageNum] else [])
          ++ (if c.listeners.imageTypeListener then [Event.call Call.imageTypeChanged]
              else []) := by simp
  generalize ((⟨c, M.M_MONITOR, []⟩ : Run).emitIf c.listeners.frameCountListener
      (Event.FrameCountChanged c.params.raw.bayersensor.imageNum)).emitIf
        c.listeners.imageTypeListener (Event.call Call.imageTypeChanged) = ra at ha1 ha2 ha3
  obtain ⟨h1, h2, h3, h4, h5, h6⟩ := hdrStage_skip M ra (by rw [ha1]; exact b7)
  rw [transformStage_skipped K M (hdrStage M ra) (by rw [h3, ha2]; exact htr)
    (by rw [h2, ha1, testBits_lor_right, b8, b9]; rfl)]
  unfold afterTransform
  simp only [progress_eq]
  generalize hdrStage M ra = rb at h1 h2 h3 h4 h5 h6
  have hb : rb.todo = M.M_MONITOR := h2.trans ha1
  rw [cbdlStage_skip M rb (by rw [hb, testBits_lor_right, b8, b9]; rfl),
    autoExpStage_skip K M rb (by rw [hb]; exact b10),
    workingTrcStage_skip M rb (by rw [hb, testBits_lor_right, b10, b9]; rfl),
    rgbCurveStage_skip M rb (by rw [hb]; exact b9) (by rw [hb]; exact b11),
    lumaCurveStage_skip M rb (by rw [hb, testBits_lor_right, b12, b11]; rfl)
      (by rw [hb]; exact b12),
    luminanceColorStage_skip K M rb (by rw [hb]; exact b13)]
  obtain ⟨m1, m2, m3, m4, m5⟩ := monitorStage_run M rb (by rw [hb]; exact testBits_self hmon)
  refine ⟨?_, m2.trans hb, ?_, ?_, ?_⟩
  · rw [m1, h1, ha3]
  · rw [m3, h4, ha2]
  · rw [m4, h5, ha2]
  · rw [m5, h6, ha2]

/-- The publication point when the conversion succeeds. -/
theorem publish_ok (K : Collab) (M : RefreshMap) (pan : Bool) (r : Run)
    (h : testBits r.todo M.M_MONITOR = true) (hbuf : r.c.previmg ≠ none)
    (hconv : K.conversion = Conversion.ok) :
    (publish K M pan r).2 = RunEnd.completed
      ∧ (publish K M pan r).1.events
          = r.events ++ [Event.call Call.lab2monitorRgb, Event.call Call.lab2rgb]
            ++ (if !r.c.resultValid && r.c.listeners.imageListener then
                  [Event.call Call.setImage] else [])
            ++ (if r.c.listeners.imageListener then [Event.call Call.imageReady] else [])
            ++ (if r.c.listeners.hListener then
                  [Event.call Call.updateLRGBHistograms, Event.call Call.histogramChanged]
                else [])
      ∧ (publish K M pan r).1.c.resultValid = true := by
  have hcv : convertPreview K M r
      = ({ (r.emit (Event.call Call.lab2monitorRgb)).emit (Event.call Call.lab2rgb) with
            c := { r.c with workimg := some ⟨r.c.nextId, r.c.pW, r.c.pH⟩,
                            nextId := r.c.nextId + 1 } }, RunEnd.completed) := by
    unfold convertPreview
    rw [if_pos (Or.inr h)]
    split
    · rename_i hnone
      exact absurd hnone hbuf
    · rw [hconv]
      rfl
  unfold publish
  simp only [progress_eq]
  rw [if_pos (by rw [h]; simp), hcv]
  simp only [ne_eq, not_true_eq_false, if_false]
  unfold announce
  cases hv : r.c.resultValid <;> cases hi : r.c.listeners.imageListener <;>
    cases hh : r.c.listeners.hListener <;> simp [Run.emitIf, Run.emit, hv, hi, hh]

/-- C11 (amended): for a refresh map in which the monitor bit is a bit of
its own, when full detail is not newly required (the preview mode is not
Sidecar, or both detail memos are set), with no crop window registered,
parameters that need no geometric transform, no re-demosaic pending from
highlight reconstruction, the preview buffers allocated by an earlier run
(`previmg` is not null) and a conversion that succeeds, a run of
`updatePreviewImage` with the mask `M_MONITOR` and no geometry change
completes and makes exactly these calls, in order: the frame-count and image-type notifications
(if listened to), `updateColorProfiles`, `lab2monitorRgb`, `lab2rgb`,
`setImage` (if the result was not valid) and `imageReady` (if an image
listener is registered), and `updateLRGBHistograms` with `histogramChanged`
(if a histogram listener is registered).  `histogramChanged` is called
exactly once with a histogram listener, and neither `preprocess` nor
`demosaic` is called. -/
theorem monitor_edit (K : Collab) (M : RefreshMap) (N : MethodNames) (c : ImProcCoordinator)
    (hiso : testBits M.M_MONITOR M.otherStageBits = false)
    (hmon : M.M_MONITOR ≠ 0) (hcropmask : M.M_MONITOR ≠ M.CROP)
    (hdetail : K.prevdemo = PrevDemo.PD_Sidecar →
      c.highDetailPreprocessComputed = true ∧ c.highDetailRawComputed = true)
    (hcrops : c.crops = [])
    (htr : K.needsTransform c.params = false)
    (hhlr1 : (c.params.toneCurve.hrenabled && c.params.toneCurve.method != "Color"
      && c.imgsrc.rgbSourceModified) = false)
    (hhlr2 : (!c.params.toneCurve.hrenabled && c.params.toneCurve.method == "Color"
      && c.imgsrc.rgbSourceModified) = false)
    (hbuf : c.previmg ≠ none)
    (hconv : K.conversion = Conversion.ok) :
    (publishOutcome K M N M.M_MONITOR false c).2 = RunEnd.completed
      ∧ (updatePreviewImage K M N M.M_MONITOR false c).events
        = monitorEditCalls c.listeners c.params.raw.bayersensor.imageNum c.resultValid
      ∧ (updatePreviewImage K M N M.M_MONITOR false c).events.count
            (Event.call Call.histogramChanged)
          = (if c.listeners.hListener then 1 else 0)
      ∧ (∀ rp l co, Event.preprocess rp l co
          ∉ (updatePreviewImage K M N M.M_MONITOR false c).events)
      ∧ (∀ rp a t, Event.demosaic rp a t
          ∉ (updatePreviewImage K M N M.M_MONITOR false c).events) := by
  have hb1 : testBits M.M_MONITOR M.M_HIGHQUAL = false := by
    have h := hiso
    simp only [RefreshMap.otherStageBits, testBits_lor_right, Bool.or_eq_false_iff] at h
    exact h.1.1.1.1.1.1.1.1.1.1.1.1
  have hpre : (!c.highDetailPreprocessComputed
      && highDetailNeeded K M c.crops M.M_MONITOR) = false := by
    by_cases hm : K.prevdemo = PrevDemo.PD_Sidecar
    · rw [(hdetail hm).1]; rfl
    · rw [(highDetailNeeded_eq_false_iff K M c.crops M.M_MONITOR).mpr
        ⟨hm, hb1, by rw [hcrops]; rfl⟩]
      simp
  have hraw : (!c.highDetailRawComputed
      && highDetailNeeded K M c.crops M.M_MONITOR) = false := by
    by_cases hm : K.prevdemo = PrevDemo.PD_Sidecar
    · rw [(hdetail hm).2]; rfl
    · rw [(highDetailNeeded_eq_false_iff K M c.crops M.M_MONITOR).mpr
        ⟨hm, hb1, by rw [hcrops]; rfl⟩]
      simp
  have hgate : outerGate K M M.M_MONITOR false (highDetailNeeded K M c.crops M.M_MONITOR)
      = true := by
    simp [outerGate, testBits_self hmon]
  obtain ⟨g1, g2, g3, g4, g5⟩ :=
    monitor_edit_gateBody K M N (highDetailNeeded K M c.crops M.M_MONITOR) c hpre hraw hiso hmon
      hcropmask htr hhlr1 hhlr2
  have hprev : (gateBody K M N (highDetailNeeded K M c.crops M.M_MONITOR)
      ⟨c, M.M_MONITOR, []⟩).c.previmg = c.previmg := by
    rcases gateBody_published_cases K M N (highDetailNeeded K M c.crops M.M_MONITOR) c
      M.M_MONITOR with ⟨h, -⟩ | ⟨-, s, hs⟩
    · exact congrArg Published.previmg h
    · rw [g1] at hs
      exfalso
      cases c.listeners.frameCountListener <;> cases c.listeners.imageTypeListener <;>
        simp at hs
  have hend : (publishOutcome K M N M.M_MONITOR false c).2 = RunEnd.completed := by
    unfold publishOutcome beforePublish
    simp only [hgate, if_true]
    rw [g5, hcrops]
    simp only [cropLoop]
    exact (publish_ok K M false
      (gateBody K M N (highDetailNeeded K M [] M.M_MONITOR) ⟨c, M.M_MONITOR, []⟩)
      (by rw [← hcrops, g2]; exact testBits_self hmon)
      (by rw [← hcrops, hprev]; exact hbuf) hconv).1
  have hev : (updatePreviewImage K M N M.M_MONITOR false c).events
      = monitorEditCalls c.listeners c.params.raw.bayersensor.imageNum c.resultValid := by
    unfold updatePreviewImage
    simp only [hgate, if_true]
    rw [g5, hcrops]
    simp only [cropLoop]
    obtain ⟨p1, p2, -⟩ := publish_ok K M false
      (gateBody K M N (highDetailNeeded K M [] M.M_MONITOR) ⟨c, M.M_MONITOR, []⟩)
      (by rw [← hcrops, g2]; exact testBits_self hmon)
      (by rw [← hcrops, hprev]; exact hbuf) hconv
    rw [p1]
    simp only [ne_eq, not_true_eq_false, if_false]
    rw [releaseTransformed_events, p2]
    rw [← hcrops, g1, g3, g4]
    unfold monitorEditCalls
    simp
  refine ⟨hend, hev, ?_, ?_, ?_⟩
  · rw [hev]
    unfold monitorEditCalls
    cases c.listeners.frameCountListener <;> cases c.listeners.imageTypeListener <;>
      cases c.resultValid <;> cases c.listeners.imageListener <;>
      cases c.listeners.hListener <;> simp
  · intro rp l co
    rw [hev]
    unfold monitorEditCalls
    cases c.listeners.frameCountListener <;> cases c.listeners.imageTypeListener <;>
      cases c.resultValid <;> cases c.listeners.imageListener <;>
      cases c.listeners.hListener <;> simp
  · intro rp a t
    rw [hev]
    unfold monitorEditCalls
    cases c.listeners.frameCountListener <;> cases c.listeners.imageTypeListener <;>
      cases c.resultValid <;> cases c.listeners.imageListener <;>
      cases c.listeners.hListener <;> simp

/-- Counterexample to C11 as stated, three runs with the mask `M_MONITOR`,
no geometry change and no crop window, each after a first full run in
preview mode Full.  With the preview mode then set to Sidecar, full detail is
newly required and the run calls `preprocess` and `demosaic`.  With a
rotation in the parameters, the run executes the geometry-transform stage.
With a histogram listener registered and `lab2rgb` throwing, the run does not
call `histogramChanged`. -/
theorem monitor_edit_runs_other_stages :
    ((updatePreviewImage (sampleCollab PrevDemo.PD_Sidecar) refreshMap methodNames
        refreshMap.M_MONITOR false (firstRun sampleParams).c).events.any Event.isPreprocess,
     (updatePreviewImage (sampleCollab PrevDemo.PD_Sidecar) refreshMap methodNames
        refreshMap.M_MONITOR false (firstRun sampleParams).c).events.any Event.isDemosaic,
     transformCalls (updatePreviewImage (sampleCollab PrevDemo.PD_Full) refreshMap methodNames
        refreshMap.M_MONITOR false (firstRun rotatedParams).c).events,
     listeningSession.listeners.hListener,
     (updatePreviewImage (conversionCollab Conversion.lab2rgbThrows) refreshMap methodNames
        refreshMap.M_MONITOR false listeningSession).events.count
          (Event.call Call.histogramChanged),
     (firstRun sampleParams).c.crops.length + (firstRun rotatedParams).c.crops.length
       + listeningSession.crops.length)
      = (true, true, [Event.newImagefloat ⟨7, 571, 428⟩, Event.call Call.transform],
         true, 0, 0) := by
  decide!

/-- Witness for C11: after a first successful full run with image and
histogram listeners registered, a run with the mask `M_MONITOR`. -/
theorem monitor_edit_witness :
    testBits refreshMap.M_MONITOR refreshMap.otherStageBits = false
      ∧ listeningSession.crops = []
      ∧ (publishOutcome (sampleCollab PrevDemo.PD_Full) refreshMap methodNames
          refreshMap.M_MONITOR false listeningSession).2 = RunEnd.completed
      ∧ (updatePreviewImage (sampleCollab PrevDemo.PD_Full) refreshMap methodNames
          refreshMap.M_MONITOR false listeningSession).events
          = [Event.call Call.updateColorProfiles, Event.call Call.lab2monitorRgb,
             Event.call Call.lab2rgb, Event.call Call.imageReady,
             Event.call Call.updateLRGBHistograms, Event.call Call.histogramChanged] :=
  have hc : listeningSession.crops = [] := by decide!
  have h := monitor_edit (sampleCollab PrevDemo.PD_Full) refreshMap methodNames
    listeningSession (by decide) (by decide) (by decide)
    (fun hm => absurd hm (by decide)) hc (by decide!) (by decide!) (by decide!) (by decide!)
    rfl
  ⟨by decide, hc, h.1, h.2.1.trans (by decide!)⟩

/-! ## C30: `inverse33` -/

theorem inverse33Nom_eq_neg_det (M : Matrix (Fin 3) (Fin 3) ℚ) :
    inverse33Nom M = -M.det := by
  rw [Matrix.det_fin_three]
  unfold inverse33Nom
  ring

/-- C30: over exact rational arithmetic the divisor of `inverse33` is non-zero
exactly when the determinant is, and for every 3x3 matrix with non-zero
determinant the matrix written by `inverse33` is a two-sided inverse. -/
theorem inverse33_is_inverse (M : Matrix (Fin 3) (Fin 3) ℚ) :
    (inverse33Nom M ≠ 0 ↔ M.det ≠ 0) ∧
    (M.det ≠ 0 → M * inverse33 M = 1 ∧ inverse33 M * M = 1) := by
  have hnom := inverse33Nom_eq_neg_det M
  refine ⟨by rw [hnom]; exact neg_ne_zero, fun hdet => ?_⟩
  have hn : inverse33Nom M ≠ 0 := by rw [hnom]; exact neg_ne_zero.mpr hdet
  have hn' := hn
  unfold inverse33Nom at hn'
  constructor
  · ext i j
    fin_cases i <;> fin_cases j <;>
      simp [Matrix.mul_apply, Fin.sum_univ_three, inverse33, inverse33Nom] <;>
      field_simp <;> ring
  · ext i j
    fin_cases i <;> fin_cases j <;>
      simp [Matrix.mul_apply, Fin.sum_univ_three, inverse33, inverse33Nom] <;>
      field_simp <;> ring

/-- C30, witness: the sample matrix has determinant 1 and `inverse33` inverts
it. -/
theorem inverse33_is_inverse_witness :
    sampleRgbCam.det ≠ 0 ∧
    sampleRgbCam * inverse33 sampleRgbCam = 1 ∧
    inverse33 sampleRgbCam * sampleRgbCam = 1 := by
  have hdet : sampleRgbCam.det ≠ 0 := by
    rw [Matrix.det_fin_three]; simp [sampleRgbCam]; norm_num
  exact ⟨hdet, (inverse33_is_inverse sampleRgbCam).2 hdet⟩

/-! ## C27: `transformPosition` stays inside the sensor area -/

theorem transformPosition_standard (src : RawImageSource) (x y : Int) (tran0 : Nat)
    (hf : src.fuji = false) (hd : src.d1x = false) :
    src.transformPosition x y tran0
      = (let rot := src.defTransform tran0 &&& TR_ROT
         let quarter : Bool := rot = TR_R90 ∨ rot = TR_R270
         let sw := if quarter then src.H else src.W
         let sh := if quarter then src.W else src.H
         let ppx := if src.defTransform tran0 &&& TR_HFLIP ≠ 0 then sw - 1 - (x + src.border)
                    else x + src.border
         let ppy := if src.defTransform tran0 &&& TR_VFLIP ≠ 0 then sh - 1 - (y + src.border)
                    else y + src.border
         if rot = TR_R180 then (src.W - 1 - ppx, src.H - 1 - ppy)
         else if rot = TR_R90 then (ppy, src.H - 1 - ppx)
         else if rot = TR_R270 then (src.W - 1 - ppy, ppx)
         else (ppx, ppy)) := by
  simp [RawImageSource.transformPosition, hf, hd]

theorem getFullSize_standard (src : RawImageSource) (tran0 : Nat)
    (hf : src.fuji = false) (hd : src.d1x = false) :
    src.getFullSize tran0
      = (if src.defTransform tran0 &&& TR_ROT = TR_R90
            ∨ src.defTransform tran0 &&& TR_ROT = TR_R270
         then (src.H - 2 * src.border, src.W - 2 * src.border)
         else (src.W - 2 * src.border, src.H - 2 * src.border)) := by
  simp only [RawImageSource.getFullSize, hf, hd, Bool.false_eq_true, if_false]
  split_ifs <;> rfl

/-- C27: on a standard sensor, for every coarse transform and every image
coordinate inside the size returned by `getFullSize`, the raw coordinate
returned by `transformPosition` lies inside the sensor area without its
border; and for a fixed transform `transformPosition` is injective. -/
theorem transformPosition_inside (src : RawImageSource) (tran : Nat) (x y : Int)
    (hf : src.fuji = false) (hd : src.d1x = false)
    (hx : 0 ≤ x ∧ x < (src.getFullSize tran).1)
    (hy : 0 ≤ y ∧ y < (src.getFullSize tran).2) :
    (src.border ≤ (src.transformPosition x y tran).1
        ∧ (src.transformPosition x y tran).1 < src.W - src.border
        ∧ src.border ≤ (src.transformPosition x y tran).2
        ∧ (src.transformPosition x y tran).2 < src.H - src.border)
      ∧ ∀ x' y' : Int, src.transformPosition x' y' tran = src.transformPosition x y tran →
          x' = x ∧ y' = y := by
  rw [getFullSize_standard src tran hf hd] at hx hy
  constructor
  · rw [transformPosition_standard src x y tran hf hd]
    simp only [TR_R90, TR_R180, TR_R270, TR_ROT] at hx hy ⊢
    generalize src.defTransform tran = t at hx hy ⊢
    by_cases h2 : t &&& 3 = 2 <;> by_cases h1 : t &&& 3 = 1 <;> by_cases h3 : t &&& 3 = 3 <;>
      by_cases hh : t &&& TR_HFLIP ≠ 0 <;> by_cases hv : t &&& TR_VFLIP ≠ 0 <;>
      simp [h1, h2, h3, hh, hv] at hx hy ⊢ <;> omega
  · intro x' y' h
    rw [transformPosition_standard src x y tran hf hd,
      transformPosition_standard src x' y' tran hf hd] at h
    simp only [TR_R90, TR_R180, TR_R270, TR_ROT] at h
    generalize src.defTransform tran = t at h
    by_cases h2 : t &&& 3 = 2 <;> by_cases h1 : t &&& 3 = 1 <;> by_cases h3 : t &&& 3 = 3 <;>
      by_cases hh : t &&& TR_HFLIP ≠ 0 <;> by_cases hv : t &&& TR_VFLIP ≠ 0 <;>
      simp [h1, h2, h3, hh, hv, Prod.ext_iff] at h <;> omega

/-- C27, witness: the corner `(0, 0)` of the sample image rotated by 90
degrees and flipped horizontally. -/
theorem transformPosition_inside_witness :
    sampleSource.getFullSize 9 = (2992, 3992)
      ∧ sampleSource.transformPosition 0 0 9 = (4, 4)
      ∧ (sampleSource.border ≤ (sampleSource.transformPosition 0 0 9).1
        ∧ (sampleSource.transformPosition 0 0 9).1 < sampleSource.W - sampleSource.border
        ∧ sampleSource.border ≤ (sampleSource.transformPosition 0 0 9).2
        ∧ (sampleSource.transformPosition 0 0 9).2 < sampleSource.H - sampleSource.border) :=
  ⟨by decide, by decide,
    (transformPosition_inside sampleSource 9 0 0 rfl rfl (by decide) (by decide)).1⟩

/-! ## C25: the init stage writes exactly the preview buffer -/

theorem transformRect_full (src : RawImageSource) (tran0 : Nat) (skip : Int)
    (hf : src.fuji = false) (hd : src.d1x = false) (hb : 1 ≤ src.border) :
    src.transformRect 0 0 (src.getFullSize tran0).1 (src.getFullSize tran0).2 skip
        (src.defTransform tran0)
      = { ssx1 := src.border, ssy1 := src.border,
          width := skipCount (src.W - 2 * src.border) skip,
          height := skipCount (src.H - 2 * src.border) skip, fw := 0 } := by
  rw [getFullSize_standard src tran0 hf hd]
  generalize src.defTransform tran0 = t
  have e1 : ∀ a : Int, max (a - src.border - (a - 2 * src.border)) 0 = src.border := by
    intro a; omega
  have e2 : ∀ a : Int, min (src.border + (a - 2 * src.border)) (a - 1) = a - src.border := by
    intro a; omega
  have e3 : ∀ a : Int, a - src.border - (a - 2 * src.border) = src.border := by
    intro a; omega
  have e4 : ∀ a : Int, a - src.border - src.border = a - 2 * src.border := by
    intro a; omega
  have e5 : ∀ a : Int, ¬ (a - 2 * src.border > a - 2 * src.border) := by
    intro a; omega
  by_cases h2 : t &&& 3 = 2 <;> by_cases h1 : t &&& 3 = 1 <;> by_cases h3 : t &&& 3 = 3 <;>
    by_cases hh : t &&& TR_HFLIP ≠ 0 <;> by_cases hv : t &&& TR_VFLIP ≠ 0 <;>
    first
    | (exfalso; omega)
    | (simp [RawImageSource.transformRect, hf, hd, TR_R90, TR_R180, TR_R270, TR_ROT,
        h1, h2, h3, hh, hv]
       repeat' constructor
       all_goals first | omega | (congr 1; omega))

theorem mem_rotateLine (tran : Nat) (i w h : Int) (p : (Int × Int) × Int) :
    p ∈ rotateLine tran i w h ↔ (0 ≤ p.2 ∧ p.2 < w) ∧ p.1 = rotateTarget tran i p.2 w h := by
  unfold rotateLine
  rw [List.mem_map]
  constructor
  · rintro ⟨n, hn, rfl⟩
    rw [List.mem_range] at hn
    exact ⟨⟨by simp, by simp only; omega⟩, rfl⟩
  · rintro ⟨⟨h0, h1⟩, h2⟩
    refine ⟨p.2.toNat, ?_, ?_⟩
    · rw [List.mem_range]; omega
    · have e : ((p.2.toNat : Nat) : Int) = p.2 := Int.toNat_of_nonneg h0
      rw [e, ← h2]

/-- The four cases of the `switch (tran & TR_ROT)` of `rotateLine`. -/
theorem rotateTarget_cases (t : Nat) :
    (t &&& TR_ROT = TR_R180
        ∧ (∀ i j w h : Int, rotateTarget t i j w h = (h - 1 - i, w - 1 - j))
        ∧ ¬(t &&& TR_ROT = TR_R90 ∨ t &&& TR_ROT = TR_R270))
      ∨ (t &&& TR_ROT = TR_R90
        ∧ (∀ i j w h : Int, rotateTarget t i j w h = (j, h - 1 - i))
        ∧ (t &&& TR_ROT = TR_R90 ∨ t &&& TR_ROT = TR_R270))
      ∨ (t &&& TR_ROT = TR_R270
        ∧ (∀ i j w h : Int, rotateTarget t i j w h = (w - 1 - j, i))
        ∧ (t &&& TR_ROT = TR_R90 ∨ t &&& TR_ROT = TR_R270))
      ∨ ((t &&& TR_ROT ≠ TR_R180 ∧ t &&& TR_ROT ≠ TR_R90 ∧ t &&& TR_ROT ≠ TR_R270)
        ∧ (∀ i j w h : Int, rotateTarget t i j w h = (i, j))
        ∧ ¬(t &&& TR_ROT = TR_R90 ∨ t &&& TR_ROT = TR_R270)) := by
  unfold rotateTarget
  by_cases h2 : t &&& TR_ROT = TR_R180
  · left
    refine ⟨h2, fun _ _ _ _ => if_pos h2, ?_⟩
    rw [h2]; decide
  · by_cases h1 : t &&& TR_ROT = TR_R90
    · right; left
      exact ⟨h1, fun _ _ _ _ => by rw [if_neg h2, if_pos h1], Or.inl h1⟩
    · by_cases h3 : t &&& TR_ROT = TR_R270
      · right; right; left
        exact ⟨h3, fun _ _ _ _ => by rw [if_neg h2, if_neg h1, if_pos h3], Or.inr h3⟩
      · right; right; right
        exact ⟨⟨h2, h1, h3⟩, fun _ _ _ _ => by rw [if_neg h2, if_neg h1, if_neg h3], by tauto⟩

/-- The rows written by `rotateLine` for the rows `0 .. h-1` of a region of
`w` columns lie inside the rotated image and cover it. -/
theorem rotateLine_cover (t : Nat) (w h : Int) (size : Int × Int)
    (hsize : size = if t &&& TR_ROT = TR_R90 ∨ t &&& TR_ROT = TR_R270 then (h, w) else (w, h)) :
    (∀ ix : Int, 0 ≤ ix → ix < h → ∀ p ∈ rotateLine t ix w h,
        0 ≤ p.1.1 ∧ p.1.1 < size.2 ∧ 0 ≤ p.1.2 ∧ p.1.2 < size.1)
      ∧ (∀ r c : Int, 0 ≤ r → r < size.2 → 0 ≤ c → c < size.1 →
          ∃ ix j : Int, 0 ≤ ix ∧ ix < h ∧ ((r, c), j) ∈ rotateLine t ix w h) := by
  subst hsize
  simp only [mem_rotateLine]
  rcases rotateTarget_cases t with ⟨-, e, q⟩ | ⟨-, e, q⟩ | ⟨-, e, q⟩ | ⟨-, e, q⟩
  · simp only [e, if_neg q]
    refine ⟨fun ix h0 h4 p hp => ?_, fun r c hr0 hr1 hc0 hc1 => ?_⟩
    · obtain ⟨⟨h5, h6⟩, h7⟩ := hp
      rw [h7]; dsimp only; omega
    · exact ⟨h - 1 - r, w - 1 - c, by omega, by omega, ⟨by omega, by omega⟩,
        Prod.ext (by dsimp only; omega) (by dsimp only; omega)⟩
  · simp only [e, if_pos q]
    refine ⟨fun ix h0 h4 p hp => ?_, fun r c hr0 hr1 hc0 hc1 => ?_⟩
    · obtain ⟨⟨h5, h6⟩, h7⟩ := hp
      rw [h7]; dsimp only; omega
    · exact ⟨h - 1 - c, r, by omega, by omega, ⟨by omega, by omega⟩,
        Prod.ext (by dsimp only) (by dsimp only; omega)⟩
  · simp only [e, if_pos q]
    refine ⟨fun ix h0 h4 p hp => ?_, fun r c hr0 hr1 hc0 hc1 => ?_⟩
    · obtain ⟨⟨h5, h6⟩, h7⟩ := hp
      rw [h7]; dsimp only; omega
    · exact ⟨c, w - 1 - r, by omega, by omega, ⟨by omega, by omega⟩,
        Prod.ext (by dsimp only; omega) (by dsimp only)⟩
  · simp only [e, if_neg q]
    refine ⟨fun ix h0 h4 p hp => ?_, fun r c hr0 hr1 hc0 hc1 => ?_⟩
    · obtain ⟨⟨h5, h6⟩, h7⟩ := hp
      rw [h7]; dsimp only; omega
    · exact ⟨r, c, by omega, by omega, ⟨by omega, by omega⟩, rfl⟩

/-- C25: on a standard sensor with a border of at least one pixel, for every
coarse transform and every skip of at least one, the region that
`transformRect` computes for the full-image request
`PreviewProps(0, 0, fw, fh, skip)` has, after swapping for the quarter
turns, exactly the width and height returned by `getSize`; every element
that `transLineStandard` writes for a row of that region lies inside the
buffer of that size, and every element of the buffer is written. -/
theorem init_writes_preview_buffer (src : RawImageSource) (tran0 : Nat) (skip : Int)
    (hf : src.fuji = false) (hd : src.d1x = false) (hs : 1 ≤ skip) (hb : 1 ≤ src.border) :
    (if src.defTransform tran0 &&& TR_ROT = TR_R90 ∨ src.defTransform tran0 &&& TR_ROT = TR_R270
      then
        ((src.transformRect 0 0 (src.getFullSize tran0).1 (src.getFullSize tran0).2 skip
            (src.defTransform tran0)).height,
         (src.transformRect 0 0 (src.getFullSize tran0).1 (src.getFullSize tran0).2 skip
            (src.defTransform tran0)).width)
      else
        ((src.transformRect 0 0 (src.getFullSize tran0).1 (src.getFullSize tran0).2 skip
            (src.defTransform tran0)).width,
         (src.transformRect 0 0 (src.getFullSize tran0).1 (src.getFullSize tran0).2 skip
            (src.defTransform tran0)).height))
        = getSize (src.getFullSize tran0).1 (src.getFullSize tran0).2 skip
      ∧ (∀ ix : Int, 0 ≤ ix →
          ix < (src.transformRect 0 0 (src.getFullSize tran0).1 (src.getFullSize tran0).2 skip
                  (src.defTransform tran0)).height →
          ∀ p ∈ transLineStandard (src.defTransform tran0) ix
              (src.transformRect 0 0 (src.getFullSize tran0).1 (src.getFullSize tran0).2 skip
                (src.defTransform tran0)).width
              (src.transformRect 0 0 (src.getFullSize tran0).1 (src.getFullSize tran0).2 skip
                (src.defTransform tran0)).height,
            0 ≤ p.1.1
              ∧ p.1.1 < (getSize (src.getFullSize tran0).1 (src.getFullSize tran0).2 skip).2
              ∧ 0 ≤ p.1.2
              ∧ p.1.2 < (getSize (src.getFullSize tran0).1 (src.getFullSize tran0).2 skip).1)
      ∧ (∀ r c : Int, 0 ≤ r →
          r < (getSize (src.getFullSize tran0).1 (src.getFullSize tran0).2 skip).2 →
          0 ≤ c → c < (getSize (src.getFullSize tran0).1 (src.getFullSize tran0).2 skip).1 →
          ∃ ix j : Int, 0 ≤ ix
            ∧ ix < (src.transformRect 0 0 (src.getFullSize tran0).1 (src.getFullSize tran0).2
                      skip (src.defTransform tran0)).height
            ∧ ((r, c), j) ∈ transLineStandard (src.defTransform tran0) ix
                (src.transformRect 0 0 (src.getFullSize tran0).1 (src.getFullSize tran0).2 skip
                  (src.defTransform tran0)).width
                (src.transformRect 0 0 (src.getFullSize tran0).1 (src.getFullSize tran0).2 skip
                  (src.defTransform tran0)).height) := by
  have _hs := hs
  have hsize :
      getSize (src.getFullSize tran0).1 (src.getFullSize tran0).2 skip
        = if src.defTransform tran0 &&& TR_ROT = TR_R90
              ∨ src.defTransform tran0 &&& TR_ROT = TR_R270 then
            ((src.transformRect 0 0 (src.getFullSize tran0).1 (src.getFullSize tran0).2 skip
                (src.defTransform tran0)).height,
             (src.transformRect 0 0 (src.getFullSize tran0).1 (src.getFullSize tran0).2 skip
                (src.defTransform tran0)).width)
          else
            ((src.transformRect 0 0 (src.getFullSize tran0).1 (src.getFullSize tran0).2 skip
                (src.defTransform tran0)).width,
             (src.transformRect 0 0 (src.getFullSize tran0).1 (src.getFullSize tran0).2 skip
                (src.defTransform tran0)).height) := by
    rw [transformRect_full src tran0 skip hf hd hb, getFullSize_standard src tran0 hf hd]
    unfold getSize skipCount
    split_ifs <;> rfl
  exact ⟨hsize.symm, rotateLine_cover _ _ _ _ hsize⟩

/-- C25, witness: the sample image (4000 x 3000, border 4) rotated by 90
degrees at skip 3; the region has 1331 columns and 998 rows, the buffer is
998 wide and 1331 high. -/
theorem init_writes_preview_buffer_witness :
    sampleSource.getFullSize 1 = (2992, 3992)
      ∧ getSize 2992 3992 3 = (998, 1331)
      ∧ ((sampleSource.transformRect 0 0 (sampleSource.getFullSize 1).1
            (sampleSource.getFullSize 1).2 3 (sampleSource.defTransform 1)).height,
         (sampleSource.transformRect 0 0 (sampleSource.getFullSize 1).1
            (sampleSource.getFullSize 1).2 3 (sampleSource.defTransform 1)).width)
          = getSize (sampleSource.getFullSize 1).1 (sampleSource.getFullSize 1).2 3 :=
  ⟨by decide, by decide,
   (init_writes_preview_buffer sampleSource 1 3 rfl rfl (by decide) (by decide)).1⟩

/-! ## C28: `rotateLine` and `transformPosition` -/

/-- C28, divergence of the code: on a Foveon source (standard sensor, border
0, sensor rotation 0) of 4000 x 3000 pixels, the region that `transformRect`
computes for the full-image request rotated by 180 degrees has 3999 columns
and 2999 rows, one less than the sensor in each direction, because `sx2` and
`sy2` are clamped to `W - 1` and `H - 1`; `rotateLine` writes the raw pixel
(row 0, column 0) of that region to `channel(2998, 3998)`, and
`transformPosition(3998, 2998)` returns `(1, 1)`, not `(0, 0)`: the two
functions are not inverse to each other on a region with
`0 <= i < h`, `0 <= j < w`. -/
theorem rotateLine_region_not_inverse :
    (foveonSource.fuji, foveonSource.d1x, foveonSource.border, foveonSource.rotateDegree)
        = (false, false, 0, 0)
      ∧ ((foveonSource.transformRect 0 0 (foveonSource.getFullSize TR_R180).1
            (foveonSource.getFullSize TR_R180).2 1 (foveonSource.defTransform TR_R180)).width,
         (foveonSource.transformRect 0 0 (foveonSource.getFullSize TR_R180).1
            (foveonSource.getFullSize TR_R180).2 1 (foveonSource.defTransform TR_R180)).height)
          = (3999, 2999)
      ∧ ((2998, 3998), 0) ∈ rotateLine TR_R180 0 3999 2999
      ∧ rotateTarget TR_R180 0 0 3999 2999 = (2998, 3998)
      ∧ foveonSource.transformPosition 3998 2998 TR_R180 = (1, 1) := by
  refine ⟨by decide, by decide, ?_, by decide, by decide⟩
  rw [mem_rotateLine]
  decide

/-! ## C21: the no-op mask -/

/-- C21: a worker iteration whose coalesced mask has no bit below `M_VOID`
does not call `updatePreviewImage` (the list of calls, which holds every
stage execution and listener notification, is unchanged), commits the pending
snapshot (`params = nextParams`) and clears the accumulated mask; nothing
else of the coordinator changes, and when nothing was submitted meanwhile the
loop of `process()` ends after that iteration. -/
theorem noop_mask_iteration (K : Collab) (M : RefreshMap) (N : MethodNames)
    (arrived : List Submission) (w : Worker)
    (h : testBits w.c.changeSinceLast (M.M_VOID - 1) = false) :
    (processIteration K M N arrived w).calls = w.calls
      ∧ (processIteration K M N arrived w).c
          = submitAll { w.c with params := w.c.nextParams, changeSinceLast := 0 } arrived
      ∧ (processIteration K M N [] w).c
          = { w.c with params := w.c.nextParams, changeSinceLast := 0 }
      ∧ (processIteration K M N [] w).c.params = w.c.nextParams
      ∧ (processIteration K M N [] w).c.changeSinceLast = 0
      ∧ ∀ fuel : Nat, w.c.changeSinceLast ≠ 0 →
          processLoop (fun _ => K) M N (fuel + 2) [] w
            = some ⟨{ w.c with params := w.c.nextParams, changeSinceLast := 0 },
                    w.iterations + 1, w.calls⟩ := by
  have e : ∀ arr, processIteration K M N arr w
      = ⟨submitAll { w.c with params := w.c.nextParams, changeSinceLast := 0 } arr,
          w.iterations + 1, w.calls⟩ := by
    intro arr
    unfold processIteration
    simp only [h, Bool.false_eq_true, if_false]
  refine ⟨by rw [e], by rw [e], by rw [e]; rfl, by rw [e]; rfl, by rw [e]; rfl, ?_⟩
  intro fuel hne
  rw [processLoop, if_pos hne]
  simp only [List.tail_nil, List.head?_nil, Option.getD_none]
  rw [e, processLoop, if_neg (by simp [submitAll])]
  rfl

/-- C21, witness: the mask `M_VOID` alone on the sample coordinator. -/
theorem noop_mask_iteration_witness :
    testBits refreshMap.M_VOID (refreshMap.M_VOID - 1) = false
      ∧ (processIteration (sampleCollab PrevDemo.PD_Full) refreshMap methodNames []
          ⟨{ sampleCoordinator with changeSinceLast := refreshMap.M_VOID }, 0, []⟩).calls = []
      ∧ (processIteration (sampleCollab PrevDemo.PD_Full) refreshMap methodNames []
          ⟨{ sampleCoordinator with changeSinceLast := refreshMap.M_VOID }, 0, []⟩).c.changeSinceLast
          = 0 :=
  have h := noop_mask_iteration (sampleCollab PrevDemo.PD_Full) refreshMap methodNames []
    ⟨{ sampleCoordinator with changeSinceLast := refreshMap.M_VOID }, 0, []⟩ (by decide)
  ⟨by decide, h.1, h.2.2.2.2.1⟩

/-! ## C29: colour highlight reconstruction is applied at most once -/

/-- C29: `HLRecovery_Global` performs the inpainting exactly when highlight
reconstruction is enabled with method "Color" and `rgbSourceModified` is
false, and then sets `rgbSourceModified`; otherwise it changes nothing.  A
second call with the same parameters performs no inpainting and changes
nothing, `demosaic` resets `rgbSourceModified`, and after a `demosaic` the
next call inpaints again exactly when reconstruction is enabled with method
"Color". -/
theorem color_hlr_applied_once (src : RawImageSource) (hrp : ToneCurveParams) :
    src.HLRecovery_Global hrp
        = (if hrp.hrenabled = true ∧ hrp.method = "Color" ∧ src.rgbSourceModified = false then
            ({ src with rgbSourceModified := true }, [Event.call Call.HLRecovery_inpaint])
          else (src, []))
      ∧ (src.HLRecovery_Global hrp).1.HLRecovery_Global hrp = ((src.HLRecovery_Global hrp).1, [])
      ∧ src.demosaic.rgbSourceModified = false
      ∧ (src.demosaic.HLRecovery_Global hrp).2
          = (if hrp.hrenabled = true ∧ hrp.method = "Color" then
              [Event.call Call.HLRecovery_inpaint] else []) := by
  refine ⟨?_, ?_, rfl, ?_⟩
  · by_cases hm : hrp.method = "Color" <;> cases he : hrp.hrenabled <;>
      cases hs : src.rgbSourceModified <;>
      simp [RawImageSource.HLRecovery_Global, hm, he, hs]
  · by_cases hm : hrp.method = "Color" <;> cases he : hrp.hrenabled <;>
      cases hs : src.rgbSourceModified <;>
      simp [RawImageSource.HLRecovery_Global, hm, he, hs]
  · by_cases hm : hrp.method = "Color" <;> cases he : hrp.hrenabled <;>
      simp [RawImageSource.HLRecovery_Global, RawImageSource.demosaic, hm, he]

/-! ## C26: `setScale` invalidates the published result -/

theorem setScale_notifies (K : Collab) (p : Int) (r : Run) :
    (setScale K p r).events
      = r.events ++ Event.setScale p
          :: ((if ((setScaleLoop (r.c.imgsrc.getFullSize (K.getCoarseBitMask r.c.params.coarse)).1
                      (r.c.imgsrc.getFullSize (K.getCoarseBitMask r.c.params.coarse)).2
                      p.toNat p).2.1 ≠ r.c.pW
                  ∨ (setScaleLoop (r.c.imgsrc.getFullSize (K.getCoarseBitMask r.c.params.coarse)).1
                      (r.c.imgsrc.getFullSize (K.getCoarseBitMask r.c.params.coarse)).2
                      p.toNat p).2.2 ≠ r.c.pH)
                  ∧ r.c.allocated = true ∧ r.c.listeners.imageListener = true
                then [Event.call Call.delImage] else [])
              ++ List.replicate r.c.listeners.sizeListeners
                  (Event.sizeChanged
                    (r.c.imgsrc.getFullSize (K.getCoarseBitMask r.c.params.coarse)).1
                    (r.c.imgsrc.getFullSize (K.getCoarseBitMask r.c.params.coarse)).2
                    (r.c.imgsrc.getFullSize (K.getCoarseBitMask r.c.params.coarse)).1
                    (r.c.imgsrc.getFullSize (K.getCoarseBitMask r.c.params.coarse)).2)) := by
  unfold setScale commitScale reallocate freeAll
  simp only [emit_c, emitAll_c, emitAll_events]
  split_ifs <;> simp_all [Run.emitIf, Run.emit]

theorem convertPreview_ok (K : Collab) (M : RefreshMap) (r : Run)
    (h : (convertPreview K M r).2 = RunEnd.completed) :
    (convertPreview K M r).1.c.resultValid = r.c.resultValid
      ∧ (convertPreview K M r).1.c.listeners = r.c.listeners
      ∧ (Event.call Call.setImage ∈ (convertPreview K M r).1.events
          ↔ Event.call Call.setImage ∈ r.events) := by
  unfold convertPreview at h ⊢
  split_ifs at h ⊢ with hc
  · cases hb : r.c.previmg
    · rw [hb] at h
      exact absurd h (by simp)
    · cases hk : K.conversion <;> rw [hb, hk] at h <;> simp_all [Run.emit]
  · exact ⟨rfl, rfl, Iff.rfl⟩

theorem announce_setImage (r : Run) :
    (announce r).c.resultValid = true
      ∧ (Event.call Call.setImage ∈ (announce r).events
          ↔ Event.call Call.setImage ∈ r.events
            ∨ (r.c.resultValid = false ∧ r.c.listeners.imageListener = true)) := by
  unfold announce
  cases hv : r.c.resultValid <;> cases hi : r.c.listeners.imageListener <;>
    cases hh : r.c.listeners.hListener <;> simp [Run.emitIf, Run.emit, hv, hi, hh]

theorem beforePublish_core (K : Collab) (M : RefreshMap) (N : MethodNames) (todo : Nat)
    (pan : Bool) (c : ImProcCoordinator) :
    (beforePublish K M N todo pan c).core = (updatePreviewImage K M N todo pan c).core := by
  rw [updatePreviewImage_eq_outcome]
  unfold publishOutcome
  split_ifs <;> simp only [releaseTransformed_core, publish_core]

/-- C26: `setScale` clears the result-valid flag and notifies every registered
size listener on every call, whatever the computed dimensions (a
reallocation only adds the `delImage` notification of `freeAll`).  Hence a
run that calls `setScale` (which only the init stage does) and reaches the
publication point (the geometry changed or the monitor bit is set, and no
colour conversion throws) ends with the result valid again and calls
`setImage` exactly when an image listener is registered. -/
theorem setScale_republishes (K : Collab) (M : RefreshMap) (N : MethodNames) (todo : Nat)
    (pan : Bool) (c : ImProcCoordinator)
    (hinit : ∃ s, Event.setScale s ∈ (updatePreviewImage K M N todo pan c).events)
    (hreach : pan = true ∨ testBits todo M.M_MONITOR = true)
    (hok : (publishOutcome K M N todo pan c).2 = RunEnd.completed) :
    (∀ (p : Int) (r : Run),
        (setScale K p r).c.resultValid = false
          ∧ ∃ pre, (∀ e ∈ pre, e = Event.call Call.delImage)
              ∧ (setScale K p r).events
                  = r.events ++ Event.setScale p
                      :: (pre ++ List.replicate r.c.listeners.sizeListeners
                          (Event.sizeChanged
                            (r.c.imgsrc.getFullSize (K.getCoarseBitMask r.c.params.coarse)).1
                            (r.c.imgsrc.getFullSize (K.getCoarseBitMask r.c.params.coarse)).2
                            (r.c.imgsrc.getFullSize (K.getCoarseBitMask r.c.params.coarse)).1
                            (r.c.imgsrc.getFullSize (K.getCoarseBitMask r.c.params.coarse)).2)))
      ∧ (beforePublish K M N todo pan c).c.resultValid = false
      ∧ (updatePreviewImage K M N todo pan c).c.resultValid = true
      ∧ (Event.call Call.setImage ∈ (updatePreviewImage K M N todo pan c).events
          ↔ c.listeners.imageListener = true) := by
  refine ⟨fun p r => ⟨(setScale_fields K p r).2.2.2.2.2, ?_⟩, ?_⟩
  · refine ⟨_, ?_, setScale_notifies K p r⟩
    intro e he
    split_ifs at he
    · simpa using he
    · simp at he
  -- the state at the publication point
  have hst := beforePublish_stage K M N todo pan c
  have hno : Event.call Call.setImage ∉ (beforePublish K M N todo pan c).events :=
    fun hm => hst _ hm rfl
  have hcore := beforePublish_core K M N todo pan c
  have hl : (beforePublish K M N todo pan c).c.listeners = c.listeners := by
    have h := congrArg Core.listeners hcore
    exact h.trans (updatePreviewImage_listeners K M N todo pan c)
  have htodo : pan = true ∨ testBits (beforePublish K M N todo pan c).todo M.M_MONITOR = true := by
    rcases hreach with h | h
    · exact Or.inl h
    · right
      have h1 := congrArg Core.todo hcore
      have h2 := congrArg Core.todo (updatePreviewImage_core K M N todo pan c)
      have e1 : (beforePublish K M N todo pan c).core.todo
          = (beforePublish K M N todo pan c).todo := rfl
      rw [e1] at h1
      rw [h1, h2]
      split_ifs
      · exact Core.gateBody_todo_mono M _ _ _ _ h
      · exact h
  have hcond : (pan || testBits (beforePublish K M N todo pan c).todo M.M_MONITOR) = true := by
    rcases htodo with h | h <;> simp [h]
  have hcv : (convertPreview K M (beforePublish K M N todo pan c)).2 = RunEnd.completed := by
    by_cases hc : (convertPreview K M (beforePublish K M N todo pan c)).2 ≠ RunEnd.completed
    · have hok' := hok
      unfold publishOutcome publish at hok'
      simp only [progress_eq] at hok'
      rw [if_pos hcond, if_pos hc] at hok'
      exact absurd hok' hc
    · exact not_not.mp hc
  have hpub : publish K M pan (beforePublish K M N todo pan c)
      = (announce (convertPreview K M (beforePublish K M N todo pan c)).1, RunEnd.completed) := by
    unfold publish
    simp only [progress_eq]
    rw [if_pos hcond, if_neg (by rw [hcv]; simp)]
  obtain ⟨cv1, cv2, cv3⟩ := convertPreview_ok K M _ hcv
  obtain ⟨an1, an2⟩ := announce_setImage (convertPreview K M (beforePublish K M N todo pan c)).1
  have hfinal : updatePreviewImage K M N todo pan c
      = releaseTransformed (announce (convertPreview K M (beforePublish K M N todo pan c)).1) := by
    rw [updatePreviewImage_eq_outcome, if_neg (by rw [hok]; simp)]
    unfold publishOutcome
    rw [hpub]
  have hev : (updatePreviewImage K M N todo pan c).events
      = (announce (convertPreview K M (beforePublish K M N todo pan c)).1).events := by
    rw [hfinal, releaseTransformed_events]
  have hinval : (beforePublish K M N todo pan c).c.resultValid = false := by
    rcases beforePublish_published_cases K M N todo pan c with ⟨-, hnone⟩ | ⟨h, -⟩
    · obtain ⟨s, hs⟩ := hinit
      rw [hev] at hs
      exfalso
      -- a `setScale` call at the publication point would have the stage `publish`
      have hsub := (publish_appends K M pan (beforePublish K M N todo pan c))
      rw [hpub] at hsub
      rcases hsub with ⟨es, he1, he2⟩
      rw [he1, List.mem_append] at hs
      rcases hs with hs | hs
      · exact hnone s hs
      · exact absurd (he2 _ hs) (by simp [Event.stage])
    · exact h
  refine ⟨hinval, ?_, ?_⟩
  · rw [hfinal]
    have : (releaseTransformed
        (announce (convertPreview K M (beforePublish K M N todo pan c)).1)).published.resultValid
        = (announce (convertPreview K M (beforePublish K M N todo pan c)).1).published.resultValid := by
      rw [releaseTransformed_published]
    exact this.trans an1
  · rw [hev, an2, cv3, cv1, cv2, hl, hinval]
    constructor
    · rintro (h | ⟨-, h⟩)
      · exact absurd h hno
      · exact h
    · exact fun h => Or.inr ⟨rfl, h⟩

end rtengine
namespace rtengine

/-- C26, witness: a second run with the mask `ALL` on the sample session
after a first successful run.  The preview dimensions are unchanged (no
buffer is reallocated), yet the init stage's `setScale` has cleared the
result-valid flag, and the run calls `setImage` again. -/
theorem setScale_republishes_witness :
    listeningSession.resultValid = true
      ∧ ((updatePreviewImage (sampleCollab PrevDemo.PD_Full) refreshMap methodNames
            refreshMap.ALL false listeningSession).c.pW,
         (updatePreviewImage (sampleCollab PrevDemo.PD_Full) refreshMap methodNames
            refreshMap.ALL false listeningSession).c.pH,
         (updatePreviewImage (sampleCollab PrevDemo.PD_Full) refreshMap methodNames
            refreshMap.ALL false listeningSession).c.previmg)
          = (listeningSession.pW, listeningSession.pH, listeningSession.previmg)
      ∧ (updatePreviewImage (sampleCollab PrevDemo.PD_Full) refreshMap methodNames
            refreshMap.ALL false listeningSession).c.resultValid = true
      ∧ Event.call Call.setImage
          ∈ (updatePreviewImage (sampleCollab PrevDemo.PD_Full) refreshMap methodNames
              refreshMap.ALL false listeningSession).events :=
  have h := setScale_republishes (sampleCollab PrevDemo.PD_Full) refreshMap methodNames
    refreshMap.ALL false listeningSession ⟨listeningSession.scale, by decide!⟩
    (Or.inr (by decide)) (by decide!)
  ⟨by decide!, by decide!, h.2.2.1, h.2.2.2.mpr (by decide!)⟩

/-! ## C23: re-demosaic when colour highlight reconstruction is turned off -/

/-- C23, evaluated on the code: after a full run with colour highlight
reconstruction enabled the RGB source is modified (`rgbSourceModified`).  The
user then switches highlight reconstruction off and sets its method to
"Blend"; both edits are coalesced into one run, whose mask has no `M_RAW`
bit.  That run passes the outer gate and executes the init stage (it calls
`HLRecovery_Global` and `getImage`) but not the demosaic stage, and the RGB
source is still the one modified by colour reconstruction afterwards. -/
theorem color_hlr_off_without_demosaic :
    ((firstRun colorHlrParams).c.imgsrc.rgbSourceModified,
     hlrOffWorker.c.nextParams.toneCurve.hrenabled,
     hlrOffWorker.c.nextParams.toneCurve.method,
     hlrOffWorker.c.changeSinceLast,
     testBits hlrOffWorker.c.changeSinceLast refreshMap.M_RAW)
        = (true, false, "Blend", noRawMask, false)
      ∧ (processIteration (sampleCollab PrevDemo.PD_Full) refreshMap methodNames []
            hlrOffWorker).calls.map
          (fun call => (call.todo, call.params.toneCurve.hrenabled, call.params.toneCurve.method,
            call.events.any Event.isDemosaic,
            decide (Event.HLRecovery_Global call.params.toneCurve ∈ call.events),
            decide (Event.call Call.getImage ∈ call.events)))
          = [(noRawMask, false, "Blend", false, true, true)]
      ∧ (processIteration (sampleCollab PrevDemo.PD_Full) refreshMap methodNames []
            hlrOffWorker).c.imgsrc.rgbSourceModified = true := by
  refine ⟨by decide!, by decide!, by decide!⟩

/-! ## C24: fan-out / fan-in histograms -/

theorem tally_nil (b : Nat) : tally [] b = 0 := rfl

theorem tally_cons (p : Nat × Count) (t : List (Nat × Count)) (b : Nat) :
    tally (p :: t) b = (if b = p.1 then p.2 else 0) + tally t b := by
  unfold tally
  by_cases h : b = p.1
  · simp [List.filter_cons, h]
  · have h' : ¬ p.1 = b := fun e => h e.symm
    simp [List.filter_cons, h, h']

theorem tally_append (s t : List (Nat × Count)) (b : Nat) :
    tally (s ++ t) b = tally s b + tally t b := by
  unfold tally
  rw [List.filter_append, List.map_append, List.sum_append]

theorem tally_perm {s t : List (Nat × Count)} (h : s.Perm t) (b : Nat) :
    tally s b = tally t b := by
  unfold tally
  exact ((h.filter _).map _).sum_eq

theorem bump_apply (h : LUTu) (hits : List (Nat × Count)) (b : Nat) :
    h.bump hits b = h b + tally hits b := by
  induction hits generalizing h with
  | nil => simp [LUTu.bump, tally_nil]
  | cons p t ih =>
      have e : h.bump (p :: t) = (h.incr p.1 p.2).bump t := rfl
      rw [e, ih, tally_cons]
      unfold LUTu.incr
      by_cases hb : b = p.1
      · simp [hb, add_assoc]
      · simp [hb]

theorem bump_append (h : LUTu) (s t : List (Nat × Count)) :
    h.bump (s ++ t) = (h.bump s).bump t := by
  unfold LUTu.bump
  rw [List.foldl_append]

theorem bump_cons (h : LUTu) (p : Nat × Count) (t : List (Nat × Count)) :
    h.bump (p :: t) = (h.incr p.1 p.2).bump t := rfl

theorem foldl_rows_bump {ι : Type} (row : ι → LUTu → LUTu) (hits : ι → List (Nat × Count))
    (hrow : ∀ x h, row x h = h.bump (hits x)) (rows : List ι) (h : LUTu) :
    rows.foldl (fun h x => row x h) h = h.bump (rows.flatMap hits) := by
  induction rows generalizing h with
  | nil => rfl
  | cons x t ih =>
      rw [List.foldl_cons, ih, hrow, List.flatMap_cons, bump_append]

theorem fanIn_apply {ι : Type} (row : ι → LUTu → LUTu) (hits : ι → List (Nat × Count))
    (hrow : ∀ x h, row x h = h.bump (hits x)) (parts : List (List ι)) (b : Nat) :
    fanIn row parts b = tally (parts.flatten.flatMap hits) b := by
  have gen : ∀ (ps : List (List ι)) (t0 : LUTu),
      ps.foldl (fun total rows => total.add (threadLocal row rows)) t0 b
        = t0 b + tally (ps.flatten.flatMap hits) b := by
    intro ps
    induction ps with
    | nil => intro t0; simp [tally_nil]
    | cons rows rest ih =>
        intro t0
        rw [List.foldl_cons, ih, List.flatten_cons, List.flatMap_append, tally_append]
        unfold LUTu.add threadLocal
        rw [foldl_rows_bump row hits hrow, bump_apply]
        simp [LUTu.clear, add_assoc]
  unfold fanIn
  rw [gen]
  simp [LUTu.clear]

/-- Fan-out / fan-in: for a loop body that is a sequence of counter
increments, whatever the distribution of the rows over the workers, the
reduced histogram is the sequentially accumulated one. -/
theorem fanIn_eq_sequential {ι : Type} (row : ι → LUTu → LUTu)
    (hits : ι → List (Nat × Count)) (hrow : ∀ x h, row x h = h.bump (hits x))
    (parts : List (List ι)) (rows : List ι) (hp : parts.flatten.Perm rows) :
    fanIn row parts = sequentialHistogram row rows := by
  funext b
  rw [fanIn_apply row hits hrow]
  unfold sequentialHistogram
  rw [foldl_rows_bump row hits hrow, bump_apply]
  rw [tally_perm (hp.flatMap_right hits)]
  simp [LUTu.clear]

theorem lhistRow_bump (L : Nat → Nat → Nat) (pW : Nat) (x : Nat) (h : LUTu) :
    lhistRow L pW x h = h.bump ((List.range pW).map fun y => (L x y, 1)) := by
  unfold lhistRow LUTu.bump
  rw [List.foldl_map]

theorem bayerHits_zero (bin0 bin1 : Int → Nat) (j : Int) : bayerHits bin0 bin1 j 0 = [] := rfl

theorem bayerHits_one (bin0 bin1 : Int → Nat) (j : Int) :
    bayerHits bin0 bin1 j 1 = [(bin0 j, 4)] := by
  simp [bayerHits, List.range_succ]

theorem bayerHits_add_two (bin0 bin1 : Int → Nat) (j : Int) (n : Nat) :
    bayerHits bin0 bin1 j (n + 2)
      = (bin0 j, 4) :: (bin1 (j + 1), 4) :: bayerHits bin0 bin1 (j + 2) n := by
  unfold bayerHits
  rw [show n + 2 = 2 + n by omega, List.range_add]
  have e2 : List.range 2 = [0, 1] := rfl
  rw [e2, List.map_append, List.map_map]
  have t : List.map ((fun (k : Nat) =>
        ((if k % 2 = 0 then bin0 (j + (k : Int)) else bin1 (j + (k : Int)), 4) : Nat × Count))
          ∘ fun x => 2 + x) (List.range n)
      = List.map (fun (k : Nat) =>
        ((if k % 2 = 0 then bin0 (j + 2 + (k : Int)) else bin1 (j + 2 + (k : Int)), 4)
          : Nat × Count)) (List.range n) := by
    apply List.map_congr_left
    intro k _
    simp only [Function.comp_apply]
    have e1 : (2 + k) % 2 = k % 2 := by omega
    have e3 : j + ((2 + k : Nat) : Int) = j + 2 + (k : Int) := by push_cast; ring
    rw [e1, e3]
  rw [t]
  simp

theorem bayerRow_bump_aux (bin0 bin1 : Int → Nat) (endc : Int) :
    ∀ (fuel : Nat) (j : Int) (h : LUTu), (endc - j).toNat ≤ fuel →
      bayerLast bin0 endc (bayerPairs bin0 bin1 endc fuel j h)
        = h.bump (bayerHits bin0 bin1 j (endc - j).toNat) := by
  intro fuel
  induction fuel with
  | zero =>
      intro j h hf
      have hn : (endc - j).toNat = 0 := by omega
      have hj : ¬ j < endc := by omega
      rw [hn, bayerHits_zero]
      simp [bayerPairs, bayerLast, hj, LUTu.bump]
  | succ fuel ih =>
      intro j h hf
      rw [bayerPairs]
      by_cases hlt : j < endc - 1
      · rw [if_pos hlt, ih _ _ (by omega)]
        have hn : (endc - j).toNat = (endc - (j + 2)).toNat + 2 := by omega
        rw [hn, bayerHits_add_two, bump_cons, bump_cons]
      · rw [if_neg hlt]
        by_cases hj : j < endc
        · have hn : (endc - j).toNat = 1 := by omega
          rw [hn, bayerHits_one]
          simp [bayerLast, hj, LUTu.bump]
        · have hn : (endc - j).toNat = 0 := by omega
          rw [hn, bayerHits_zero]
          simp [bayerLast, hj, LUTu.bump]

/-- The unrolled Bayer loop of `getAutoExpHistogram` adds 4 to the slot of
every column of `[start, end)` exactly once. -/
theorem bayerRow_bump (bin0 bin1 : Int → Nat) (start endc : Int) (h : LUTu) :
    bayerRow bin0 bin1 start endc h
      = h.bump (bayerHits bin0 bin1 start (endc - start).toNat) :=
  bayerRow_bump_aux bin0 bin1 endc _ start h (le_refl _)

theorem xtransRest_bump (binAt : Int → Nat) (endc : Int) :
    ∀ (fuel : Nat) (j : Int) (h : LUTu), (endc - j).toNat ≤ fuel →
      xtransRest binAt endc fuel j h
        = h.bump ((List.range (endc - j).toNat).map fun (k : Nat) =>
            ((binAt (j + (k : Int)), 4) : Nat × Count)) := by
  intro fuel
  induction fuel with
  | zero =>
      intro j h hf
      have hn : (endc - j).toNat = 0 := by omega
      rw [hn]
      rfl
  | succ fuel ih =>
      intro j h hf
      rw [xtransRest]
      by_cases hj : j < endc
      · rw [if_pos hj, ih _ _ (by omega)]
        have hn : (endc - j).toNat = 1 + (endc - (j + 1)).toNat := by omega
        rw [hn, List.range_add, List.map_append, bump_append, List.map_map]
        have e1 : List.range 1 = [0] := rfl
        rw [e1]
        have t : List.map ((fun (k : Nat) => ((binAt (j + (k : Int)), 4) : Nat × Count))
              ∘ fun x => 1 + x) (List.range (endc - (j + 1)).toNat)
            = List.map (fun (k : Nat) => ((binAt (j + 1 + (k : Int)), 4) : Nat × Count))
                (List.range (endc - (j + 1)).toNat) := by
          apply List.map_congr_left
          intro k _
          simp only [Function.comp_apply]
          have e3 : j + ((1 + k : Nat) : Int) = j + 1 + (k : Int) := by push_cast; ring
          rw [e3]
        rw [t]
        simp [LUTu.bump]
      · rw [if_neg hj]
        have hn : (endc - j).toNat = 0 := by omega
        rw [hn]
        rfl

theorem xtransHits_small (bin : Nat → Int → Nat) (binAt : Int → Nat) (j : Int) (n : Nat)
    (hn : n < 6) :
    xtransHits bin binAt j n
      = (List.range n).map fun (k : Nat) => ((binAt (j + (k : Int)), 4) : Nat × Count) := by
  unfold xtransHits
  have h0 : n / 6 = 0 := by omega
  rw [h0]
  simp

theorem xtransHits_add_six (bin : Nat → Int → Nat) (binAt : Int → Nat) (j : Int) (n : Nat) :
    xtransHits bin (fun x => binAt x) j (n + 6)
      = [(bin 0 j, 4), (bin 1 (j + 1), 4), (bin 2 (j + 2), 4), (bin 3 (j + 3), 4),
          (bin 4 (j + 4), 4), (bin 5 (j + 5), 4)]
        ++ xtransHits (fun k x => bin k x) binAt (j + 6) n := by
  unfold xtransHits
  have hq : (n + 6) / 6 = n / 6 + 1 := by omega
  rw [hq, show n + 6 = 6 + n by omega, List.range_add]
  have e6 : List.range 6 = [0, 1, 2, 3, 4, 5] := rfl
  rw [e6, List.map_append, List.map_map]
  have t : List.map ((fun (k : Nat) =>
        ((if k < 6 * (n / 6 + 1) then bin (k % 6) (j + (k : Int)) else binAt (j + (k : Int)), 4)
          : Nat × Count)) ∘ fun x => 6 + x) (List.range n)
      = List.map (fun (k : Nat) =>
        ((if k < 6 * (n / 6) then bin (k % 6) (j + 6 + (k : Int))
          else binAt (j + 6 + (k : Int)), 4) : Nat × Count)) (List.range n) := by
    apply List.map_congr_left
    intro k _
    simp only [Function.comp_apply]
    have e1 : (6 + k) % 6 = k % 6 := by omega
    have e2 : (6 + k < 6 * (n / 6 + 1)) ↔ (k < 6 * (n / 6)) := by omega
    have e3 : j + ((6 + k : Nat) : Int) = j + 6 + (k : Int) := by push_cast; ring
    rw [e1, e3]
    simp only [e2]
  rw [t]
  have c0 : (0 : Nat) < 6 * (n / 6 + 1) := by omega
  have c1 : (1 : Nat) < 6 * (n / 6 + 1) := by omega
  have c2 : (2 : Nat) < 6 * (n / 6 + 1) := by omega
  have c3 : (3 : Nat) < 6 * (n / 6 + 1) := by omega
  have c4 : (4 : Nat) < 6 * (n / 6 + 1) := by omega
  have c5 : (5 : Nat) < 6 * (n / 6 + 1) := by omega
  simp [c0, c1, c2, c3, c4, c5]

theorem xtransRow_bump_aux (bin : Nat → Int → Nat) (binAt : Int → Nat) (endc : Int) :
    ∀ (fuel : Nat) (j : Int) (h : LUTu), (endc - j).toNat ≤ fuel →
      xtransRest binAt endc (endc - (xtransSix bin endc fuel j h).1).toNat
          (xtransSix bin endc fuel j h).1 (xtransSix bin endc fuel j h).2
        = h.bump (xtransHits bin binAt j (endc - j).toNat) := by
  intro fuel
  induction fuel with
  | zero =>
      intro j h hf
      have hn : (endc - j).toNat = 0 := by omega
      simp only [xtransSix]
      rw [hn]
      rfl
  | succ fuel ih =>
      intro j h hf
      rw [xtransSix]
      by_cases hlt : j < endc - 5
      · rw [if_pos hlt, ih _ _ (by omega)]
        have hn : (endc - j).toNat = (endc - (j + 6)).toNat + 6 := by omega
        rw [hn, xtransHits_add_six bin binAt j, bump_append]
        rfl
      · rw [if_neg hlt]
        simp only []
        rw [xtransRest_bump binAt endc _ j h (le_refl _),
          xtransHits_small bin binAt j _ (by omega)]

/-- The unrolled X-Trans loop of `getAutoExpHistogram` and the loop that
follows it add 4 to the slot of every column of `[start, end)` exactly
once. -/
theorem xtransRow_bump (bin : Nat → Int → Nat) (binAt : Int → Nat) (start endc : Int)
    (h : LUTu) :
    xtransRow bin binAt start endc h
      = h.bump (xtransHits bin binAt start (endc - start).toNat) :=
  xtransRow_bump_aux bin binAt endc _ start h (le_refl _)

theorem monoRow_bump (bin : Int → Nat) (start endc : Int) (h : LUTu) :
    monoRow bin start endc h = h.bump ((intRange start endc).map fun j => (bin j, 1)) := by
  unfold monoRow LUTu.bump
  rw [List.foldl_map]

theorem colourRow_bump (bin : Nat → Int → Nat) (start endc : Int) (h : LUTu) :
    colourRow bin start endc h
      = h.bump ((intRange start endc).flatMap fun j =>
          [(bin 0 (3 * j + 0), 1), (bin 1 (3 * j + 1), 1), (bin 2 (3 * j + 2), 1)]) := by
  unfold colourRow
  generalize intRange start endc = cols
  induction cols generalizing h with
  | nil => rfl
  | cons j t ih =>
      rw [List.foldl_cons, ih, List.flatMap_cons, bump_append]
      rfl

theorem autoExpRow_bump (src : RawImageSource) (P : RawPlane) (i : Int) (h : LUTu) :
    src.autoExpRow P i h = h.bump (src.autoExpHits P i) := by
  unfold RawImageSource.autoExpRow RawImageSource.autoExpHits
  simp only []
  split_ifs
  · exact bayerRow_bump _ _ _ _ _
  · exact xtransRow_bump _ _ _ _ _
  · exact monoRow_bump _ _ _ _
  · exact colourRow_bump _ _ _ _

/-- C24: for every image and every distribution of its rows over any number
of workers (each row given to exactly one worker), accumulating each
worker's rows into a cleared thread-local histogram and adding the
thread-local histograms to the shared one gives the histogram obtained by
accumulating all rows sequentially, for the luma histogram `lhist16` of
`updatePreviewImage` and for `getAutoExpHistogram`; counters are unsigned
32-bit and wrap.  The row body of `getAutoExpHistogram` is, on every sensor
type, one increment sequence over the columns of `[start, end)`: the
unrolled Bayer loop (two columns per step, then at most one) adds 4 once per
column with the factor alternating from `start`, the unrolled X-Trans loop
(six columns per step, then the remaining ones) adds 4 once per column. -/
theorem histogram_fan_in (L : Nat → Nat → Nat) (pW pH : Nat) (parts : List (List Nat))
    (src : RawImageSource) (P : RawPlane) (rawParts : List (List Int))
    (hparts : parts.flatten.Perm (List.range pH))
    (hrawParts : rawParts.flatten.Perm (intRange src.border (src.H - src.border))) :
    lhist16 L pW parts = sequentialHistogram (lhistRow L pW) (List.range pH)
      ∧ src.getAutoExpHistogram P rawParts
          = sequentialHistogram (src.autoExpRow P) (intRange src.border (src.H - src.border))
      ∧ (∀ (bin0 bin1 : Int → Nat) (start endc : Int) (h : LUTu),
          bayerRow bin0 bin1 start endc h
            = h.bump ((List.range (endc - start).toNat).map fun (k : Nat) =>
                (if k % 2 = 0 then bin0 (start + (k : Int)) else bin1 (start + (k : Int)), 4)))
      ∧ (∀ (bin : Nat → Int → Nat) (binAt : Int → Nat) (start endc : Int) (h : LUTu),
          xtransRow bin binAt start endc h
            = h.bump ((List.range (endc - start).toNat).map fun (k : Nat) =>
                (if k < 6 * ((endc - start).toNat / 6) then bin (k % 6) (start + (k : Int))
                 else binAt (start + (k : Int)), 4)))
      ∧ ∀ (i : Int) (h : LUTu) (b : Nat),
          src.autoExpRow P i h b = h b + tally (src.autoExpHits P i) b :=
  ⟨fanIn_eq_sequential _ _ (lhistRow_bump L pW) parts _ hparts,
   fanIn_eq_sequential _ _ (autoExpRow_bump src P) rawParts _ hrawParts,
   fun bin0 bin1 start endc h => bayerRow_bump bin0 bin1 start endc h,
   fun bin binAt start endc h => xtransRow_bump bin binAt start endc h,
   fun i h b => by rw [autoExpRow_bump, bump_apply]⟩

/-- C24, witness: three rows of two pixels distributed over two workers, and
the four inner rows of an 8 x 6 Bayer image distributed over three
workers. -/
theorem histogram_fan_in_witness :
    [[2], [0, 1]].flatten.Perm (List.range 3)
      ∧ ([[3, 1], [4], [2]] : List (List Int)).flatten.Perm
          (intRange tinySource.border (tinySource.H - tinySource.border))
      ∧ lhist16 (fun x y => x + y) 2 [[2], [0, 1]]
          = sequentialHistogram (lhistRow (fun x y => x + y) 2) (List.range 3)
      ∧ tinySource.getAutoExpHistogram tinyPlane [[3, 1], [4], [2]]
          = sequentialHistogram (tinySource.autoExpRow tinyPlane)
              (intRange tinySource.border (tinySource.H - tinySource.border)) :=
  have h := histogram_fan_in (fun x y => x + y) 2 3 [[2], [0, 1]] tinySource tinyPlane
    [[3, 1], [4], [2]] (by decide) (by decide)
  ⟨by decide, by decide, h.1, h.2.1⟩

/-! ## Run serialization (C2): the claim -/

end rtengine
